import Mathlib

/-!
# Verification of the Unstable Unicorns rules engine

A shallow embedding of the game engine found in `src/game/game_state.py`,
`src/game/action.py`, `src/game/effect_handler.py` and `src/cards/effects.py`
(card/effect data model), together with proofs and refutations of the
specification's claims about it.

Modelling conventions:
* Python lists become Lean `List`s.  `list.append x` is `l ++ [x]`,
  `list.pop()` removes the last element, `list.remove x` removes the first
  occurrence (`List.erase`), `x in l` is list membership.
* Python's `random.shuffle` (and the deck reshuffles built on it) is modelled
  by an explicit `shuffle : List CardInstance → List CardInstance` parameter;
  theorems that depend on it take the hypothesis that `shuffle` permutes its
  input.
* Mutating methods become pure state transformers; code that can raise a
  Python exception (`TypeError`, `NameError`, unguarded `list.remove`,
  indexing a player list with `None`, ...) returns `Except String _`, with the
  error string naming the Python exception being modelled.
* `CardInstance.__eq__` compares `(card.id, instance_id)`; we use structural
  equality, which agrees with it on well-formed card data (a template id
  determines the template).
* The Python `resolution_stack` appends and pops at the tail.  We keep the
  most recently pushed task at the *head* of the Lean list (an order-reversing
  but otherwise exact representation); every push site below preserves the
  Python push order.
* `GameState.neigh_stack` is created dynamically by `_apply_neigh`
  (`hasattr` guards); we model it as a field that starts empty, which is
  observationally identical.  Pushing `card_being_played` onto it when that is
  `None` would poison the list for every later use, so the model raises there.
* `EffectTask` grows dynamic attributes `last_action_was_sacrifice`,
  `last_action_was_discard`, `last_action_was_destroy` via `setattr`; they are
  modelled as fields that start `false` (the `getattr` default).
-/

set_option maxHeartbeats 1000000

namespace UU

/-- `CardType` from `src/cards/card.py`. -/
inductive CardType where
  | BABY_UNICORN
  | BASIC_UNICORN
  | MAGICAL_UNICORN
  | UPGRADE
  | DOWNGRADE
  | MAGIC
  | INSTANT
deriving DecidableEq, Repr

/-- `EffectTrigger` from `src/cards/effects.py`. -/
inductive EffectTrigger where
  | NONE
  | ON_ENTER
  | ON_LEAVE
  | BEGINNING_OF_TURN
  | END_OF_TURN
  | CONTINUOUS
  | ON_PLAY
  | INSTANT
deriving DecidableEq, Repr

/-- `TargetType` from `src/cards/effects.py` (the variant the engine uses). -/
inductive TargetType where
  | NONE
  | SELF
  | CONTROLLER
  | ANY_PLAYER
  | OTHER_PLAYER
  | ANY_UNICORN
  | OWN_UNICORN
  | OTHER_UNICORN
  | ANY_CARD_IN_STABLE
  | OWN_CARD_IN_STABLE
  | OTHER_CARD_IN_STABLE
  | ANY_UPGRADE
  | OWN_UPGRADE
  | OTHER_UPGRADE
  | ANY_DOWNGRADE
  | OWN_DOWNGRADE
  | ANY_UPGRADE_OR_DOWNGRADE
  | CARD_IN_HAND
  | OWN_HAND
  | OTHER_HAND
  | CARD_IN_DISCARD
  | CARD_IN_DECK
  | BABY_UNICORN
deriving DecidableEq, Repr

/-- `ActionType` from `src/cards/effects.py`: the kinds of effect sub-actions.
(Distinct from the player-level `ActionType` of `src/game/action.py`,
modelled below as `ActionType`.) -/
inductive EffActionType where
  | DESTROY
  | SACRIFICE
  | STEAL
  | RETURN_TO_HAND
  | DISCARD
  | DRAW
  | SEARCH_DECK
  | BRING_TO_STABLE
  | SWAP
  | LOOK_AT_HAND
  | PULL_FROM_HAND
  | SHUFFLE_INTO_DECK
  | SKIP_TURN
  | EXTRA_ACTION
  | PROTECT
  | NEGATE
  | SELECT
  | ADD_TO_HAND
deriving DecidableEq, Repr

/-- `Card` from `src/cards/card.py` (immutable template). -/
structure Card where
  id : String
  name : String
  card_type : CardType
  description : String := ""
  effect_id : Option String := none
deriving DecidableEq, Repr

/-- `Card.is_unicorn`. -/
def Card.is_unicorn (c : Card) : Bool :=
  c.card_type = CardType.BABY_UNICORN ∨ c.card_type = CardType.BASIC_UNICORN ∨
    c.card_type = CardType.MAGICAL_UNICORN

/-- `CardInstance` from `src/cards/card.py`. -/
structure CardInstance where
  card : Card
  instance_id : Nat
deriving DecidableEq, Repr

/-- The `card_type` delegating property of `CardInstance`. -/
def CardInstance.card_type (c : CardInstance) : CardType := c.card.card_type

/-- The `effect_id` delegating property of `CardInstance`. -/
def CardInstance.effect_id (c : CardInstance) : Option String := c.card.effect_id

/-- `CardInstance.is_unicorn`. -/
def CardInstance.is_unicorn (c : CardInstance) : Bool := c.card.is_unicorn

/-- `EffectTarget` from `src/cards/effects.py`. -/
structure EffectTarget where
  target_type : TargetType
  count : Int := 1
  optional : Bool := false
  controller_chooses : Bool := true
deriving DecidableEq, Repr

/-- `EffectAction` from `src/cards/effects.py`. -/
structure EffectAction where
  action_type : EffActionType
  target : EffectTarget
  value : Int := 1
  condition : Option String := none
deriving DecidableEq, Repr

/-- `Effect` from `src/cards/effects.py`. -/
structure Effect where
  effect_id : String
  name : String
  trigger : EffectTrigger
  actions : List EffectAction := []
  description : String := ""
  modifies_rules : Bool := false
  rule_modifier : Option String := none
  condition : Option String := none
deriving DecidableEq, Repr

/-- `EffectTask` from `src/game/game_state.py`, one resolution-stack frame.
The three `last_action_was_*` booleans are the dynamic attributes set by
`EffectHandler._execute_action` via `setattr` and read back with
`getattr(_, _, False)`. -/
structure EffectTask where
  effect : Effect
  controller_idx : Nat
  source_card : CardInstance
  current_action_idx : Nat := 0
  targets_chosen : List (Option CardInstance) := []
  last_action_was_sacrifice : Bool := false
  last_action_was_discard : Bool := false
  last_action_was_destroy : Bool := false
deriving DecidableEq, Repr

/-- `GamePhase` from `src/game/game_state.py`. -/
inductive GamePhase where
  | BEGINNING
  | DRAW
  | ACTION
  | DISCARD_TO_LIMIT
  | END
  | GAME_OVER
deriving DecidableEq, Repr

/-- `PlayerState` from `src/game/game_state.py`. -/
structure PlayerState where
  player_idx : Nat
  name : String
  hand : List CardInstance := []
  stable : List CardInstance := []
  upgrades : List CardInstance := []
  downgrades : List CardInstance := []
  hand_visible : Bool := false
  cannot_play_upgrades : Bool := false
  cannot_play_instants : Bool := false
  cards_cannot_be_neighd : Bool := false
  unicorns_cannot_be_destroyed : Bool := false
  unicorns_are_basic : Bool := false
  unicorns_are_pandas : Bool := false
deriving DecidableEq, Repr

/-- `PlayerState.unicorn_count`: 1 per stable card, 2 for Ginormous Unicorn. -/
def PlayerState.unicorn_count (p : PlayerState) : Nat :=
  p.stable.foldl
    (fun acc c => if c.effect_id = some "ginormous_unicorn" then acc + 2 else acc + 1) 0

/-- `PlayerState.get_all_stable_cards`. -/
def PlayerState.get_all_stable_cards (p : PlayerState) : List CardInstance :=
  p.stable ++ p.upgrades ++ p.downgrades

/-- `PlayerState.has_downgrade`. -/
def PlayerState.has_downgrade (p : PlayerState) : Bool := p.downgrades.length > 0

/-- `GameState` from `src/game/game_state.py`.  The resolution stack is kept
most-recently-pushed-first; `neigh_stack` is the dynamic attribute created by
`_apply_neigh` (tail-append order preserved). -/
structure GameState where
  players : List PlayerState := []
  num_players : Nat := 2
  draw_pile : List CardInstance := []
  discard_pile : List CardInstance := []
  nursery : List CardInstance := []
  current_player_idx : Nat := 0
  phase : GamePhase := GamePhase.BEGINNING
  turn_number : Nat := 1
  actions_remaining : Int := 1
  unicorns_to_win : Nat := 7
  winner : Option Nat := none
  resolution_stack : List EffectTask := []
  card_being_played : Option CardInstance := none
  neigh_chain_active : Bool := false
  players_passed_on_neigh : List Nat := []
  neigh_stack : List CardInstance := []
deriving DecidableEq, Repr

/-- A throwaway `PlayerState`, used as the default of `List.getD` where Python
would raise `IndexError` on an out-of-range player index (theorems restrict to
states where the index is in range). -/
def dummyPlayer : PlayerState := { player_idx := 0, name := "" }

/-- `state.players[i]` (total via a default; see `dummyPlayer`). -/
def GameState.getP (s : GameState) (i : Nat) : PlayerState :=
  s.players.getD i dummyPlayer

/-- Replace `state.players[i]` (no-op when out of range, like `List.set`). -/
def GameState.setP (s : GameState) (i : Nat) (p : PlayerState) : GameState :=
  { s with players := s.players.set i p }

/-- `GameState.current_player`. -/
def GameState.current_player (s : GameState) : PlayerState :=
  s.getP s.current_player_idx

/-- `GameState.check_win_condition`: the first player that is not under
Pandamonium and has at least `unicorns_to_win` unicorns. -/
def GameState.check_win_condition (s : GameState) : Option Nat :=
  (s.players.find? fun p =>
    ¬ p.unicorns_are_pandas ∧ p.unicorn_count ≥ s.unicorns_to_win).map
    (fun p => p.player_idx)

/-- `GameState.get_other_players` (indices of the surviving order). -/
def GameState.get_other_players (s : GameState) (i : Nat) : List PlayerState :=
  s.players.filter (fun p => p.player_idx ≠ i)

/-- `GameState.get_next_player_idx`. -/
def GameState.get_next_player_idx (s : GameState) : Nat :=
  (s.current_player_idx + 1) % s.num_players

/-- The reshuffle step at the top of the `draw_card` loop: when the draw pile
is empty and the discard pile is not, the whole discard pile becomes the new
(shuffled) draw pile. -/
def GameState.refillIfEmpty (shuffle : List CardInstance → List CardInstance)
    (s : GameState) : GameState :=
  if s.draw_pile.isEmpty then
    if ¬ s.discard_pile.isEmpty then
      { s with draw_pile := shuffle s.discard_pile, discard_pile := [] }
    else s
  else s

/-- One iteration of the `draw_card` loop: refill from the discard pile when
the draw pile is empty, then pop the last card of the draw pile into the
player's hand. -/
def GameState.drawOne (shuffle : List CardInstance → List CardInstance)
    (s : GameState) (player_idx : Nat) : GameState × Option CardInstance :=
  match (s.refillIfEmpty shuffle).draw_pile.getLast? with
  | some card =>
      ({ (s.refillIfEmpty shuffle).setP player_idx
           { (s.refillIfEmpty shuffle).getP player_idx with
               hand := ((s.refillIfEmpty shuffle).getP player_idx).hand ++ [card] } with
           draw_pile := (s.refillIfEmpty shuffle).draw_pile.dropLast }, some card)
  | none => (s.refillIfEmpty shuffle, none)

/-- `GameState.draw_card`: draw `count` cards, reshuffling the discard pile
into the draw pile whenever the latter is empty; returns the drawn cards. -/
def GameState.draw_card (shuffle : List CardInstance → List CardInstance)
    (s : GameState) (player_idx : Nat) : Nat → GameState × List CardInstance
  | 0 => (s, [])
  | n + 1 =>
      match GameState.drawOne shuffle s player_idx with
      | (s₁, some card) =>
          let (s₂, rest) := GameState.draw_card shuffle s₁ player_idx n
          (s₂, card :: rest)
      | (s₁, none) => (s₁, [])

/-- `GameState.discard_card`: move a card from a player's hand to the discard
pile (silently does nothing when the card is not in that hand). -/
def GameState.discard_card (s : GameState) (card : CardInstance)
    (from_player_idx : Nat) : GameState :=
  if card ∈ (s.getP from_player_idx).hand then
    { s.setP from_player_idx
        { s.getP from_player_idx with
            hand := (s.getP from_player_idx).hand.erase card } with
        discard_pile := s.discard_pile ++ [card] }
  else s

/-- `GameState.add_to_stable`: file the card into the matching board list
(upgrades / downgrades / stable); any other card type is silently dropped. -/
def GameState.add_to_stable (s : GameState) (card : CardInstance)
    (player_idx : Nat) : GameState :=
  if card.card_type = CardType.UPGRADE then
    s.setP player_idx { s.getP player_idx with
      upgrades := (s.getP player_idx).upgrades ++ [card] }
  else if card.card_type = CardType.DOWNGRADE then
    s.setP player_idx { s.getP player_idx with
      downgrades := (s.getP player_idx).downgrades ++ [card] }
  else if card.is_unicorn then
    s.setP player_idx { s.getP player_idx with
      stable := (s.getP player_idx).stable ++ [card] }
  else s

/-- The list-removal part of `remove_from_stable`. -/
def GameState.removeStep (s : GameState) (card : CardInstance)
    (player_idx : Nat) : GameState :=
  if card ∈ (s.getP player_idx).stable then
    s.setP player_idx { s.getP player_idx with
      stable := (s.getP player_idx).stable.erase card }
  else if card ∈ (s.getP player_idx).upgrades then
    s.setP player_idx { s.getP player_idx with
      upgrades := (s.getP player_idx).upgrades.erase card }
  else if card ∈ (s.getP player_idx).downgrades then
    s.setP player_idx { s.getP player_idx with
      downgrades := (s.getP player_idx).downgrades.erase card }
  else s

/-- `GameState.remove_from_stable`: remove the card from whichever board list
holds it, then append it to the discard pile.  NOTE: faithfully to the source,
the discard append happens even when the card was in none of the three lists. -/
def GameState.remove_from_stable (s : GameState) (card : CardInstance)
    (player_idx : Nat) : GameState :=
  { s.removeStep card player_idx with
      discard_pile := (s.removeStep card player_idx).discard_pile ++ [card] }

/-- `GameState.get_baby_unicorn_from_nursery` (pops the last nursery card). -/
def GameState.get_baby_unicorn_from_nursery (s : GameState) :
    GameState × Option CardInstance :=
  match s.nursery.getLast? with
  | some card => ({ s with nursery := s.nursery.dropLast }, some card)
  | none => (s, none)

/-- `GameState.find_card_owner`: the first player holding the card in hand,
stable, upgrades or downgrades. -/
def GameState.find_card_owner (s : GameState) (card : CardInstance) : Option Nat :=
  (s.players.find? fun p =>
    card ∈ p.hand ∨ card ∈ p.stable ∨ card ∈ p.upgrades ∨ card ∈ p.downgrades).map
    (fun p => p.player_idx)

/-- The effect registry (`EFFECT_REGISTRY` in `src/cards/effects.py`) as
read-only data: an association list from effect id to `Effect`.  The engine is
modelled parametrically in it. -/
def Registry : Type := List (String × Effect)

/-- `EFFECT_REGISTRY.get(effect_id)` where `effect_id` may be `None`
(a `None` key is never registered, so the lookup returns `None`). -/
def regLookup (reg : Registry) (oid : Option String) : Option Effect :=
  match oid with
  | none => none
  | some i => ((reg : List (String × Effect)).find? (fun e => e.1 = i)).map (fun e => e.2)

/-- `EffectHandler._check_condition`. -/
def checkCondition (s : GameState) (task : EffectTask) (condition : String) : Bool :=
  if condition = "if_sacrificed" then task.last_action_was_sacrifice
  else if condition = "if_discarded" then task.last_action_was_discard
  else if condition = "unicorn_card" then true
  else if condition = "if_downgrade_in_stable" then
    (s.getP task.controller_idx).downgrades.length > 0
  else if condition = "if_no_baby_unicorns" then
    ¬ (s.getP task.controller_idx).stable.any
        (fun c => c.card_type = CardType.BABY_UNICORN)
  else if condition = "magic_card" then true
  else if condition = "narwhal_card" then true
  else true

/-- `EffectHandler.trigger_enter_events` pushes tasks onto the resolution
stack and mutates nothing else; we return the tasks in Python append order
(first pushed first).  Own ON_ENTER effect (unless Blinding Light negates a
unicorn's effect), then the Barbed Wire listeners. -/
def pushEnterEvents (reg : Registry) (s : GameState) (card : CardInstance)
    (controller_idx : Nat) : List EffectTask :=
  let own : List EffectTask :=
    match regLookup reg card.effect_id with
    | some e =>
        if e.trigger = EffectTrigger.ON_ENTER ∧
            ¬ (card.is_unicorn ∧ (s.getP controller_idx).unicorns_are_basic) then
          [{ effect := e, controller_idx := controller_idx, source_card := card }]
        else []
    | none => []
  let listeners : List EffectTask :=
    s.players.flatMap fun player =>
      player.get_all_stable_cards.flatMap fun stable_card =>
        match regLookup reg stable_card.effect_id with
        | some le =>
            if le.trigger = EffectTrigger.ON_ENTER ∧ stable_card ≠ card ∧
                stable_card.effect_id = some "barbed_wire" ∧
                card.is_unicorn ∧ player.player_idx = controller_idx then
              [{ effect := le, controller_idx := player.player_idx,
                 source_card := stable_card }]
            else []
        | none => []
  own ++ listeners

/-- `EffectHandler.trigger_leave_events`, same conventions as
`pushEnterEvents`.  Faithfully to the source, the listener arm checks only
that the lookup succeeded and the listener is Barbed Wire (no trigger check),
and scans only the previous owner's board. -/
def pushLeaveEvents (reg : Registry) (s : GameState) (card : CardInstance)
    (previous_owner_idx : Nat) : List EffectTask :=
  let own : List EffectTask :=
    match regLookup reg card.effect_id with
    | some e =>
        if e.trigger = EffectTrigger.ON_LEAVE then
          [{ effect := e, controller_idx := previous_owner_idx, source_card := card }]
        else []
    | none => []
  let listeners : List EffectTask :=
    (s.getP previous_owner_idx).get_all_stable_cards.flatMap fun stable_card =>
      if stable_card = card then []
      else
        match regLookup reg stable_card.effect_id with
        | some le =>
            if stable_card.effect_id = some "barbed_wire" ∧ card.is_unicorn then
              [{ effect := le, controller_idx := previous_owner_idx,
                 source_card := stable_card }]
            else []
        | none => []
  own ++ listeners

/-- `discard_pile.pop()` guarded by `discard_pile and discard_pile[-1] == c`
(the pattern `_execute_action` uses after `remove_from_stable` to undo the
unconditional discard append). -/
def GameState.popDiscardIfLast (s : GameState) (c : CardInstance) : GameState :=
  if s.discard_pile.getLast? = some c then
    { s with discard_pile := s.discard_pile.dropLast }
  else s

/-- `EffectHandler._execute_action`.  Returns the updated state, the task with
its `last_action_was_*` attributes updated, and the tasks pushed onto the
resolution stack (in Python append order).  `target` is the resolved target:
`targets_chosen` entries are always `None` or a `CardInstance` (the only
values `ActionType.CHOOSE_TARGET` ever appends), so the
`isinstance(target, int)` arm of `PULL_FROM_HAND` is unreachable and omitted.
Errors model the Python exceptions noted on each arm. -/
def executeAction (reg : Registry) (shuffle : List CardInstance → List CardInstance)
    (s : GameState) (task : EffectTask) (action_def : EffectAction)
    (target₀ : Option CardInstance) :
    Except String (GameState × EffectTask × List EffectTask) :=
  let target : Option CardInstance :=
    match target₀ with
    | none =>
        if action_def.target.target_type = TargetType.SELF then some task.source_card
        else none
    | some t => some t
  match action_def.action_type with
  | EffActionType.DRAW =>
      let count := action_def.value.toNat
      .ok ((GameState.draw_card shuffle s task.controller_idx count).1, task, [])
  | EffActionType.DISCARD =>
      if action_def.value = -1 then
        let hand := (s.getP task.controller_idx).hand
        let s₁ := hand.foldl (fun st c => st.discard_card c task.controller_idx) s
        .ok (s₁, { task with last_action_was_discard := true }, [])
      else
        match target with
        | some t =>
            match s.find_card_owner t with
            | some o =>
                .ok (s.discard_card t o, { task with last_action_was_discard := true }, [])
            | none =>
                -- `discard_card(target, None)` indexes `players[None]`.
                .error "TypeError: list indices must be integers, not NoneType"
        | none => .ok (s, task, [])
  | EffActionType.DESTROY =>
      match target with
      | some t =>
          match s.find_card_owner t with
          | some o =>
              let tp := s.getP o
              if tp.unicorns_cannot_be_destroyed ∧ t.is_unicorn then .ok (s, task, [])
              else if t.effect_id = some "magical_kittencorn" then .ok (s, task, [])
              else
                let s₁ := s.remove_from_stable t o
                .ok (s₁, { task with last_action_was_destroy := true },
                     pushLeaveEvents reg s₁ t o)
          | none => .ok (s, task, [])
      | none => .ok (s, task, [])
  | EffActionType.SACRIFICE =>
      match target with
      | some t =>
          let s₁ := s.remove_from_stable t task.controller_idx
          .ok (s₁, { task with last_action_was_sacrifice := true },
               pushLeaveEvents reg s₁ t task.controller_idx)
      | none => .ok (s, task, [])
  | EffActionType.STEAL =>
      match target with
      | some t =>
          match s.find_card_owner t with
          | some o =>
              let s₁ := (s.remove_from_stable t o).popDiscardIfLast t
              let s₂ := s₁.add_to_stable t task.controller_idx
              .ok (s₂, task, pushEnterEvents reg s₂ t task.controller_idx)
          | none => .ok (s, task, [])
      | none => .ok (s, task, [])
  | EffActionType.RETURN_TO_HAND =>
      match target with
      | some t =>
          match s.find_card_owner t with
          | some o =>
              let s₁ := (s.remove_from_stable t o).popDiscardIfLast t
              let p := s₁.getP o
              let s₂ := s₁.setP o { p with hand := p.hand ++ [t] }
              .ok (s₂, task, pushLeaveEvents reg s₂ t o)
          | none => .ok (s, task, [])
      | none => .ok (s, task, [])
  | EffActionType.BRING_TO_STABLE =>
      match target with
      | some t =>
          let s₁ :=
            if t ∈ s.discard_pile then
              { s with discard_pile := s.discard_pile.erase t }
            else if t ∈ s.nursery then
              { s with nursery := s.nursery.erase t }
            else s
          let s₂ := s₁.add_to_stable t task.controller_idx
          .ok (s₂, task, pushEnterEvents reg s₂ t task.controller_idx)
      | none => .ok (s, task, [])
  | EffActionType.SEARCH_DECK =>
      match target with
      | some t =>
          if t ∈ s.draw_pile then
            let p := s.getP task.controller_idx
            let s₁ := { s.setP task.controller_idx { p with hand := p.hand ++ [t] } with
                          draw_pile := shuffle (s.draw_pile.erase t) }
            .ok (s₁, task, [])
          else .ok (s, task, [])
      | none => .ok (s, task, [])
  | EffActionType.SWAP =>
      if task.targets_chosen.length ≥ 2 then
        let card1 := (task.targets_chosen.get? (task.targets_chosen.length - 2)).getD none
        let card2 := (task.targets_chosen.get? (task.targets_chosen.length - 1)).getD none
        match card1, card2 with
        | some c1, some c2 =>
            match s.find_card_owner c1, s.find_card_owner c2 with
            | some o1, some o2 =>
                let s₁ := (s.remove_from_stable c1 o1).popDiscardIfLast c1
                let s₂ := (s₁.remove_from_stable c2 o2).popDiscardIfLast c2
                let s₃ := s₂.add_to_stable c1 o2
                let s₄ := s₃.add_to_stable c2 o1
                .ok (s₄, task, [])
            | _, _ => .ok (s, task, [])
        | _, _ => .ok (s, task, [])
      else .ok (s, task, [])
  | EffActionType.SHUFFLE_INTO_DECK =>
      match target with
      | some t =>
          match s.find_card_owner t with
          | some o =>
              let p := s.getP o
              let s₁ :=
                if t ∈ p.hand then s.setP o { p with hand := p.hand.erase t }
                else (s.remove_from_stable t o).popDiscardIfLast t
              let s₂ := { s₁ with draw_pile := shuffle (s₁.draw_pile ++ [t]) }
              .ok (s₂, task, [])
          | none => .ok (s, task, [])
      | none => .ok (s, task, [])
  | EffActionType.PULL_FROM_HAND =>
      match target with
      | some t =>
          match s.find_card_owner t with
          | some o =>
              let p := s.getP o
              if t ∈ p.hand then
                let s₁ := s.setP o { p with hand := p.hand.erase t }
                let q := s₁.getP task.controller_idx
                .ok (s₁.setP task.controller_idx { q with hand := q.hand ++ [t] }, task, [])
              else
                -- unguarded `hand.remove(target)` on a card not in the hand
                .error "ValueError: list.remove(x): x not in list"
          | none => .ok (s, task, [])
      | none => .ok (s, task, [])
  | EffActionType.LOOK_AT_HAND => .ok (s, task, [])
  | EffActionType.ADD_TO_HAND =>
      match target with
      | some t =>
          let s₁ :=
            if t ∈ s.discard_pile then
              { s with discard_pile := s.discard_pile.erase t }
            else if t ∈ s.nursery then
              { s with nursery := s.nursery.erase t }
            else s
          let p := s₁.getP task.controller_idx
          .ok (s₁.setP task.controller_idx { p with hand := p.hand ++ [t] }, task, [])
      | none => .ok (s, task, [])
  | EffActionType.SELECT => .ok (s, task, [])
  | _ => .ok (s, task, [])

/-- A throwaway `EffectAction` used as `getD` default where the index is
already known to be in range. -/
def dummyEffectAction : EffectAction :=
  { action_type := EffActionType.SELECT, target := { target_type := TargetType.NONE } }

/-- `if <condition attr present> and not _check_condition(...)` as a Bool. -/
def condFails (s : GameState) (task : EffectTask) (oc : Option String) : Bool :=
  match oc with
  | some c => ¬ checkCondition s task c
  | none => false

/-- `EffectHandler.process_stack`: drain the resolution stack until it is
empty or an external target choice is needed.  One unit of fuel per loop
iteration; running out of fuel with a non-empty stack is an error (the
Python loop would simply keep iterating). -/
def processStack (reg : Registry) (shuffle : List CardInstance → List CardInstance) :
    Nat → GameState → Except String GameState
  | 0, s => if s.resolution_stack.isEmpty then .ok s else .error "processStack: out of fuel"
  | fuel + 1, s =>
    match s.resolution_stack with
    | [] => .ok s
    | task :: rest =>
      if task.current_action_idx = 0 ∧ condFails s task task.effect.condition then
        processStack reg shuffle fuel { s with resolution_stack := rest }
      else if task.effect.actions.length ≤ task.current_action_idx then
        processStack reg shuffle fuel { s with resolution_stack := rest }
      else
        let action_def := (task.effect.actions.get? task.current_action_idx).getD
          dummyEffectAction
        if condFails s task action_def.condition then
          let task₁ :=
            { task with
                targets_chosen :=
                  if task.targets_chosen.length ≤ task.current_action_idx
                  then task.targets_chosen ++ [none] else task.targets_chosen,
                current_action_idx := task.current_action_idx + 1 }
          processStack reg shuffle fuel { s with resolution_stack := task₁ :: rest }
        else if task.targets_chosen.length ≤ task.current_action_idx then
          let needs_target :=
            ¬ (action_def.target.target_type = TargetType.NONE ∨
               action_def.target.target_type = TargetType.SELF ∨
               action_def.target.target_type = TargetType.CONTROLLER) ∧
            action_def.value ≠ -1
          if needs_target then .ok s
          else do
            let (s₁, task₁, pushed) ← executeAction reg shuffle s task action_def none
            let task₂ :=
              { task₁ with
                  targets_chosen := task₁.targets_chosen ++ [none],
                  current_action_idx := task₁.current_action_idx + 1 }
            processStack reg shuffle fuel
              { s₁ with resolution_stack := pushed.reverse ++ task₂ :: rest }
        else do
          let target := (task.targets_chosen.get? task.current_action_idx).getD none
          let (s₁, task₁, pushed) ← executeAction reg shuffle s task action_def target
          let task₂ := { task₁ with current_action_idx := task₁.current_action_idx + 1 }
          processStack reg shuffle fuel
            { s₁ with resolution_stack := pushed.reverse ++ task₂ :: rest }

/-- `ActionType` from `src/game/action.py`: the player-level action kinds. -/
inductive ActionType where
  | DRAW_CARD
  | PLAY_CARD
  | END_ACTION_PHASE
  | NEIGH
  | PASS_NEIGH
  | CHOOSE_TARGET
  | SACRIFICE
  | DESTROY
  | DISCARD
  | STEAL
  | SEARCH_DECK
  | BRING_FROM_DISCARD
  | RETURN_TO_HAND
  | BRING_BABY
deriving DecidableEq, Repr

/-- `Action` from `src/game/action.py`. -/
structure Action where
  action_type : ActionType
  player_idx : Nat
  card : Option CardInstance := none
  target_card : Option CardInstance := none
  target_player_idx : Option Nat := none
  target_cards : Option (List CardInstance) := none
deriving DecidableEq, Repr

/-- `_can_play_card` from `src/game/action.py`. -/
def canPlayCard (s : GameState) (player_idx : Nat) (card : CardInstance) : Bool :=
  let p := s.getP player_idx
  if card.card_type = CardType.UPGRADE ∧ p.cannot_play_upgrades then false
  else if card.card_type = CardType.INSTANT then false
  else if card.card_type = CardType.DOWNGRADE then
    (s.get_other_players player_idx).length > 0
  else if card.card_type = CardType.BASIC_UNICORN ∧
      s.players.any (fun q => q.player_idx ≠ player_idx ∧
        q.stable.any (fun c => c.effect_id = some "queen_bee_unicorn")) then
    false
  else true

/-- `_get_neigh_actions`: find the first eligible responder clockwise from the
actor and offer them a pass plus one Neigh action per instant in hand. -/
def getNeighActions (s : GameState) : List Action :=
  let found := (List.range s.num_players).findSome? fun i =>
    let r := (s.current_player_idx + 1 + i) % s.num_players
    if r ∈ s.players_passed_on_neigh then none
    else if r = s.current_player_idx then none
    else if (s.getP r).cannot_play_instants then none
    else some r
  match found with
  | some r =>
      { action_type := ActionType.PASS_NEIGH, player_idx := r } ::
        ((s.getP r).hand.filter (fun c => c.card_type = CardType.INSTANT)).map
          (fun c => { action_type := ActionType.NEIGH, player_idx := r, card := some c })
  | none => []

/-- `_get_valid_targets`: card targets on the left, player targets (the
`PlayerState` objects the Python code collects) on the right. -/
def getValidTargets (s : GameState) (tt : TargetType) (controller_idx : Nat) :
    List (Sum CardInstance PlayerState) :=
  let player := s.getP controller_idx
  match tt with
  | TargetType.OTHER_PLAYER => (s.get_other_players controller_idx).map Sum.inr
  | TargetType.ANY_PLAYER => s.players.map Sum.inr
  | TargetType.ANY_UNICORN =>
      s.players.flatMap fun p =>
        if p.unicorns_are_pandas then [] else p.stable.map Sum.inl
  | TargetType.OWN_UNICORN => player.stable.map Sum.inl
  | TargetType.OTHER_UNICORN =>
      (s.get_other_players controller_idx).flatMap fun p => p.stable.map Sum.inl
  | TargetType.ANY_UPGRADE => s.players.flatMap fun p => p.upgrades.map Sum.inl
  | TargetType.OWN_UPGRADE => player.upgrades.map Sum.inl
  | TargetType.OTHER_UPGRADE =>
      (s.get_other_players controller_idx).flatMap fun p => p.upgrades.map Sum.inl
  | TargetType.ANY_DOWNGRADE => s.players.flatMap fun p => p.downgrades.map Sum.inl
  | TargetType.OWN_DOWNGRADE => player.downgrades.map Sum.inl
  | TargetType.ANY_UPGRADE_OR_DOWNGRADE =>
      s.players.flatMap fun p => (p.upgrades ++ p.downgrades).map Sum.inl
  | TargetType.OWN_CARD_IN_STABLE => player.get_all_stable_cards.map Sum.inl
  | TargetType.OTHER_CARD_IN_STABLE =>
      (s.get_other_players controller_idx).flatMap fun p =>
        p.get_all_stable_cards.map Sum.inl
  | TargetType.ANY_CARD_IN_STABLE =>
      s.players.flatMap fun p => p.get_all_stable_cards.map Sum.inl
  | TargetType.CARD_IN_DISCARD => s.discard_pile.map Sum.inl
  | TargetType.BABY_UNICORN => s.nursery.map Sum.inl
  | TargetType.OWN_HAND => player.hand.map Sum.inl
  | _ => []

/-- The body of `_get_effect_choice_actions(state, action)` as defined (its
second parameter is never used by the body).  `get_legal_actions` calls it
with only one argument, which raises before this body runs — see
`getLegalActions`. -/
def getEffectChoiceActionsBody (s : GameState) (_a : Action) : List Action :=
  match s.resolution_stack with
  | [] => []
  | task :: _ =>
      if task.effect.actions.length ≤ task.current_action_idx then []
      else
        let action_def := (task.effect.actions.get? task.current_action_idx).getD
          dummyEffectAction
        let target_type := action_def.target.target_type
        let controller_idx := task.controller_idx
        let valid := getValidTargets s target_type controller_idx
        let base : List Action :=
          (if action_def.target.optional then
            [{ action_type := ActionType.CHOOSE_TARGET, player_idx := controller_idx }]
          else []) ++
          valid.map fun t =>
            match t with
            | Sum.inl c =>
                { action_type := ActionType.CHOOSE_TARGET, player_idx := controller_idx,
                  target_card := some c }
            | Sum.inr p =>
                { action_type := ActionType.CHOOSE_TARGET, player_idx := controller_idx,
                  target_player_idx := some p.player_idx }
        if base.isEmpty ∧ ¬ action_def.target.optional then
          [{ action_type := ActionType.CHOOSE_TARGET, player_idx := controller_idx }]
        else base

/-- `get_legal_actions`.  When the resolution stack is non-empty (and no Neigh
chain is active) the source calls `_get_effect_choice_actions(state)`, whose
signature demands a second positional argument; CPython raises `TypeError`
before entering that function, which we model as an error result. -/
def getLegalActions (s : GameState) : Except String (List Action) :=
  let player_idx := s.current_player_idx
  let player := s.current_player
  if s.neigh_chain_active then .ok (getNeighActions s)
  else if ¬ s.resolution_stack.isEmpty then
    .error "TypeError: _get_effect_choice_actions() missing 1 required positional argument: action"
  else
    match s.phase with
    | GamePhase.DRAW =>
        if ¬ s.draw_pile.isEmpty ∨ ¬ s.discard_pile.isEmpty then
          .ok [{ action_type := ActionType.DRAW_CARD, player_idx := player_idx }]
        else
          .ok [{ action_type := ActionType.END_ACTION_PHASE, player_idx := player_idx }]
    | GamePhase.ACTION =>
        let plays : List Action :=
          if s.actions_remaining > 0 then
            player.hand.flatMap fun card =>
              if card.card_type = CardType.DOWNGRADE then
                (s.get_other_players player_idx).map fun tp =>
                  { action_type := ActionType.PLAY_CARD, player_idx := player_idx,
                    card := some card, target_player_idx := some tp.player_idx }
              else if canPlayCard s player_idx card then
                [{ action_type := ActionType.PLAY_CARD, player_idx := player_idx,
                   card := some card }]
              else []
          else []
        .ok ({ action_type := ActionType.END_ACTION_PHASE, player_idx := player_idx } :: plays)
    | GamePhase.DISCARD_TO_LIMIT =>
        if player.hand.length > 7 then
          .ok (player.hand.map fun card =>
            { action_type := ActionType.DISCARD, player_idx := player_idx,
              target_card := some card })
        else .ok []
    | _ => .ok []

/-- `_update_player_flags`: reset all rule-modifier flags, then recompute them
by scanning the player's upgrades, downgrades and stable. -/
def updatePlayerFlags (s : GameState) (player_idx : Nat) : GameState :=
  let p := s.getP player_idx
  let p := { p with
    hand_visible := false, cannot_play_upgrades := false,
    cannot_play_instants := false, cards_cannot_be_neighd := false,
    unicorns_cannot_be_destroyed := false, unicorns_are_basic := false,
    unicorns_are_pandas := false }
  let p := p.upgrades.foldl (fun q c =>
    if c.effect_id = some "yay" then { q with cards_cannot_be_neighd := true }
    else if c.effect_id = some "rainbow_aura" then
      { q with unicorns_cannot_be_destroyed := true }
    else q) p
  let p := p.downgrades.foldl (fun q c =>
    if c.effect_id = some "blinding_light" then { q with unicorns_are_basic := true }
    else if c.effect_id = some "broken_stable" then { q with cannot_play_upgrades := true }
    else if c.effect_id = some "slowdown" then { q with cannot_play_instants := true }
    else if c.effect_id = some "nanny_cam" then { q with hand_visible := true }
    else if c.effect_id = some "pandamonium" then { q with unicorns_are_pandas := true }
    else q) p
  let p := p.stable.foldl (fun q c =>
    if c.effect_id = some "classy_narwhal" then { q with hand_visible := true }
    else q) p
  s.setP player_idx p

/-- `_trigger_effect`: push the card's registered effect and drain. -/
def triggerEffect (reg : Registry) (shuffle : List CardInstance → List CardInstance)
    (fuel : Nat) (s : GameState) (card : CardInstance) (controller_idx : Nat) :
    Except String GameState :=
  match regLookup reg card.effect_id with
  | some e =>
      processStack reg shuffle fuel
        { s with resolution_stack :=
            { effect := e, controller_idx := controller_idx, source_card := card } ::
              s.resolution_stack }
  | none => .ok s

/-- `_trigger_enter_events` from `src/game/action.py`: push the enter-trigger
tasks (same push logic as `EffectHandler.trigger_enter_events`) and drain. -/
def triggerEnterEventsA (reg : Registry) (shuffle : List CardInstance → List CardInstance)
    (fuel : Nat) (s : GameState) (card : CardInstance) (controller_idx : Nat) :
    Except String GameState :=
  processStack reg shuffle fuel
    { s with resolution_stack :=
        (pushEnterEvents reg s card controller_idx).reverse ++ s.resolution_stack }

/-- `_resolve_card`: resolve a successfully played card.  The DOWNGRADE arm of
the source reads `action.target_player_idx`, but no name `action` is in scope
inside `_resolve_card`, so CPython raises `NameError` there.  A card type
matching no arm (an instant) is silently dropped. -/
def resolveCard (reg : Registry) (shuffle : List CardInstance → List CardInstance)
    (fuel : Nat) (s : GameState) (card : CardInstance) (player_idx : Nat) :
    Except String GameState :=
  if card.card_type = CardType.MAGIC then do
    let s₁ ← triggerEffect reg shuffle fuel s card player_idx
    .ok { s₁ with discard_pile := s₁.discard_pile ++ [card] }
  else if card.card_type = CardType.UPGRADE then
    .ok (updatePlayerFlags (s.add_to_stable card player_idx) player_idx)
  else if card.card_type = CardType.DOWNGRADE then
    .error "NameError: name action is not defined"
  else if card.is_unicorn then
    triggerEnterEventsA reg shuffle fuel (s.add_to_stable card player_idx) card player_idx
  else .ok s

/-- `_process_beginning_of_turn`. -/
def processBeginningOfTurn (reg : Registry)
    (shuffle : List CardInstance → List CardInstance) (fuel : Nat) (s : GameState) :
    Except String GameState :=
  let player := s.current_player
  if player.unicorns_are_basic then .ok { s with phase := GamePhase.DRAW }
  else do
    let tasks := player.get_all_stable_cards.flatMap fun c =>
      match regLookup reg c.effect_id with
      | some e =>
          if e.trigger = EffectTrigger.BEGINNING_OF_TURN then
            [{ effect := e, controller_idx := s.current_player_idx, source_card := c }]
          else []
      | none => []
    let s₁ ← processStack reg shuffle fuel
      { s with resolution_stack := tasks.reverse ++ s.resolution_stack }
    .ok { s₁ with phase := GamePhase.DRAW }

/-- `_process_end_of_turn`: push end-of-turn triggers, drain, and when the
stack has emptied advance to the next player's beginning of turn. -/
def processEndOfTurn (reg : Registry) (shuffle : List CardInstance → List CardInstance)
    (fuel : Nat) (s : GameState) : Except String GameState := do
  let player := s.current_player
  let tasks := player.get_all_stable_cards.flatMap fun c =>
    match regLookup reg c.effect_id with
    | some e =>
        if e.trigger = EffectTrigger.END_OF_TURN then
          [{ effect := e, controller_idx := s.current_player_idx, source_card := c }]
        else []
    | none => []
  let s₁ := { s with resolution_stack := tasks.reverse ++ s.resolution_stack }
  let s₂ ← if s₁.resolution_stack.isEmpty then pure s₁
           else processStack reg shuffle fuel s₁
  if s₂.resolution_stack.isEmpty then
    processBeginningOfTurn reg shuffle fuel
      { s₂ with current_player_idx := s₂.get_next_player_idx,
                turn_number := s₂.turn_number + 1,
                phase := GamePhase.BEGINNING, actions_remaining := 1 }
  else .ok s₂

/-- `_apply_play_card`: remove the card from hand, open a Neigh chain when an
opponent holds an instant (leaving the card in `card_being_played`), otherwise
resolve it and consume one action. -/
def applyPlayCard (reg : Registry) (shuffle : List CardInstance → List CardInstance)
    (fuel : Nat) (s : GameState) (action : Action) : Except String GameState :=
  match action.card with
  | none => .ok s
  | some card =>
      let player := s.getP action.player_idx
      if card ∈ player.hand then
        let s₁ := s.setP action.player_idx { player with hand := player.hand.erase card }
        let any_can_neigh :=
          s₁.players.any fun p =>
            p.player_idx ≠ action.player_idx ∧ ¬ p.cannot_play_instants ∧
              p.hand.any (fun c => c.card_type = CardType.INSTANT)
        if ¬ player.cards_cannot_be_neighd ∧ any_can_neigh then
          .ok { s₁ with card_being_played := some card, neigh_chain_active := true,
                        players_passed_on_neigh := [] }
        else do
          let s₂ ← resolveCard reg shuffle fuel s₁ card action.player_idx
          .ok { s₂ with actions_remaining := s₂.actions_remaining - 1 }
      else .ok s

/-- `_apply_neigh`.  A Super Neigh discards the contested card and itself and
closes the chain (leaving `neigh_stack` untouched); an ordinary Neigh becomes
the new contested card and pushes the previous one onto `neigh_stack`.
An absent `action.card` would dereference `None` (`AttributeError`); pushing a
`None` `card_being_played` would poison `neigh_stack` for every later read, so
the model raises there as well. -/
def applyNeigh (s : GameState) (action : Action) : Except String GameState :=
  match action.card with
  | none => .error "AttributeError: NoneType object has no attribute card"
  | some neigh_card =>
      let p := s.getP action.player_idx
      let s₁ :=
        if neigh_card ∈ p.hand then
          s.setP action.player_idx { p with hand := p.hand.erase neigh_card }
        else s
      if neigh_card.effect_id = some "super_neigh" then
        let s₂ :=
          match s₁.card_being_played with
          | some c => { s₁ with discard_pile := s₁.discard_pile ++ [c] }
          | none => s₁
        .ok { s₂ with discard_pile := s₂.discard_pile ++ [neigh_card],
                      card_being_played := none, neigh_chain_active := false,
                      players_passed_on_neigh := [] }
      else
        match s₁.card_being_played with
        | some original =>
            .ok { s₁ with card_being_played := some neigh_card,
                          players_passed_on_neigh := [],
                          neigh_stack := s₁.neigh_stack ++ [original] }
        | none => .error "neigh_stack would receive None"

/-- Append the final discard of `card_being_played` (the `if card:` at the
end of the chain resolution), when there is one. -/
def discardOpt (s : GameState) (c? : Option CardInstance) : GameState :=
  match c? with
  | some c => { s with discard_pile := s.discard_pile ++ [c] }
  | none => s

/-- `state.players_passed_on_neigh.add(action.player_idx)`. -/
def recordPass (s : GameState) (i : Nat) : GameState :=
  { s with players_passed_on_neigh :=
      if i ∈ s.players_passed_on_neigh then s.players_passed_on_neigh
      else s.players_passed_on_neigh ++ [i] }

/-- The all-passed check of `_apply_pass_neigh`: every player other than the
actor has passed, is barred from instants, or holds no instant. -/
def allPassedNow (s : GameState) : Bool :=
  s.players.all fun p =>
    p.player_idx = s.current_player_idx ∨
    p.player_idx ∈ s.players_passed_on_neigh ∨
    p.cannot_play_instants ∨
    ¬ p.hand.any (fun c => c.card_type = CardType.INSTANT)

/-- `_apply_pass_neigh`: record the pass; once every eligible player has
passed, settle the chain by the parity of `len(neigh_stack)` and consume one
action. -/
def applyPassNeigh (reg : Registry) (shuffle : List CardInstance → List CardInstance)
    (fuel : Nat) (s : GameState) (action : Action) : Except String GameState :=
  if allPassedNow (recordPass s action.player_idx) then
    match (recordPass s action.player_idx).neigh_stack with
    | h :: t => do
        let s₂ ←
          if (h :: t).length % 2 = 0 then
            resolveCard reg shuffle fuel (recordPass s action.player_idx) h
              (recordPass s action.player_idx).current_player_idx
          else
            .ok { recordPass s action.player_idx with
                  discard_pile :=
                    (recordPass s action.player_idx).discard_pile ++ [h] }
        .ok { (discardOpt { s₂ with discard_pile := s₂.discard_pile ++ t }
                (recordPass s action.player_idx).card_being_played) with
              neigh_stack := [], card_being_played := none,
              neigh_chain_active := false, players_passed_on_neigh := [],
              actions_remaining :=
                (discardOpt { s₂ with discard_pile := s₂.discard_pile ++ t }
                  (recordPass s action.player_idx).card_being_played).actions_remaining
                  - 1 }
    | [] => do
        let s₂ ←
          match (recordPass s action.player_idx).card_being_played with
          | some c =>
              if c.card_type ≠ CardType.INSTANT then
                resolveCard reg shuffle fuel (recordPass s action.player_idx) c
                  (recordPass s action.player_idx).current_player_idx
              else .ok (recordPass s action.player_idx)
          | none => .ok (recordPass s action.player_idx)
        .ok { s₂ with
              card_being_played := none, neigh_chain_active := false,
              players_passed_on_neigh := [],
              actions_remaining := s₂.actions_remaining - 1 }
  else .ok (recordPass s action.player_idx)

/-- The win-condition re-check at the end of `apply_action`. -/
def winUpdate (s : GameState) : GameState :=
  match s.check_win_condition with
  | some w => { s with winner := some w, phase := GamePhase.GAME_OVER }
  | none => s

/-- The dispatch part of `apply_action` (everything before the final
win-condition re-check, which every arm of the source falls through to). -/
def applyActionCore (reg : Registry) (shuffle : List CardInstance → List CardInstance)
    (fuel : Nat) (s : GameState) (action : Action) : Except String GameState :=
  match action.action_type with
    | ActionType.DRAW_CARD =>
        let num_cards :=
          if s.current_player.upgrades.any (fun c => c.effect_id = some "double_dutch")
          then 2 else 1
        let s₁ := (GameState.draw_card shuffle s action.player_idx num_cards).1
        let s₂ := { s₁ with phase := GamePhase.ACTION }
        let ar : Int :=
          if s₂.current_player.upgrades.any
              (fun c => c.effect_id = some "caffeine_overload")
          then 2 else 1
        .ok { s₂ with actions_remaining := ar }
    | ActionType.PLAY_CARD => applyPlayCard reg shuffle fuel s action
    | ActionType.END_ACTION_PHASE =>
        processEndOfTurn reg shuffle fuel { s with phase := GamePhase.END }
    | ActionType.NEIGH => applyNeigh s action
    | ActionType.PASS_NEIGH => applyPassNeigh reg shuffle fuel s action
    | ActionType.CHOOSE_TARGET =>
        match s.resolution_stack with
        | task :: rest =>
            processStack reg shuffle fuel
              { s with resolution_stack :=
                  { task with targets_chosen := task.targets_chosen ++ [action.target_card] }
                    :: rest }
        | [] => .ok s
    | ActionType.DISCARD =>
        let s₁ :=
          match action.target_card with
          | some t => s.discard_card t action.player_idx
          | none => s
        if s₁.phase = GamePhase.DISCARD_TO_LIMIT then
          if s₁.current_player.hand.length ≤ 7 then
            processEndOfTurn reg shuffle fuel { s₁ with phase := GamePhase.END }
          else .ok s₁
        else .ok s₁
    | ActionType.BRING_BABY =>
        let (s₁, baby) := s.get_baby_unicorn_from_nursery
        match baby with
        | some b => .ok (s₁.add_to_stable b action.player_idx)
        | none => .ok s₁
    | _ => .ok s

/-- `apply_action`: dispatch on the action type, then re-check the win
condition. -/
def applyAction (reg : Registry) (shuffle : List CardInstance → List CardInstance)
    (fuel : Nat) (s : GameState) (action : Action) : Except String GameState := do
  let s' ← applyActionCore reg shuffle fuel s action
  .ok (winUpdate s')

/-- The hand-redistribution loop of `determinize_for_player`: walk the players
in order and deal each hidden hand its original number of cards off the front
of the shuffled pool, threading the remainder. -/
def dealHands (orig : GameState) (player_idx : Nat) :
    List PlayerState → List CardInstance → List PlayerState × List CardInstance
  | [], rest => ([], rest)
  | q :: qs, rest =>
      if q.player_idx ≠ player_idx ∧ ¬ q.hand_visible then
        ({ q with hand :=
              rest.take (orig.players.getD q.player_idx dummyPlayer).hand.length } ::
            (dealHands orig player_idx qs
              (rest.drop (orig.players.getD q.player_idx dummyPlayer).hand.length)).1,
          (dealHands orig player_idx qs
            (rest.drop (orig.players.getD q.player_idx dummyPlayer).hand.length)).2)
      else
        (q :: (dealHands orig player_idx qs rest).1,
          (dealHands orig player_idx qs rest).2)

/-- The hidden-hand pool of `determinize_for_player`: other players' hands,
except hands made visible by a rule modifier (collected in player order). -/
def hiddenHandsOf (s : GameState) (player_idx : Nat) : List CardInstance :=
  s.players.flatMap fun q =>
    if q.player_idx ≠ player_idx ∧ ¬ q.hand_visible then q.hand else []

/-- The player list of `determinize_for_player` after the hidden hands have
been emptied. -/
def hidePlayers (s : GameState) (player_idx : Nat) : List PlayerState :=
  s.players.map fun q =>
    if q.player_idx ≠ player_idx ∧ ¬ q.hand_visible then { q with hand := [] } else q

/-- `GameState.determinize_for_player`: pool the hidden information (other
players' non-visible hands plus the draw pile), shuffle it, deal each hidden
hand back its original size, and leave the remainder as the draw pile. -/
def GameState.determinize_for_player (shuffle : List CardInstance → List CardInstance)
    (s : GameState) (player_idx : Nat) : GameState :=
  { s with
      players := (dealHands s player_idx (hidePlayers s player_idx)
        (shuffle (hiddenHandsOf s player_idx ++ s.draw_pile))).1,
      draw_pile := (dealHands s player_idx (hidePlayers s player_idx)
        (shuffle (hiddenHandsOf s player_idx ++ s.draw_pile))).2 }

/-- All cards a player holds anywhere on their side of the table. -/
def PlayerState.allCards (p : PlayerState) : List CardInstance :=
  p.hand ++ p.stable ++ p.upgrades ++ p.downgrades

/-- Every card the state tracks, zone by zone: player areas, the three shared
piles, and the interrupt-chain holding slots (`card_being_played` and
`neigh_stack`). -/
def GameState.allCards (s : GameState) : List CardInstance :=
  s.players.flatMap PlayerState.allCards ++ s.draw_pile ++ s.discard_pile ++
    s.nursery ++ s.card_being_played.toList ++ s.neigh_stack

/-- Every card the state tracks in a proper *zone* in the sense of the
specification (player areas and the three shared piles) — excluding the
interrupt-chain holding slots. -/
def GameState.zoneCards (s : GameState) : List CardInstance :=
  s.players.flatMap PlayerState.allCards ++ s.draw_pile ++ s.discard_pile ++ s.nursery

/-- The number of zone occurrences of a card: the spec claim says this is 1
for every card the state tracks. -/
def GameState.zoneCount (s : GameState) (c : CardInstance) : Nat :=
  s.zoneCards.count c

/-! ## Concrete fixtures for the claim evaluations -/

/-- A basic unicorn template. -/
def basicRed : Card :=
  { id := "basic_red", name := "Basic Red", card_type := CardType.BASIC_UNICORN }

/-- The ordinary counter card. -/
def neighCard : Card :=
  { id := "neigh", name := "Neigh", card_type := CardType.INSTANT,
    effect_id := some "neigh" }

/-- The uncounterable counter card. -/
def superNeighCard : Card :=
  { id := "super_neigh", name := "Super Neigh", card_type := CardType.INSTANT,
    effect_id := some "super_neigh" }

/-- Card instance shorthand. -/
def ci (c : Card) (n : Nat) : CardInstance := { card := c, instance_id := n }

/-- Apply one action through `apply_action` (empty registry, identity shuffle,
fuel 8) to an `Except`-threaded state. -/
def stepA (a : Action) (r : Except String GameState) : Except String GameState :=
  r.bind fun s => applyAction [] (fun l => l) 8 s a

/-- The legal-action list, or `[]` when `get_legal_actions` raises. -/
def legalOrEmpty (s : GameState) : List Action :=
  (getLegalActions s).toOption.getD []

/-! ### C7 fixture: ending the action phase with 8 cards in hand
(the setup of `test_game_flow.test_hand_limit_enforcement`). -/

/-- Eight basic unicorns, the hand of the C7 scenario. -/
def handOf8 : List CardInstance :=
  [ci basicRed 1, ci basicRed 2, ci basicRed 3, ci basicRed 4,
   ci basicRed 5, ci basicRed 6, ci basicRed 7, ci basicRed 8]

/-- C7 scenario: the actor is out of actions and holds 8 cards. -/
def c7State : GameState :=
  { players := [{ player_idx := 0, name := "P1", hand := handOf8 },
                { player_idx := 1, name := "P2" }],
    num_players := 2, current_player_idx := 0,
    phase := GamePhase.ACTION, actions_remaining := 0 }

/-- The C7 action: voluntarily end the action phase. -/
def c7Act : Action := { action_type := ActionType.END_ACTION_PHASE, player_idx := 0 }

/-! ### C2/C3 fixtures: Neigh chains ended by Super Neigh and by passing. -/

/-- C3 scenario: P1 holds a unicorn, P2 holds only a Super Neigh. -/
def c3State : GameState :=
  { players := [{ player_idx := 0, name := "P1", hand := [ci basicRed 1] },
                { player_idx := 1, name := "P2", hand := [ci superNeighCard 13] }],
    num_players := 2, current_player_idx := 0,
    phase := GamePhase.ACTION, actions_remaining := 1 }

/-- C2 scenario: P1 holds two unicorns, P2 holds Neigh, Super Neigh, Neigh. -/
def c2State : GameState :=
  { players := [{ player_idx := 0, name := "P1",
                  hand := [ci basicRed 1, ci basicRed 2] },
                { player_idx := 1, name := "P2",
                  hand := [ci neighCard 11, ci superNeighCard 13, ci neighCard 12] }],
    num_players := 2, current_player_idx := 0,
    phase := GamePhase.ACTION, actions_remaining := 1 }

/-- C2 step 1: P1 plays the first unicorn. -/
def c2a1 : Action :=
  { action_type := ActionType.PLAY_CARD, player_idx := 0, card := some (ci basicRed 1) }

/-- C2 step 2: P2 counters with an ordinary Neigh. -/
def c2a2 : Action :=
  { action_type := ActionType.NEIGH, player_idx := 1, card := some (ci neighCard 11) }

/-- C2 step 3: P2 ends the first chain with Super Neigh. -/
def c2a3 : Action :=
  { action_type := ActionType.NEIGH, player_idx := 1, card := some (ci superNeighCard 13) }

/-- C2 step 4: P1 plays the second unicorn, opening a second chain. -/
def c2a4 : Action :=
  { action_type := ActionType.PLAY_CARD, player_idx := 0, card := some (ci basicRed 2) }

/-- C2 step 5: P2 passes; the second chain ends with zero counters played. -/
def c2a5 : Action := { action_type := ActionType.PASS_NEIGH, player_idx := 1 }

/-- The C2 intermediate states (defaulting to the empty state on error, which
the theorem rules out by checking each step). -/
def c2s1 : GameState := (stepA c2a1 (.ok c2State)).toOption.getD {}

/-- C2 state after step 2. -/
def c2s2 : GameState := (stepA c2a2 (.ok c2s1)).toOption.getD {}

/-- C2 state after step 3 (first chain closed by Super Neigh). -/
def c2s3 : GameState := (stepA c2a3 (.ok c2s2)).toOption.getD {}

/-- C2 state after step 4 (second chain open). -/
def c2s4 : GameState := (stepA c2a4 (.ok c2s3)).toOption.getD {}

/-- C2 final state after the lone pass of the second chain. -/
def c2s5 : GameState := (stepA c2a5 (.ok c2s4)).toOption.getD {}

/-! ### C1 fixture: a play awaiting counter-responses. -/

/-- C1 scenario: P1 holds one unicorn, P2 holds a Neigh. -/
def c1State : GameState :=
  { players := [{ player_idx := 0, name := "P1", hand := [ci basicRed 1] },
                { player_idx := 1, name := "P2", hand := [ci neighCard 11] }],
    num_players := 2, current_player_idx := 0,
    phase := GamePhase.ACTION, actions_remaining := 1 }

/-- The C1 action: P1 plays the unicorn (P2 can respond). -/
def c1Act : Action :=
  { action_type := ActionType.PLAY_CARD, player_idx := 0, card := some (ci basicRed 1) }

/-- C1 state during the interrupt chain. -/
def c1After : GameState := (stepA c1Act (.ok c1State)).toOption.getD {}

/-! ### C3 fixture steps. -/

/-- C3 step 1: P1 plays the unicorn. -/
def c3a1 : Action :=
  { action_type := ActionType.PLAY_CARD, player_idx := 0, card := some (ci basicRed 1) }

/-- C3 step 2: P2 ends the chain immediately with Super Neigh. -/
def c3a2 : Action :=
  { action_type := ActionType.NEIGH, player_idx := 1, card := some (ci superNeighCard 13) }

/-- C3 state with the chain open. -/
def c3s1 : GameState := (stepA c3a1 (.ok c3State)).toOption.getD {}

/-- C3 state after Super Neigh closed the chain. -/
def c3s2 : GameState := (stepA c3a2 (.ok c3s1)).toOption.getD {}

/-! ### C5/C6 fixtures: pending effect targeting. -/

/-- A mandatory destroy-an-upgrade effect step. -/
def destroyUpgradeStep : EffectAction :=
  { action_type := EffActionType.DESTROY,
    target := { target_type := TargetType.OTHER_UPGRADE } }

/-- An effect with two mandatory externally-targeted steps. -/
def twoStepDestroyEffect : Effect :=
  { effect_id := "two_destroy", name := "Two Destroy",
    trigger := EffectTrigger.ON_PLAY,
    actions := [destroyUpgradeStep, destroyUpgradeStep] }

/-- The magic card owning `twoStepDestroyEffect`. -/
def magicSrc : Card :=
  { id := "m_two_destroy", name := "Two Destroy", card_type := CardType.MAGIC,
    effect_id := some "two_destroy" }

/-- C6 scenario: the effect's first step awaits a mandatory target, and the
opponent has no upgrade, so the candidate set is empty. -/
def c6State : GameState :=
  { players := [{ player_idx := 0, name := "P1" }, { player_idx := 1, name := "P2" }],
    num_players := 2, current_player_idx := 0,
    phase := GamePhase.ACTION, actions_remaining := 0,
    resolution_stack :=
      [{ effect := twoStepDestroyEffect, controller_idx := 0,
         source_card := ci magicSrc 21 }] }

/-- The null target choice (`ChooseTarget(None)`). -/
def nullChoose : Action := { action_type := ActionType.CHOOSE_TARGET, player_idx := 0 }

/-- C5 scenario, regime 2: a pending resolution stack, no chain. -/
def c5StackState : GameState := c6State

/-- C5 scenario, regime 1: an active Neigh chain (taking priority over a
non-empty resolution stack). -/
def c5ChainState : GameState :=
  { c6State with neigh_chain_active := true,
                 card_being_played := some (ci basicRed 1),
                 players := [{ player_idx := 0, name := "P1" },
                             { player_idx := 1, name := "P2",
                               hand := [ci neighCard 11] }] }

/-- C5 scenario, regime 3: no chain, empty stack, phase-driven. -/
def c5PhaseState : GameState :=
  { players := [{ player_idx := 0, name := "P1", hand := [ci basicRed 1] },
                { player_idx := 1, name := "P2" }],
    num_players := 2, current_player_idx := 0,
    phase := GamePhase.ACTION, actions_remaining := 1 }

/-! ## The claims -/

/-- C7 (code_bug evaluation): with 8 cards in hand and the action budget
exhausted, `END_ACTION_PHASE` is legal, and applying it moves the game past
END straight into the *next* player's DRAW phase — never entering
DISCARD_TO_LIMIT, contrary to the claim and to
`test_game_flow.test_hand_limit_enforcement`, which asserts
`phase == DISCARD_TO_LIMIT` and `current_player_idx == 0` after this action. -/
theorem C7_discard_to_limit_code_eval :
    c7State.current_player.hand.length = 8 ∧
    c7Act ∈ legalOrEmpty c7State ∧
    (stepA c7Act (.ok c7State)).toOption.map
      (fun s => (s.phase, s.current_player_idx)) = some (GamePhase.DRAW, 1) := by
  decide

/-- C2 (code_bug evaluation): an interrupt chain ended by Super Neigh leaves
the contested card behind in `neigh_stack`.  The *next* chain over a fresh
card then ends with every eligible player passing and zero counters played
(k = 0, even), yet the new card is discarded unresolved (its effect never
enters the stack), refuting the parity claim on this run.  Every step below
is drawn from the legal-action list of the state it is applied to. -/
theorem C2_interrupt_parity_code_eval :
    (c2a1 ∈ legalOrEmpty c2State ∧ c2a2 ∈ legalOrEmpty c2s1 ∧
     c2a3 ∈ legalOrEmpty c2s2 ∧ c2a4 ∈ legalOrEmpty c2s3 ∧
     c2a5 ∈ legalOrEmpty c2s4) ∧
    ((stepA c2a1 (.ok c2State)).toOption = some c2s1 ∧
     (stepA c2a2 (.ok c2s1)).toOption = some c2s2 ∧
     (stepA c2a3 (.ok c2s2)).toOption = some c2s3 ∧
     (stepA c2a4 (.ok c2s3)).toOption = some c2s4 ∧
     (stepA c2a5 (.ok c2s4)).toOption = some c2s5) ∧
    (c2s3.neigh_chain_active = false ∧ c2s3.neigh_stack = [ci basicRed 1]) ∧
    (c2s4.neigh_chain_active = true ∧
     c2s4.card_being_played = some (ci basicRed 2) ∧
     c2s4.players_passed_on_neigh = []) ∧
    (ci basicRed 2 ∈ c2s5.discard_pile ∧
     ci basicRed 2 ∉ (c2s5.getP 0).stable ∧
     c2s5.resolution_stack = [] ∧
     c2s5.neigh_chain_active = false) := by
  decide

/-- C3 (counterexample): a chain ended immediately by the non-counterable
counter leaves the original actor's `actions_remaining` unchanged (1 before
the play, still 1 after the chain resolves), where the claim demands it drop
to 0. -/
theorem C3_super_neigh_budget_counterexample :
    c3State.actions_remaining = 1 ∧
    c3a1 ∈ legalOrEmpty c3State ∧ c3a2 ∈ legalOrEmpty c3s1 ∧
    (stepA c3a1 (.ok c3State)).toOption = some c3s1 ∧
    (stepA c3a2 (.ok c3s1)).toOption = some c3s2 ∧
    c3s1.neigh_chain_active = true ∧
    c3s2.neigh_chain_active = false ∧
    c3s2.actions_remaining = 1 := by
  decide

/-- C1 (counterexample): playing a card while an opponent can counter removes
it from the hand into `card_being_played`; while the chain is open the card
occupies zero zones (hands, stables, upgrades, downgrades, draw, discard,
nursery), refuting zone-disjointness as stated for a state reached by a legal
action. -/
theorem C1_zone_counterexample :
    c1Act ∈ legalOrEmpty c1State ∧
    (stepA c1Act (.ok c1State)).toOption = some c1After ∧
    c1After.neigh_chain_active = true ∧
    c1After.card_being_played = some (ci basicRed 1) ∧
    c1After.zoneCount (ci basicRed 1) = 0 := by
  decide

/-- C5 (code_bug evaluation): the three regimes of `get_legal_actions`.
Regime 1 (chain active — even with a pending stack, showing the priority
order) returns counter/pass responses; regime 3 (phase-driven) returns
normally; but regime 2 (pending resolution stack) raises `TypeError`, because
the source invokes `_get_effect_choice_actions(state)` while that function's
signature requires a second positional argument. -/
theorem C5_legal_actions_code_eval :
    (getLegalActions c5ChainState).toOption.map
        (fun l => l.map (fun a => a.action_type)) =
      some [ActionType.PASS_NEIGH, ActionType.NEIGH] ∧
    (getLegalActions c5StackState).toOption = none ∧
    (getLegalActions c5PhaseState).toOption.map
        (fun l => l.map (fun a => a.action_type)) =
      some [ActionType.END_ACTION_PHASE, ActionType.PLAY_CARD] := by
  decide

/-- C6 (code_bug evaluation): the top task's first step is mandatory with an
empty candidate set.  The body of `_get_effect_choice_actions` would offer
exactly the null-target fallback choice, and resolving that null choice does
advance the task's cursor from 0 to 1 without error — but `get_legal_actions`
itself raises `TypeError` before that body can run (it passes one argument to
a two-parameter function), so the engine stalls instead of offering the
choice. -/
theorem C6_null_target_code_eval :
    (c6State.resolution_stack.map (fun t => t.current_action_idx) = [0]) ∧
    getValidTargets c6State TargetType.OTHER_UPGRADE 0 = [] ∧
    destroyUpgradeStep.target.optional = false ∧
    (getLegalActions c6State).toOption = none ∧
    getEffectChoiceActionsBody c6State nullChoose = [nullChoose] ∧
    (applyAction [] (fun l => l) 8 c6State nullChoose).toOption.map
        (fun s => s.resolution_stack.map (fun t => t.current_action_idx)) =
      some [1] := by
  decide

/-- `winUpdate` does not change the player list. -/
theorem winUpdate_players (s : GameState) : (winUpdate s).players = s.players := by
  unfold winUpdate
  cases s.check_win_condition <;> rfl

/-- `winUpdate` does not change the win threshold. -/
theorem winUpdate_unicorns_to_win (s : GameState) :
    (winUpdate s).unicorns_to_win = s.unicorns_to_win := by
  unfold winUpdate
  cases s.check_win_condition <;> rfl

/-- A successful `apply_action` factors through the final win re-check. -/
theorem applyAction_ok_winUpdate (reg : Registry)
    (shuffle : List CardInstance → List CardInstance) (fuel : Nat) (s : GameState)
    (a : Action) (s' : GameState) (h : applyAction reg shuffle fuel s a = .ok s') :
    ∃ s₁, applyActionCore reg shuffle fuel s a = .ok s₁ ∧ s' = winUpdate s₁ := by
  unfold applyAction at h
  cases hc : applyActionCore reg shuffle fuel s a with
  | error e => rw [hc] at h; exact absurd h (by simp [Bind.bind, Except.bind])
  | ok s₁ =>
      rw [hc] at h
      simp only [Bind.bind, Except.bind, Except.ok.injEq] at h
      exact ⟨s₁, rfl, h.symm⟩

/-- C4: whenever `apply_action` returns a state in which some player is not
under Pandamonium and holds at least the win threshold of unicorns — and that
player is the only such player — the returned state records them as winner
and has phase GAME_OVER, regardless of what (if anything) is still pending on
the resolution stack. -/
theorem C4_immediate_win (reg : Registry)
    (shuffle : List CardInstance → List CardInstance) (fuel : Nat) (s : GameState)
    (a : Action) (s' : GameState) (p : PlayerState)
    (h : applyAction reg shuffle fuel s a = .ok s')
    (hp : p ∈ s'.players)
    (hnp : ¬ p.unicorns_are_pandas)
    (hc : s'.unicorns_to_win ≤ p.unicorn_count)
    (huniq : ∀ q ∈ s'.players, ¬ q.unicorns_are_pandas →
      s'.unicorns_to_win ≤ q.unicorn_count → q.player_idx = p.player_idx) :
    s'.winner = some p.player_idx ∧ s'.phase = GamePhase.GAME_OVER := by
  obtain ⟨s₁, hcore, rfl⟩ := applyAction_ok_winUpdate reg shuffle fuel s a s' h
  rw [winUpdate_players] at hp huniq
  rw [winUpdate_unicorns_to_win] at hc huniq
  unfold winUpdate GameState.check_win_condition
  cases hf : s₁.players.find? (fun q =>
      ¬ q.unicorns_are_pandas ∧ q.unicorn_count ≥ s₁.unicorns_to_win) with
  | none =>
      exfalso
      rw [List.find?_eq_none] at hf
      exact hf p hp (by simp [hnp, hc, ge_iff_le])
  | some q =>
      have hqm : q ∈ s₁.players := List.mem_of_find?_eq_some hf
      have hq := List.find?_some hf
      simp only [decide_eq_true_eq, ge_iff_le] at hq
      have hqp : q.player_idx = p.player_idx := huniq q hqm hq.1 hq.2
      simp [Option.map, hqp]

/-- C4 witness fixture: P1 has six unicorns and legally plays the seventh
with no counter available. -/
def c4State : GameState :=
  { players := [{ player_idx := 0, name := "P1", hand := [ci basicRed 37],
                  stable := [ci basicRed 31, ci basicRed 32, ci basicRed 33,
                             ci basicRed 34, ci basicRed 35, ci basicRed 36] },
                { player_idx := 1, name := "P2" }],
    num_players := 2, current_player_idx := 0,
    phase := GamePhase.ACTION, actions_remaining := 1 }

/-- The C4 witness action: play the seventh unicorn. -/
def c4Act : Action :=
  { action_type := ActionType.PLAY_CARD, player_idx := 0, card := some (ci basicRed 37) }

/-- The state reached by the C4 witness action. -/
def c4After : GameState := (stepA c4Act (.ok c4State)).toOption.getD {}

/-- Recover an `Except`-level equation from its decidable `toOption` shadow. -/
theorem Except_toOption_ok {α : Type} (e : Except String α) (x : α)
    (h : e.toOption = some x) : e = .ok x := by
  cases e with
  | ok y => simp only [Except.toOption, Option.some.injEq] at h; rw [h]
  | error a => simp [Except.toOption] at h

/-- C4 witness: applying `C4_immediate_win` at the concrete scenario. -/
theorem C4_immediate_win_witness :
    c4After.winner = some 0 ∧ c4After.phase = GamePhase.GAME_OVER := by
  have happ : applyAction [] (fun l => l) 8 c4State c4Act = .ok c4After :=
    Except_toOption_ok _ _ (by decide)
  have h := C4_immediate_win [] (fun l => l) 8 c4State c4Act c4After
    (c4After.players.getD 0 dummyPlayer) happ (by decide) (by decide) (by decide)
    (by decide)
  exact ⟨h.1.trans (by decide), h.2⟩

/-! ## C10: `draw_card` -/

/-- `setP` keeps the number of players. -/
theorem setP_players_length (s : GameState) (i : Nat) (p : PlayerState) :
    (s.setP i p).players.length = s.players.length := by
  simp [GameState.setP]

/-- Reading back the player just written. -/
theorem getP_setP_self (s : GameState) (i : Nat) (p : PlayerState)
    (h : i < s.players.length) : (s.setP i p).getP i = p := by
  simp [GameState.setP, GameState.getP, List.getD, List.getElem?_set_self, h]

/-- `refillIfEmpty` keeps the players untouched. -/
theorem refillIfEmpty_players (shuffle : List CardInstance → List CardInstance)
    (s : GameState) : (s.refillIfEmpty shuffle).players = s.players := by
  unfold GameState.refillIfEmpty
  split <;> [skip; rfl]
  split <;> rfl

/-- `refillIfEmpty` can only empty the discard pile, never fill it. -/
theorem refillIfEmpty_discard_nil (shuffle : List CardInstance → List CardInstance)
    (s : GameState) (h : s.discard_pile = []) :
    (s.refillIfEmpty shuffle).discard_pile = [] := by
  unfold GameState.refillIfEmpty
  split <;> [skip; exact h]
  split <;> simp_all

/-- `refillIfEmpty` conserves the draw and discard piles together. -/
theorem refillIfEmpty_conserve (shuffle : List CardInstance → List CardInstance)
    (hsh : ∀ l, (shuffle l).Perm l) (s : GameState) :
    ((s.refillIfEmpty shuffle).draw_pile ++ (s.refillIfEmpty shuffle).discard_pile).Perm
      (s.draw_pile ++ s.discard_pile) := by
  unfold GameState.refillIfEmpty
  split <;> [skip; exact List.Perm.refl _]
  split <;> [skip; exact List.Perm.refl _]
  rename_i hdraw _
  rw [List.isEmpty_iff] at hdraw
  simp only [hdraw, List.nil_append, List.append_nil]
  exact hsh s.discard_pile

/-- Reading back a freshly `set` element under `getD`. -/
theorem getD_set_self {α : Type} (l : List α) (i : Nat) (a d : α)
    (h : i < l.length) : (l.set i a).getD i d = a := by
  simp [List.getD, List.getElem?_set_self h]

/-- The two outcomes of `drawOne`, fully explicit. -/
theorem drawOne_eq_cases (shuffle : List CardInstance → List CardInstance)
    (s : GameState) (p : Nat) :
    (∃ card, (s.refillIfEmpty shuffle).draw_pile.getLast? = some card ∧
      GameState.drawOne shuffle s p =
        ({ (s.refillIfEmpty shuffle).setP p
             { (s.refillIfEmpty shuffle).getP p with
                 hand := ((s.refillIfEmpty shuffle).getP p).hand ++ [card] } with
             draw_pile := (s.refillIfEmpty shuffle).draw_pile.dropLast }, some card)) ∨
    ((s.refillIfEmpty shuffle).draw_pile.getLast? = none ∧
      GameState.drawOne shuffle s p = (s.refillIfEmpty shuffle, none)) := by
  unfold GameState.drawOne
  cases heq : (s.refillIfEmpty shuffle).draw_pile.getLast? with
  | some card => exact Or.inl ⟨card, rfl, rfl⟩
  | none => exact Or.inr ⟨rfl, rfl⟩

/-- `drawOne` keeps the number of players. -/
theorem drawOne_players_length (shuffle : List CardInstance → List CardInstance)
    (s : GameState) (p : Nat) :
    (GameState.drawOne shuffle s p).1.players.length = s.players.length := by
  have hrp := refillIfEmpty_players shuffle s
  rcases drawOne_eq_cases shuffle s p with ⟨card, _, hdef⟩ | ⟨_, hdef⟩ <;>
    rw [hdef] <;> simp [GameState.setP, hrp]

/-- `drawOne` never puts cards on the discard pile. -/
theorem drawOne_discard_nil (shuffle : List CardInstance → List CardInstance)
    (s : GameState) (p : Nat) (h : s.discard_pile = []) :
    (GameState.drawOne shuffle s p).1.discard_pile = [] := by
  have hd := refillIfEmpty_discard_nil shuffle s h
  rcases drawOne_eq_cases shuffle s p with ⟨card, _, hdef⟩ | ⟨_, hdef⟩ <;>
    rw [hdef] <;> simpa [GameState.setP] using hd

/-- `drawOne` conserves the cards spread over the draw pile, the discard pile
and the drawing player's hand. -/
theorem drawOne_conserve (shuffle : List CardInstance → List CardInstance)
    (hsh : ∀ l, (shuffle l).Perm l) (s : GameState) (p : Nat)
    (hp : p < s.players.length) :
    ((GameState.drawOne shuffle s p).1.draw_pile ++
      (GameState.drawOne shuffle s p).1.discard_pile ++
      ((GameState.drawOne shuffle s p).1.getP p).hand).Perm
      (s.draw_pile ++ s.discard_pile ++ (s.getP p).hand) := by
  have hrc := refillIfEmpty_conserve shuffle hsh s
  have hrp := refillIfEmpty_players shuffle s
  have hp₀ : p < (s.refillIfEmpty shuffle).players.length := by rw [hrp]; exact hp
  have hhand : ((s.refillIfEmpty shuffle).getP p).hand = (s.getP p).hand := by
    unfold GameState.getP; rw [hrp]
  rcases drawOne_eq_cases shuffle s p with ⟨card, heq, hdef⟩ | ⟨heq, hdef⟩
  · rw [hdef]
    dsimp only [GameState.setP, GameState.getP]
    rw [getD_set_self _ _ _ _ hp₀]
    have hsplit : (s.refillIfEmpty shuffle).draw_pile.dropLast ++ [card] =
        (s.refillIfEmpty shuffle).draw_pile :=
      List.dropLast_append_getLast? card heq
    rw [← Multiset.coe_eq_coe]
    simp only [← Multiset.coe_add]
    have h1 : ((s.refillIfEmpty shuffle).draw_pile.dropLast : Multiset CardInstance) +
        ([card] : Multiset CardInstance) =
        ((s.refillIfEmpty shuffle).draw_pile : Multiset CardInstance) := by
      rw [Multiset.coe_add, hsplit]
    have h2 : ((s.refillIfEmpty shuffle).draw_pile : Multiset CardInstance) +
        ((s.refillIfEmpty shuffle).discard_pile : Multiset CardInstance) =
        (s.draw_pile : Multiset CardInstance) + (s.discard_pile : Multiset CardInstance) := by
      rw [Multiset.coe_add, Multiset.coe_add]
      exact Multiset.coe_eq_coe.mpr hrc
    have hhand₂ : ((s.refillIfEmpty shuffle).players.getD p dummyPlayer).hand =
        (s.players.getD p dummyPlayer).hand := hhand
    rw [hhand₂]
    calc ((s.refillIfEmpty shuffle).draw_pile.dropLast : Multiset CardInstance) +
          ((s.refillIfEmpty shuffle).discard_pile : Multiset CardInstance) +
          (((s.players.getD p dummyPlayer).hand : Multiset CardInstance) +
            ([card] : Multiset CardInstance))
        = (((s.refillIfEmpty shuffle).draw_pile.dropLast : Multiset CardInstance) +
            ([card] : Multiset CardInstance)) +
          ((s.refillIfEmpty shuffle).discard_pile : Multiset CardInstance) +
          ((s.players.getD p dummyPlayer).hand : Multiset CardInstance) := by abel
      _ = ((s.refillIfEmpty shuffle).draw_pile : Multiset CardInstance) +
          ((s.refillIfEmpty shuffle).discard_pile : Multiset CardInstance) +
          ((s.players.getD p dummyPlayer).hand : Multiset CardInstance) := by rw [h1]
      _ = (s.draw_pile : Multiset CardInstance) + (s.discard_pile : Multiset CardInstance) +
          ((s.players.getD p dummyPlayer).hand : Multiset CardInstance) := by rw [h2]
  · rw [hdef]
    rw [hhand]
    exact List.Perm.append hrc (List.Perm.refl _)

/-- `draw_card` keeps the number of players. -/
theorem draw_card_players_length (shuffle : List CardInstance → List CardInstance)
    (s : GameState) (p : Nat) (count : Nat) :
    (GameState.draw_card shuffle s p count).1.players.length = s.players.length := by
  induction count generalizing s with
  | zero => rfl
  | succ n ih =>
      cases hdo : GameState.drawOne shuffle s p with
      | mk s₁ opt =>
          have hlen : s₁.players.length = s.players.length := by
            have := drawOne_players_length shuffle s p
            rw [hdo] at this
            exact this
          cases opt with
          | some card => simp only [GameState.draw_card, hdo]; rw [ih s₁, hlen]
          | none => simp only [GameState.draw_card, hdo]; exact hlen

/-- `draw_card` never puts cards on the discard pile. -/
theorem draw_card_discard_nil (shuffle : List CardInstance → List CardInstance)
    (s : GameState) (p : Nat) (count : Nat) (h : s.discard_pile = []) :
    (GameState.draw_card shuffle s p count).1.discard_pile = [] := by
  induction count generalizing s with
  | zero => exact h
  | succ n ih =>
      cases hdo : GameState.drawOne shuffle s p with
      | mk s₁ opt =>
          have hd : s₁.discard_pile = [] := by
            have := drawOne_discard_nil shuffle s p h
            rw [hdo] at this
            exact this
          cases opt with
          | some card => simp only [GameState.draw_card, hdo]; exact ih s₁ hd
          | none => simp only [GameState.draw_card, hdo]; exact hd

/-- `draw_card` conserves the cards spread over the draw pile, the discard
pile and the drawing player's hand. -/
theorem draw_card_conserve (shuffle : List CardInstance → List CardInstance)
    (hsh : ∀ l, (shuffle l).Perm l) (s : GameState) (p : Nat) (count : Nat)
    (hp : p < s.players.length) :
    ((GameState.draw_card shuffle s p count).1.draw_pile ++
      (GameState.draw_card shuffle s p count).1.discard_pile ++
      ((GameState.draw_card shuffle s p count).1.getP p).hand).Perm
      (s.draw_pile ++ s.discard_pile ++ (s.getP p).hand) := by
  induction count generalizing s with
  | zero => exact List.Perm.refl _
  | succ n ih =>
      cases hdo : GameState.drawOne shuffle s p with
      | mk s₁ opt =>
          have h1 := drawOne_conserve shuffle hsh s p hp
          rw [hdo] at h1
          have hlen : s₁.players.length = s.players.length := by
            have := drawOne_players_length shuffle s p
            rw [hdo] at this
            exact this
          cases opt with
          | some card =>
              simp only [GameState.draw_card, hdo]
              exact (ih s₁ (hlen ▸ hp)).trans h1
          | none =>
              simp only [GameState.draw_card, hdo]
              exact h1

/-- When both piles are empty, `refillIfEmpty` is the identity. -/
theorem refillIfEmpty_id (shuffle : List CardInstance → List CardInstance)
    (s : GameState) (h1 : s.draw_pile = []) (h2 : s.discard_pile = []) :
    s.refillIfEmpty shuffle = s := by
  unfold GameState.refillIfEmpty
  simp [h1, h2]

/-- On an empty draw pile with a non-empty discard pile, `refillIfEmpty`
performs exactly the recycle step. -/
theorem refillIfEmpty_recycles (shuffle : List CardInstance → List CardInstance)
    (s : GameState) (h1 : s.draw_pile = []) (h2 : s.discard_pile ≠ []) :
    s.refillIfEmpty shuffle =
      { s with draw_pile := shuffle s.discard_pile, discard_pile := [] } := by
  unfold GameState.refillIfEmpty
  simp [h1, h2]

/-- C10: `draw_card` (i) on an empty draw pile with a non-empty discard pile
recycles the whole discard pile into the (shuffled) draw pile before drawing,
ending with an empty discard pile and at least one drawn card; (ii) always
conserves the cards spread over the draw pile, the discard pile and the
drawing player's hand (and is a total function — the model never raises);
(iii) with both piles empty it draws nothing at all and leaves the state
untouched, returning fewer cards than requested. -/
theorem C10_draw_card_spec (shuffle : List CardInstance → List CardInstance)
    (s : GameState) (p : Nat) (count : Nat)
    (hsh : ∀ l, (shuffle l).Perm l) (hp : p < s.players.length) :
    (s.draw_pile = [] → s.discard_pile ≠ [] → 1 ≤ count →
      (GameState.draw_card shuffle s p count).1.discard_pile = [] ∧
      (GameState.draw_card shuffle s p count).2 ≠ []) ∧
    ((GameState.draw_card shuffle s p count).1.draw_pile ++
      (GameState.draw_card shuffle s p count).1.discard_pile ++
      ((GameState.draw_card shuffle s p count).1.getP p).hand).Perm
      (s.draw_pile ++ s.discard_pile ++ (s.getP p).hand) ∧
    (s.draw_pile = [] → s.discard_pile = [] →
      GameState.draw_card shuffle s p count = (s, [])) := by
  refine ⟨?_, draw_card_conserve shuffle hsh s p count hp, ?_⟩
  · intro h1 h2 hc
    obtain ⟨n, rfl⟩ : ∃ n, count = n + 1 := ⟨count - 1, by omega⟩
    have hrefill := refillIfEmpty_recycles shuffle s h1 h2
    have hne : (s.refillIfEmpty shuffle).draw_pile ≠ [] := by
      rw [hrefill]
      show shuffle s.discard_pile ≠ []
      intro hnil
      have hlen := (hsh s.discard_pile).length_eq
      rw [hnil] at hlen
      exact h2 (List.length_eq_zero.mp hlen.symm)
    obtain ⟨card, hlast⟩ : ∃ c, (s.refillIfEmpty shuffle).draw_pile.getLast? = some c := by
      cases hl : (s.refillIfEmpty shuffle).draw_pile.getLast? with
      | some c => exact ⟨c, rfl⟩
      | none => exact absurd (List.getLast?_eq_none_iff.mp hl) hne
    have hdis : (GameState.drawOne shuffle s p).1.discard_pile = [] := by
      rcases drawOne_eq_cases shuffle s p with ⟨c₂, heq, hdef⟩ | ⟨heq, hdef⟩
      · rw [hdef]
        simp [GameState.setP, hrefill]
      · rw [heq] at hlast; cases hlast
    have hsome : (GameState.drawOne shuffle s p).2 = some card := by
      rcases drawOne_eq_cases shuffle s p with ⟨c₂, heq, hdef⟩ | ⟨heq, hdef⟩
      · rw [hdef]
        rw [heq] at hlast
        exact hlast
      · rw [heq] at hlast; cases hlast
    cases hdo : GameState.drawOne shuffle s p with
    | mk s₁ opt =>
        rw [hdo] at hdis hsome
        simp only at hdis hsome
        subst hsome
        constructor
        · simp only [GameState.draw_card, hdo]
          cases hcall : GameState.draw_card shuffle s₁ p n with
          | mk s₂ rest =>
              simpa [hcall] using draw_card_discard_nil shuffle s₁ p n hdis ▸
                (by rw [hcall] : (GameState.draw_card shuffle s₁ p n).1 = s₂) ▸ rfl
        · simp only [GameState.draw_card, hdo]
          cases hcall : GameState.draw_card shuffle s₁ p n with
          | mk s₂ rest => simp [hcall]
  · intro h1 h2
    cases count with
    | zero => rfl
    | succ n =>
        have hre := refillIfEmpty_id shuffle s h1 h2
        have hdo : GameState.drawOne shuffle s p = (s, none) := by
          rcases drawOne_eq_cases shuffle s p with ⟨c, heq, hdef⟩ | ⟨heq, hdef⟩
          · rw [hre, h1] at heq; simp at heq
          · rw [hdef, hre]
        simp only [GameState.draw_card, hdo]

/-- C10 witness fixture: empty draw pile, two cards in the discard pile. -/
def c10State : GameState :=
  { players := [{ player_idx := 0, name := "P1" }], num_players := 1,
    discard_pile := [ci basicRed 41, ci basicRed 42] }

/-- C10 witness: applying `C10_draw_card_spec` at the concrete scenario. -/
theorem C10_draw_card_spec_witness :
    (GameState.draw_card (fun l => l) c10State 0 1).1.discard_pile = [] ∧
    (GameState.draw_card (fun l => l) c10State 0 1).2 ≠ [] := by
  have h := C10_draw_card_spec (fun l => l) c10State 0 1
    (fun l => List.Perm.refl l) (by decide)
  exact h.1 (by decide) (by decide) (by decide)

/-! ## C9: `determinize_for_player` -/

/-- `dealHands` conserves cards: what goes into the dealt hands plus the
remainder equals the input players' cards plus the input pool, provided the
hidden hands were already emptied (as `determinize_for_player` arranges). -/
theorem dealHands_conserve (orig : GameState) (pidx : Nat) (qs : List PlayerState) :
    ∀ rest : List CardInstance,
    (∀ q ∈ qs, (q.player_idx ≠ pidx ∧ ¬ q.hand_visible) → q.hand = []) →
    (((dealHands orig pidx qs rest).1.flatMap PlayerState.allCards : Multiset CardInstance) +
      ((dealHands orig pidx qs rest).2 : Multiset CardInstance)) =
    ((qs.flatMap PlayerState.allCards : Multiset CardInstance) +
      (rest : Multiset CardInstance)) := by
  induction qs with
  | nil => intro rest _; simp [dealHands]
  | cons q qs ih =>
      intro rest h
      by_cases hc : q.player_idx ≠ pidx ∧ ¬ q.hand_visible
      · have hq : q.hand = [] := h q (List.mem_cons_self q qs) hc
        have ih₁ := ih (rest.drop (orig.players.getD q.player_idx dummyPlayer).hand.length)
          (fun r hr => h r (List.mem_cons_of_mem _ hr))
        simp only [dealHands, if_pos hc, List.flatMap_cons]
        simp only [← Multiset.coe_add] at ih₁ ⊢
        have htd : ((rest.take (orig.players.getD q.player_idx dummyPlayer).hand.length :
              List CardInstance) : Multiset CardInstance) +
            ((rest.drop (orig.players.getD q.player_idx dummyPlayer).hand.length :
              List CardInstance) : Multiset CardInstance) =
            (rest : Multiset CardInstance) := by
          rw [Multiset.coe_add, List.take_append_drop]
        have hall : (PlayerState.allCards
            { q with hand :=
                rest.take (orig.players.getD q.player_idx dummyPlayer).hand.length } :
              Multiset CardInstance) =
            ((rest.take (orig.players.getD q.player_idx dummyPlayer).hand.length :
              List CardInstance) : Multiset CardInstance) +
            (PlayerState.allCards q : Multiset CardInstance) := by
          simp only [PlayerState.allCards, hq, ← Multiset.coe_add]
          simp [List.append_assoc]
        rw [hall]
        calc ((rest.take (orig.players.getD q.player_idx dummyPlayer).hand.length :
                List CardInstance) : Multiset CardInstance) +
              (PlayerState.allCards q : Multiset CardInstance) +
              ((dealHands orig pidx qs
                  (rest.drop (orig.players.getD q.player_idx dummyPlayer).hand.length)).1.flatMap
                    PlayerState.allCards : Multiset CardInstance) +
              ((dealHands orig pidx qs
                  (rest.drop (orig.players.getD q.player_idx dummyPlayer).hand.length)).2 :
                Multiset CardInstance)
            = ((rest.take (orig.players.getD q.player_idx dummyPlayer).hand.length :
                List CardInstance) : Multiset CardInstance) +
              (PlayerState.allCards q : Multiset CardInstance) +
              (((dealHands orig pidx qs
                  (rest.drop (orig.players.getD q.player_idx dummyPlayer).hand.length)).1.flatMap
                    PlayerState.allCards : Multiset CardInstance) +
                ((dealHands orig pidx qs
                    (rest.drop (orig.players.getD q.player_idx dummyPlayer).hand.length)).2 :
                  Multiset CardInstance)) := by abel
          _ = ((rest.take (orig.players.getD q.player_idx dummyPlayer).hand.length :
                List CardInstance) : Multiset CardInstance) +
              (PlayerState.allCards q : Multiset CardInstance) +
              ((qs.flatMap PlayerState.allCards : Multiset CardInstance) +
                ((rest.drop (orig.players.getD q.player_idx dummyPlayer).hand.length :
                  List CardInstance) : Multiset CardInstance)) := by rw [ih₁]
          _ = (PlayerState.allCards q : Multiset CardInstance) +
              (qs.flatMap PlayerState.allCards : Multiset CardInstance) +
              (((rest.take (orig.players.getD q.player_idx dummyPlayer).hand.length :
                  List CardInstance) : Multiset CardInstance) +
                ((rest.drop (orig.players.getD q.player_idx dummyPlayer).hand.length :
                  List CardInstance) : Multiset CardInstance)) := by abel
          _ = (PlayerState.allCards q : Multiset CardInstance) +
              (qs.flatMap PlayerState.allCards : Multiset CardInstance) +
              (rest : Multiset CardInstance) := by rw [htd]
      · have ih₁ := ih rest (fun r hr => h r (List.mem_cons_of_mem _ hr))
        simp only [dealHands, if_neg hc, List.flatMap_cons]
        simp only [← Multiset.coe_add] at ih₁ ⊢
        calc (PlayerState.allCards q : Multiset CardInstance) +
              ((dealHands orig pidx qs rest).1.flatMap PlayerState.allCards :
                Multiset CardInstance) +
              ((dealHands orig pidx qs rest).2 : Multiset CardInstance)
            = (PlayerState.allCards q : Multiset CardInstance) +
              (((dealHands orig pidx qs rest).1.flatMap PlayerState.allCards :
                  Multiset CardInstance) +
                ((dealHands orig pidx qs rest).2 : Multiset CardInstance)) := by abel
          _ = (PlayerState.allCards q : Multiset CardInstance) +
              ((qs.flatMap PlayerState.allCards : Multiset CardInstance) +
                (rest : Multiset CardInstance)) := by rw [ih₁]
          _ = (PlayerState.allCards q : Multiset CardInstance) +
              (qs.flatMap PlayerState.allCards : Multiset CardInstance) +
              (rest : Multiset CardInstance) := by abel

/-- Emptying the hidden hands while pooling them conserves cards. -/
theorem hideHands_conserve (s : GameState) (pidx : Nat) :
    ((hidePlayers s pidx).flatMap PlayerState.allCards : Multiset CardInstance) +
      (hiddenHandsOf s pidx : Multiset CardInstance) =
    (s.players.flatMap PlayerState.allCards : Multiset CardInstance) := by
  unfold hidePlayers hiddenHandsOf
  induction s.players with
  | nil => simp
  | cons q qs ih =>
      by_cases hc : q.player_idx ≠ pidx ∧ ¬ q.hand_visible
      · simp only [List.map_cons, List.flatMap_cons, if_pos hc, ← Multiset.coe_add]
        have hzero : (PlayerState.allCards { q with hand := [] } : Multiset CardInstance) +
            (q.hand : Multiset CardInstance) =
            (PlayerState.allCards q : Multiset CardInstance) := by
          simp only [PlayerState.allCards, ← Multiset.coe_add]
          abel
        simp only [← Multiset.coe_add] at ih
        calc (PlayerState.allCards { q with hand := [] } : Multiset CardInstance) +
              ((qs.map (fun q => if q.player_idx ≠ pidx ∧ ¬ q.hand_visible
                  then { q with hand := [] } else q)).flatMap PlayerState.allCards :
                Multiset CardInstance) +
              ((q.hand : Multiset CardInstance) +
                ((qs.flatMap (fun q => if q.player_idx ≠ pidx ∧ ¬ q.hand_visible
                    then q.hand else []) : List CardInstance) : Multiset CardInstance))
            = ((PlayerState.allCards { q with hand := [] } : Multiset CardInstance) +
                (q.hand : Multiset CardInstance)) +
              (((qs.map (fun q => if q.player_idx ≠ pidx ∧ ¬ q.hand_visible
                  then { q with hand := [] } else q)).flatMap PlayerState.allCards :
                Multiset CardInstance) +
                ((qs.flatMap (fun q => if q.player_idx ≠ pidx ∧ ¬ q.hand_visible
                    then q.hand else []) : List CardInstance) : Multiset CardInstance)) := by
              abel
          _ = (PlayerState.allCards q : Multiset CardInstance) +
              (qs.flatMap PlayerState.allCards : Multiset CardInstance) := by rw [hzero, ih]
      · simp only [List.map_cons, List.flatMap_cons, if_neg hc, ← Multiset.coe_add]
        simp only [← Multiset.coe_add] at ih
        calc (PlayerState.allCards q : Multiset CardInstance) +
              ((qs.map (fun q => if q.player_idx ≠ pidx ∧ ¬ q.hand_visible
                  then { q with hand := [] } else q)).flatMap PlayerState.allCards :
                Multiset CardInstance) +
              (([] : List CardInstance) +
                ((qs.flatMap (fun q => if q.player_idx ≠ pidx ∧ ¬ q.hand_visible
                    then q.hand else []) : List CardInstance) : Multiset CardInstance))
            = (PlayerState.allCards q : Multiset CardInstance) +
              (((qs.map (fun q => if q.player_idx ≠ pidx ∧ ¬ q.hand_visible
                  then { q with hand := [] } else q)).flatMap PlayerState.allCards :
                Multiset CardInstance) +
                ((qs.flatMap (fun q => if q.player_idx ≠ pidx ∧ ¬ q.hand_visible
                    then q.hand else []) : List CardInstance) : Multiset CardInstance)) := by
              simp
          _ = (PlayerState.allCards q : Multiset CardInstance) +
              (qs.flatMap PlayerState.allCards : Multiset CardInstance) := by rw [ih]

/-- `dealHands` leaves untouched every position whose player keeps their
hand (the requesting player and visible hands). -/
theorem dealHands_getD_keep (orig : GameState) (pidx : Nat) (qs : List PlayerState) :
    ∀ (rest : List CardInstance) (i : Nat), i < qs.length →
    ¬ ((qs.getD i dummyPlayer).player_idx ≠ pidx ∧
        ¬ (qs.getD i dummyPlayer).hand_visible) →
    (dealHands orig pidx qs rest).1.getD i dummyPlayer = qs.getD i dummyPlayer := by
  induction qs with
  | nil => intro rest i hi _; simp at hi
  | cons q qs ih =>
      intro rest i hi hkeep
      cases i with
      | zero =>
          have hc : ¬ (q.player_idx ≠ pidx ∧ ¬ q.hand_visible) := by
            simpa using hkeep
          simp only [dealHands]
          rw [if_neg hc]
          rfl
      | succ j =>
          have hj : j < qs.length := by simpa using hi
          have hkeep₂ : ¬ ((qs.getD j dummyPlayer).player_idx ≠ pidx ∧
              ¬ (qs.getD j dummyPlayer).hand_visible) := by simpa using hkeep
          by_cases hc : q.player_idx ≠ pidx ∧ ¬ q.hand_visible
          · simp only [dealHands]
            rw [if_pos hc]
            simpa using ih _ j hj hkeep₂
          · simp only [dealHands]
            rw [if_neg hc]
            simpa using ih rest j hj hkeep₂

/-- C9: determinization (i) leaves the requesting player's hand exactly as it
was, (ii) conserves the full card multiset across all zones and the interrupt
slots, and (iii) keeps the all-cards list duplicate-free when it was. -/
theorem C9_determinize_fidelity (shuffle : List CardInstance → List CardInstance)
    (s : GameState) (p : Nat)
    (hsh : ∀ l, (shuffle l).Perm l) (hp : p < s.players.length)
    (hidx : (s.players.getD p dummyPlayer).player_idx = p) :
    ((s.determinize_for_player shuffle p).players.getD p dummyPlayer).hand =
      (s.players.getD p dummyPlayer).hand ∧
    ((s.determinize_for_player shuffle p).allCards : Multiset CardInstance) =
      (s.allCards : Multiset CardInstance) ∧
    (s.allCards.Nodup → (s.determinize_for_player shuffle p).allCards.Nodup) := by
  have hnc : ¬ ((s.players.getD p dummyPlayer).player_idx ≠ p ∧
      ¬ (s.players.getD p dummyPlayer).hand_visible) := by
    intro hcon
    exact hcon.1 hidx
  have hmaplen : (hidePlayers s p).length = s.players.length := by
    simp [hidePlayers]
  have hmap : (hidePlayers s p).getD p dummyPlayer = s.players.getD p dummyPlayer := by
    unfold hidePlayers
    rw [List.getD_eq_getElem _ dummyPlayer (by simpa using hp), List.getElem_map,
      ← List.getD_eq_getElem s.players dummyPlayer hp]
    exact if_neg hnc
  have hhide : ∀ q ∈ hidePlayers s p,
      (q.player_idx ≠ p ∧ ¬ q.hand_visible) → q.hand = [] := by
    intro q hqm hcond
    obtain ⟨r, _, rfl⟩ := List.mem_map.mp hqm
    by_cases hr : r.player_idx ≠ p ∧ ¬ r.hand_visible
    · rw [if_pos hr]
    · rw [if_neg hr] at hcond ⊢
      exact absurd hcond hr
  have hshuf : ((shuffle (hiddenHandsOf s p ++ s.draw_pile) : List CardInstance) :
      Multiset CardInstance) =
      (hiddenHandsOf s p : Multiset CardInstance) + (s.draw_pile : Multiset CardInstance) := by
    rw [Multiset.coe_eq_coe.mpr (hsh _), Multiset.coe_add]
  have hconserve : ((s.determinize_for_player shuffle p).allCards : Multiset CardInstance) =
      (s.allCards : Multiset CardInstance) := by
    have hdeal := dealHands_conserve s p (hidePlayers s p)
      (shuffle (hiddenHandsOf s p ++ s.draw_pile)) hhide
    rw [hshuf] at hdeal
    have hhh := hideHands_conserve s p
    have hAB : ((dealHands s p (hidePlayers s p)
          (shuffle (hiddenHandsOf s p ++ s.draw_pile))).1.flatMap PlayerState.allCards :
          Multiset CardInstance) +
        ((dealHands s p (hidePlayers s p)
          (shuffle (hiddenHandsOf s p ++ s.draw_pile))).2 : Multiset CardInstance) =
        (s.players.flatMap PlayerState.allCards : Multiset CardInstance) +
        (s.draw_pile : Multiset CardInstance) := by
      rw [hdeal, ← add_assoc, hhh]
    simp only [GameState.determinize_for_player, GameState.allCards, ← Multiset.coe_add]
    rw [hAB]
  refine ⟨?_, hconserve, ?_⟩
  · show ((dealHands s p (hidePlayers s p)
        (shuffle (hiddenHandsOf s p ++ s.draw_pile))).1.getD p dummyPlayer).hand =
        (s.players.getD p dummyPlayer).hand
    rw [dealHands_getD_keep s p _ _ p (by rw [hmaplen]; exact hp)
      (by rw [hmap]; exact hnc), hmap]
  · intro hnd
    have hmul := Multiset.coe_nodup.mpr hnd
    rw [← hconserve] at hmul
    exact Multiset.coe_nodup.mp hmul

/-- C9 witness fixture. -/
def c9State : GameState :=
  { players := [{ player_idx := 0, name := "P1", hand := [ci basicRed 51] },
                { player_idx := 1, name := "P2",
                  hand := [ci basicRed 52, ci basicRed 53] }],
    num_players := 2, draw_pile := [ci basicRed 54] }

/-- C9 witness: applying `C9_determinize_fidelity` at the concrete scenario. -/
theorem C9_determinize_fidelity_witness :
    ((c9State.determinize_for_player (fun l => l) 0).players.getD 0 dummyPlayer).hand =
      (c9State.players.getD 0 dummyPlayer).hand ∧
    ((c9State.determinize_for_player (fun l => l) 0).allCards : Multiset CardInstance) =
      (c9State.allCards : Multiset CardInstance) ∧
    (c9State.allCards.Nodup → (c9State.determinize_for_player (fun l => l) 0).allCards.Nodup) := by
  exact C9_determinize_fidelity (fun l => l) c9State 0
    (fun l => List.Perm.refl l) (by decide) (by decide)

/-! ## C8: rule-modifier flags as a board projection -/

/-- The pure flag projection the specification describes: each rule-modifier
flag recomputed from the player's current board contents, exactly as
`_update_player_flags` scans them. -/
def flagsProjection (p : PlayerState) : PlayerState :=
  { p with
      hand_visible := p.downgrades.any (fun c => c.effect_id = some "nanny_cam") ||
        p.stable.any (fun c => c.effect_id = some "classy_narwhal"),
      cannot_play_upgrades := p.downgrades.any (fun c => c.effect_id = some "broken_stable"),
      cannot_play_instants := p.downgrades.any (fun c => c.effect_id = some "slowdown"),
      cards_cannot_be_neighd := p.upgrades.any (fun c => c.effect_id = some "yay"),
      unicorns_cannot_be_destroyed :=
        p.upgrades.any (fun c => c.effect_id = some "rainbow_aura"),
      unicorns_are_basic := p.downgrades.any (fun c => c.effect_id = some "blinding_light"),
      unicorns_are_pandas := p.downgrades.any (fun c => c.effect_id = some "pandamonium") }

/-- The upgrade scan of `_update_player_flags`, in closed form. -/
theorem foldUpgrades_spec (l : List CardInstance) (q : PlayerState) :
    l.foldl (fun q c =>
      if c.effect_id = some "yay" then { q with cards_cannot_be_neighd := true }
      else if c.effect_id = some "rainbow_aura" then
        { q with unicorns_cannot_be_destroyed := true }
      else q) q =
    { q with
        cards_cannot_be_neighd := q.cards_cannot_be_neighd ||
          l.any (fun c => c.effect_id = some "yay"),
        unicorns_cannot_be_destroyed := q.unicorns_cannot_be_destroyed ||
          l.any (fun c => c.effect_id = some "rainbow_aura") } := by
  induction l generalizing q with
  | nil => simp
  | cons c l ih =>
      simp only [List.foldl_cons, List.any_cons]
      rw [ih]
      by_cases h1 : c.effect_id = some "yay"
      · simp [h1, Bool.or_assoc, Bool.or_comm, Bool.or_left_comm]
      · by_cases h2 : c.effect_id = some "rainbow_aura"
        · simp [h1, h2, Bool.or_assoc, Bool.or_comm, Bool.or_left_comm]
        · simp [h1, h2]

/-- The downgrade scan of `_update_player_flags`, in closed form. -/
theorem foldDowngrades_spec (l : List CardInstance) (q : PlayerState) :
    l.foldl (fun q c =>
      if c.effect_id = some "blinding_light" then { q with unicorns_are_basic := true }
      else if c.effect_id = some "broken_stable" then { q with cannot_play_upgrades := true }
      else if c.effect_id = some "slowdown" then { q with cannot_play_instants := true }
      else if c.effect_id = some "nanny_cam" then { q with hand_visible := true }
      else if c.effect_id = some "pandamonium" then { q with unicorns_are_pandas := true }
      else q) q =
    { q with
        unicorns_are_basic := q.unicorns_are_basic ||
          l.any (fun c => c.effect_id = some "blinding_light"),
        cannot_play_upgrades := q.cannot_play_upgrades ||
          l.any (fun c => c.effect_id = some "broken_stable"),
        cannot_play_instants := q.cannot_play_instants ||
          l.any (fun c => c.effect_id = some "slowdown"),
        hand_visible := q.hand_visible || l.any (fun c => c.effect_id = some "nanny_cam"),
        unicorns_are_pandas := q.unicorns_are_pandas ||
          l.any (fun c => c.effect_id = some "pandamonium") } := by
  induction l generalizing q with
  | nil => simp
  | cons c l ih =>
      simp only [List.foldl_cons, List.any_cons]
      rw [ih]
      by_cases h1 : c.effect_id = some "blinding_light"
      · simp [h1, Bool.or_assoc, Bool.or_comm, Bool.or_left_comm]
      · by_cases h2 : c.effect_id = some "broken_stable"
        · simp [h1, h2, Bool.or_assoc, Bool.or_comm, Bool.or_left_comm]
        · by_cases h3 : c.effect_id = some "slowdown"
          · simp [h1, h2, h3, Bool.or_assoc, Bool.or_comm, Bool.or_left_comm]
          · by_cases h4 : c.effect_id = some "nanny_cam"
            · simp [h1, h2, h3, h4, Bool.or_assoc, Bool.or_comm, Bool.or_left_comm]
            · by_cases h5 : c.effect_id = some "pandamonium"
              · simp [h1, h2, h3, h4, h5, Bool.or_assoc, Bool.or_comm, Bool.or_left_comm]
              · simp [h1, h2, h3, h4, h5]

/-- The stable scan of `_update_player_flags`, in closed form. -/
theorem foldStable_spec (l : List CardInstance) (q : PlayerState) :
    l.foldl (fun q c =>
      if c.effect_id = some "classy_narwhal" then { q with hand_visible := true }
      else q) q =
    { q with hand_visible := q.hand_visible ||
        l.any (fun c => c.effect_id = some "classy_narwhal") } := by
  induction l generalizing q with
  | nil => simp
  | cons c l ih =>
      simp only [List.foldl_cons, List.any_cons]
      rw [ih]
      by_cases h1 : c.effect_id = some "classy_narwhal"
      · simp [h1, Bool.or_assoc, Bool.or_comm, Bool.or_left_comm]
      · simp [h1]

/-- `_update_player_flags` computes exactly the board projection. -/
theorem updatePlayerFlags_projection (s : GameState) (i : Nat)
    (hi : i < s.players.length) :
    (updatePlayerFlags s i).getP i = flagsProjection (s.getP i) := by
  unfold updatePlayerFlags
  dsimp only
  rw [foldUpgrades_spec, foldDowngrades_spec, foldStable_spec,
    getP_setP_self _ _ _ hi]
  simp [flagsProjection, Bool.or_comm]

/-- Just the seven rule-modifier flags of a player. -/
def flagsOf (p : PlayerState) : Bool × Bool × Bool × Bool × Bool × Bool × Bool :=
  (p.hand_visible, p.cannot_play_upgrades, p.cannot_play_instants,
   p.cards_cannot_be_neighd, p.unicorns_cannot_be_destroyed,
   p.unicorns_are_basic, p.unicorns_are_pandas)

/-- The flag projection is idempotent (it only reads board lists). -/
theorem flagsProjection_idem (p : PlayerState) :
    flagsProjection (flagsProjection p) = flagsProjection p := by
  simp [flagsProjection]

/-- `add_to_stable` keeps the number of players. -/
theorem add_to_stable_players_length (s : GameState) (c : CardInstance) (i : Nat) :
    (s.add_to_stable c i).players.length = s.players.length := by
  unfold GameState.add_to_stable
  split <;> [simp [GameState.setP]; skip]
  split <;> [simp [GameState.setP]; skip]
  split <;> simp [GameState.setP]

/-- `remove_from_stable` never touches the rule-modifier flags. -/
theorem remove_from_stable_flags (s : GameState) (c : CardInstance) (i : Nat)
    (hi : i < s.players.length) :
    flagsOf ((s.remove_from_stable c i).getP i) = flagsOf (s.getP i) := by
  have h1 : (s.remove_from_stable c i).getP i = (s.removeStep c i).getP i := rfl
  rw [h1]
  unfold GameState.removeStep
  split
  · rw [getP_setP_self _ _ _ hi]; rfl
  · split
    · rw [getP_setP_self _ _ _ hi]; rfl
    · split
      · rw [getP_setP_self _ _ _ hi]; rfl
      · rfl

/-- C8 (amended): `_update_player_flags` computes exactly the pure board
projection, so a player's flags match the projection right after the engine
resolves an upgrade play (which ends in `_update_player_flags`); but
`remove_from_stable` — the mutation the effect handler uses for destroy,
sacrifice, steal and return — leaves the flags untouched, so those mutations
do not re-establish the projection. -/
theorem C8_flags_amended (reg : Registry)
    (shuffle : List CardInstance → List CardInstance) (fuel : Nat) (s : GameState)
    (card : CardInstance) (i : Nat) (s' : GameState) (c : CardInstance)
    (hi : i < s.players.length)
    (hu : card.card_type = CardType.UPGRADE)
    (hres : resolveCard reg shuffle fuel s card i = .ok s') :
    s'.getP i = flagsProjection (s'.getP i) ∧
    (updatePlayerFlags s i).getP i = flagsProjection (s.getP i) ∧
    flagsOf ((s.remove_from_stable c i).getP i) = flagsOf (s.getP i) := by
  refine ⟨?_, updatePlayerFlags_projection s i hi, remove_from_stable_flags s c i hi⟩
  have hnm : card.card_type ≠ CardType.MAGIC := by rw [hu]; intro hcc; cases hcc
  unfold resolveCard at hres
  rw [if_neg hnm, if_pos hu] at hres
  have hs' : s' = updatePlayerFlags (s.add_to_stable card i) i := by
    cases hres; rfl
  subst hs'
  have hlen : i < (s.add_to_stable card i).players.length := by
    rw [add_to_stable_players_length]; exact hi
  rw [updatePlayerFlags_projection _ i hlen, flagsProjection_idem]

/-! ### C8 counterexample: destroying Pandamonium leaves its flag set -/

/-- The Pandamonium downgrade template. -/
def pandamoniumCard : Card :=
  { id := "pandamonium", name := "Pandamonium", card_type := CardType.DOWNGRADE,
    effect_id := some "pandamonium" }

/-- A destroy-a-downgrade effect step. -/
def destroyDownStep : EffectAction :=
  { action_type := EffActionType.DESTROY,
    target := { target_type := TargetType.ANY_DOWNGRADE } }

/-- The effect wrapping `destroyDownStep`. -/
def destroyDownEffect : Effect :=
  { effect_id := "destroy_downgrade", name := "Destroy Downgrade",
    trigger := EffectTrigger.ON_PLAY, actions := [destroyDownStep] }

/-- The magic card owning `destroyDownEffect`. -/
def magicSrc2 : Card :=
  { id := "m_destroy_down", name := "Destroy Downgrade", card_type := CardType.MAGIC,
    effect_id := some "destroy_downgrade" }

/-- C8 scenario: P1 sits under Pandamonium with consistent flags; P2's effect
destroys it. -/
def c8State : GameState :=
  { players := [{ player_idx := 0, name := "P1",
                  downgrades := [ci pandamoniumCard 61], unicorns_are_pandas := true },
                { player_idx := 1, name := "P2" }],
    num_players := 2 }

/-- The resolution-stack frame performing the destroy. -/
def c8Task : EffectTask :=
  { effect := destroyDownEffect, controller_idx := 1, source_card := ci magicSrc2 62 }

/-- C8 (counterexample): before the destroy the player's flags equal the
board projection; the effect handler's DESTROY then removes the Pandamonium
card without recomputing flags, leaving `unicorns_are_pandas` set with no
Pandamonium on the board — the flags no longer equal the projection. -/
theorem C8_flag_drift_counterexample :
    c8State.getP 0 = flagsProjection (c8State.getP 0) ∧
    (executeAction [] (fun l => l) c8State c8Task destroyDownStep
        (some (ci pandamoniumCard 61))).toOption.map
      (fun r => ((r.1.getP 0).downgrades, (r.1.getP 0).unicorns_are_pandas,
        decide (r.1.getP 0 = flagsProjection (r.1.getP 0)))) =
      some ([], true, false) := by
  decide

/-- C8 witness fixture: resolving the play of a Yay upgrade. -/
def yayCard : Card :=
  { id := "yay", name := "Yay", card_type := CardType.UPGRADE,
    effect_id := some "yay" }

/-- C8 witness fixture state. -/
def c8wState : GameState :=
  { players := [{ player_idx := 0, name := "P1" },
                { player_idx := 1, name := "P2" }],
    num_players := 2 }

/-- The state after resolving the Yay upgrade play. -/
def c8wAfter : GameState :=
  (resolveCard [] (fun l => l) 4 c8wState (ci yayCard 63) 0).toOption.getD {}

/-- C8 witness: applying `C8_flags_amended` at the concrete scenario. -/
theorem C8_flags_amended_witness :
    c8wAfter.getP 0 = flagsProjection (c8wAfter.getP 0) ∧
    (updatePlayerFlags c8wState 0).getP 0 = flagsProjection (c8wState.getP 0) ∧
    flagsOf ((c8wState.remove_from_stable (ci yayCard 63) 0).getP 0) =
      flagsOf (c8wState.getP 0) := by
  have hres : resolveCard [] (fun l => l) 4 c8wState (ci yayCard 63) 0 = .ok c8wAfter :=
    Except_toOption_ok _ _ (by decide)
  exact C8_flags_amended [] (fun l => l) 4 c8wState (ci yayCard 63) 0 c8wAfter
    (ci yayCard 63) (by decide) (by decide) hres

/-! ## C3: the action budget across interrupt-chain endings -/

/-- `setP` reads and writes only `players`. -/
@[simp] theorem setP_actions_remaining (s : GameState) (i : Nat) (p : PlayerState) :
    (s.setP i p).actions_remaining = s.actions_remaining := rfl

/-- `discard_card` leaves the action budget alone. -/
@[simp] theorem discard_card_actions_remaining (s : GameState) (c : CardInstance) (i : Nat) :
    (s.discard_card c i).actions_remaining = s.actions_remaining := by
  unfold GameState.discard_card
  split <;> rfl

/-- `add_to_stable` leaves the action budget alone. -/
@[simp] theorem add_to_stable_actions_remaining (s : GameState) (c : CardInstance) (i : Nat) :
    (s.add_to_stable c i).actions_remaining = s.actions_remaining := by
  unfold GameState.add_to_stable
  split <;> [rfl; skip]
  split <;> [rfl; skip]
  split <;> rfl

/-- `remove_from_stable` leaves the action budget alone. -/
@[simp] theorem removeStep_actions_remaining (s : GameState) (c : CardInstance)
    (i : Nat) : (s.removeStep c i).actions_remaining = s.actions_remaining := by
  unfold GameState.removeStep
  split <;> [rfl; skip]
  split <;> [rfl; skip]
  split <;> rfl

/-- `remove_from_stable` leaves the action budget alone. -/
@[simp] theorem remove_from_stable_actions_remaining (s : GameState) (c : CardInstance)
    (i : Nat) : (s.remove_from_stable c i).actions_remaining = s.actions_remaining := by
  have h1 : (s.remove_from_stable c i).actions_remaining =
      (s.removeStep c i).actions_remaining := rfl
  rw [h1, removeStep_actions_remaining]

/-- `popDiscardIfLast` leaves the action budget alone. -/
@[simp] theorem popDiscardIfLast_actions_remaining (s : GameState) (c : CardInstance) :
    (s.popDiscardIfLast c).actions_remaining = s.actions_remaining := by
  unfold GameState.popDiscardIfLast
  split <;> rfl

/-- `refillIfEmpty` leaves the action budget alone. -/
@[simp] theorem refillIfEmpty_actions_remaining (shuffle : List CardInstance → List CardInstance)
    (s : GameState) : (s.refillIfEmpty shuffle).actions_remaining = s.actions_remaining := by
  unfold GameState.refillIfEmpty
  split <;> [skip; rfl]
  split <;> rfl

/-- `drawOne` leaves the action budget alone. -/
@[simp] theorem drawOne_actions_remaining (shuffle : List CardInstance → List CardInstance)
    (s : GameState) (p : Nat) :
    (GameState.drawOne shuffle s p).1.actions_remaining = s.actions_remaining := by
  rcases drawOne_eq_cases shuffle s p with ⟨card, _, hdef⟩ | ⟨_, hdef⟩ <;> rw [hdef] <;> simp

/-- `draw_card` leaves the action budget alone. -/
@[simp] theorem draw_card_actions_remaining (shuffle : List CardInstance → List CardInstance)
    (s : GameState) (p : Nat) (count : Nat) :
    (GameState.draw_card shuffle s p count).1.actions_remaining = s.actions_remaining := by
  induction count generalizing s with
  | zero => rfl
  | succ n ih =>
      cases hdo : GameState.drawOne shuffle s p with
      | mk s₁ opt =>
          have h1 : s₁.actions_remaining = s.actions_remaining := by
            have := drawOne_actions_remaining shuffle s p
            rw [hdo] at this
            exact this
          cases opt with
          | some card => simp only [GameState.draw_card, hdo]; rw [ih s₁, h1]
          | none => simp only [GameState.draw_card, hdo]; exact h1

/-- Discarding a whole hand in a fold leaves the action budget alone. -/
@[simp] theorem foldl_discard_actions_remaining (l : List CardInstance) (s : GameState)
    (i : Nat) :
    (l.foldl (fun st c => st.discard_card c i) s).actions_remaining =
      s.actions_remaining := by
  induction l generalizing s with
  | nil => rfl
  | cons c l ih => simp only [List.foldl_cons]; rw [ih]; simp

/-- `_execute_action` leaves the action budget alone (no effect action kind
is implemented to grant or consume actions). -/
theorem executeAction_actions_remaining (reg : Registry)
    (shuffle : List CardInstance → List CardInstance) (s : GameState)
    (task : EffectTask) (ad : EffectAction) (tgt : Option CardInstance)
    (r : GameState × EffectTask × List EffectTask)
    (h : executeAction reg shuffle s task ad tgt = .ok r) :
    r.1.actions_remaining = s.actions_remaining := by
  unfold executeAction at h
  cases had : ad.action_type <;> rw [had] at h <;> dsimp only at h <;>
    repeat' split at h
  all_goals (cases h; try simp)

/-- `Except` bind returns `ok` exactly when both stages do. -/
theorem bind_ok_iff {α β : Type} (e : Except String α) (f : α → Except String β)
    (b : β) : ((e >>= f) = .ok b) ↔ ∃ a, e = .ok a ∧ f a = .ok b := by
  cases e <;> simp [Bind.bind, Except.bind]

/-- `process_stack` leaves the action budget alone. -/
theorem processStack_actions_remaining (reg : Registry)
    (shuffle : List CardInstance → List CardInstance) :
    ∀ (fuel : Nat) (s s' : GameState), processStack reg shuffle fuel s = .ok s' →
      s'.actions_remaining = s.actions_remaining := by
  intro fuel
  induction fuel with
  | zero =>
      intro s s' h
      unfold processStack at h
      split at h
      · cases h; rfl
      · cases h
  | succ n ih =>
      intro s s' h
      simp only [processStack] at h
      split at h
      · cases h; rfl
      · split at h
        · have h2 := ih _ s' h; exact h2
        · split at h
          · have h2 := ih _ s' h; exact h2
          · split at h
            · have h2 := ih _ s' h; exact h2
            · split at h
              · split at h
                · cases h; rfl
                · rw [bind_ok_iff] at h
                  obtain ⟨⟨s₁, task₁, pushed⟩, hex, hrec⟩ := h
                  have h1 := executeAction_actions_remaining _ _ _ _ _ _ _ hex
                  have h2 := ih _ s' hrec
                  exact h2.trans h1
              · rw [bind_ok_iff] at h
                obtain ⟨⟨s₁, task₁, pushed⟩, hex, hrec⟩ := h
                have h1 := executeAction_actions_remaining _ _ _ _ _ _ _ hex
                have h2 := ih _ s' hrec
                exact h2.trans h1

/-- `_trigger_effect` leaves the action budget alone. -/
theorem triggerEffect_actions_remaining (reg : Registry)
    (shuffle : List CardInstance → List CardInstance) (fuel : Nat) (s : GameState)
    (c : CardInstance) (i : Nat) (s' : GameState)
    (h : triggerEffect reg shuffle fuel s c i = .ok s') :
    s'.actions_remaining = s.actions_remaining := by
  unfold triggerEffect at h
  split at h
  · have h2 := processStack_actions_remaining reg shuffle fuel _ s' h; exact h2
  · cases h; rfl

/-- `_trigger_enter_events` leaves the action budget alone. -/
theorem triggerEnterEventsA_actions_remaining (reg : Registry)
    (shuffle : List CardInstance → List CardInstance) (fuel : Nat) (s : GameState)
    (c : CardInstance) (i : Nat) (s' : GameState)
    (h : triggerEnterEventsA reg shuffle fuel s c i = .ok s') :
    s'.actions_remaining = s.actions_remaining := by
  unfold triggerEnterEventsA at h
  have h2 := processStack_actions_remaining reg shuffle fuel _ s' h
  exact h2

/-- `_update_player_flags` leaves the action budget alone. -/
@[simp] theorem updatePlayerFlags_actions_remaining (s : GameState) (i : Nat) :
    (updatePlayerFlags s i).actions_remaining = s.actions_remaining := by
  unfold updatePlayerFlags
  rfl

/-- `_resolve_card` leaves the action budget alone. -/
theorem resolveCard_actions_remaining (reg : Registry)
    (shuffle : List CardInstance → List CardInstance) (fuel : Nat) (s : GameState)
    (c : CardInstance) (i : Nat) (s' : GameState)
    (h : resolveCard reg shuffle fuel s c i = .ok s') :
    s'.actions_remaining = s.actions_remaining := by
  unfold resolveCard at h
  split at h
  · rw [bind_ok_iff] at h
    obtain ⟨s₁, htr, heq⟩ := h
    cases heq
    exact triggerEffect_actions_remaining reg shuffle fuel s c i s₁ htr
  · split at h
    · cases h
      simp
    · split at h
      · cases h
      · split at h
        · have := triggerEnterEventsA_actions_remaining reg shuffle fuel
            (s.add_to_stable c i) c i s' h
          rw [this]
          simp
        · cases h; rfl

/-- `winUpdate` leaves the action budget alone. -/
theorem winUpdate_actions_remaining (s : GameState) :
    (winUpdate s).actions_remaining = s.actions_remaining := by
  unfold winUpdate
  cases s.check_win_condition <;> rfl

/-- `winUpdate` leaves the chain flag alone. -/
theorem winUpdate_neigh_chain (s : GameState) :
    (winUpdate s).neigh_chain_active = s.neigh_chain_active := by
  unfold winUpdate
  cases s.check_win_condition <;> rfl

/-- Recording a pass does not touch the action budget. -/
@[simp] theorem recordPass_actions_remaining (s : GameState) (i : Nat) :
    (recordPass s i).actions_remaining = s.actions_remaining := rfl

/-- Recording a pass does not touch the chain flag. -/
@[simp] theorem recordPass_neigh_chain (s : GameState) (i : Nat) :
    (recordPass s i).neigh_chain_active = s.neigh_chain_active := rfl

/-- The optional final discard does not touch the action budget. -/
@[simp] theorem discardOpt_actions_remaining (s : GameState)
    (c? : Option CardInstance) :
    (discardOpt s c?).actions_remaining = s.actions_remaining := by
  cases c? <;> rfl

/-- C3 (amended): when a chain ends because every remaining eligible player
passed, the actor's budget drops by exactly one; when it is ended at once by
Super Neigh, the budget is unchanged. -/
theorem C3_budget_amended (reg : Registry)
    (shuffle : List CardInstance → List CardInstance) (fuel : Nat) (s : GameState)
    (a : Action) (s' : GameState)
    (h : applyAction reg shuffle fuel s a = .ok s') :
    (a.action_type = ActionType.PASS_NEIGH → s.neigh_chain_active = true →
      s'.neigh_chain_active = false →
      s'.actions_remaining = s.actions_remaining - 1) ∧
    (a.action_type = ActionType.NEIGH →
      (∀ c, a.card = some c → c.effect_id = some "super_neigh") →
      s'.actions_remaining = s.actions_remaining) := by
  obtain ⟨s₁, hcore, rfl⟩ := applyAction_ok_winUpdate reg shuffle fuel s a s' h
  constructor
  · intro hpa hchain hchain'
    rw [winUpdate_neigh_chain] at hchain'
    rw [winUpdate_actions_remaining]
    unfold applyActionCore at hcore
    rw [hpa] at hcore
    dsimp only at hcore
    simp only [applyPassNeigh] at hcore
    split at hcore
    · split at hcore
      · -- neigh_stack = h :: t
        split at hcore
        · -- even parity: resolve then settle
          rw [bind_ok_iff] at hcore
          obtain ⟨s₂, hs2, hfin⟩ := hcore
          cases hfin
          have h2 := resolveCard_actions_remaining _ _ _ _ _ _ _ hs2
          simp [h2]
        · -- odd parity: discard the original
          rw [bind_ok_iff] at hcore
          obtain ⟨s₂, hs2, hfin⟩ := hcore
          cases hs2
          cases hfin
          simp
      · -- neigh_stack = []
        split at hcore
        · -- card_being_played = some c
          split at hcore
          · rw [bind_ok_iff] at hcore
            obtain ⟨s₂, hs2, hfin⟩ := hcore
            cases hfin
            have h2 := resolveCard_actions_remaining _ _ _ _ _ _ _ hs2
            simp [h2]
          · rw [bind_ok_iff] at hcore
            obtain ⟨s₂, hs2, hfin⟩ := hcore
            cases hs2
            cases hfin
            simp
        · -- card_being_played = none
          rw [bind_ok_iff] at hcore
          obtain ⟨s₂, hs2, hfin⟩ := hcore
          cases hs2
          cases hfin
          simp
    · cases hcore
      exact absurd hchain' (by simp [hchain])
  · intro hne hsup
    rw [winUpdate_actions_remaining]
    unfold applyActionCore at hcore
    rw [hne] at hcore
    dsimp only at hcore
    unfold applyNeigh at hcore
    split at hcore
    · cases hcore
    · rename_i nc heq
      have hs := hsup nc heq
      split at hcore
      · cases hcore
        dsimp only
        split <;> (try split) <;> simp
      · exact absurd hs (by assumption)

/-- Witness for the amended C3 statement: the concrete chain of the C2
scenario ends with player 1 passing, and the actor's budget drops by one. -/
theorem C3_budget_amended_witness :
    applyAction [] (fun l => l) 8 c2s4 c2a5 = Except.ok c2s5 ∧
    c2a5.action_type = ActionType.PASS_NEIGH ∧
    c2s4.neigh_chain_active = true ∧ c2s5.neigh_chain_active = false ∧
    c2s5.actions_remaining = c2s4.actions_remaining - 1 :=
  have h : applyAction [] (fun l => l) 8 c2s4 c2a5 = Except.ok c2s5 :=
    Except_toOption_ok _ _ (by decide)
  ⟨h, rfl, by decide, by decide,
    (C3_budget_amended [] (fun l => l) 8 c2s4 c2a5 c2s5 h).1 rfl (by decide)
      (by decide)⟩

/-! ## The zone invariant on reachable states

The original claim counts only the proper zones, and the concrete
counterexample above shows a played card sitting in `card_being_played`
during a Neigh chain, in no zone at all.  The amended claim counts the two
interrupt-chain holding slots (`card_being_played` and `neigh_stack`) as
zones — `GameState.allCards` — and asserts that along every run of the
engine through legal actions the tracked cards stay pairwise distinct and
are conserved as a multiset, so each sits in exactly one place.

Effect steps that auto-resolve on a SELF target can move the source card
between zones (for example a SELF sacrifice).  The engine only reaches such
a step through a registry effect, and `RegOk` below delimits exactly the
shapes of SELF steps the real `EFFECT_REGISTRY` (embedded in full as
`effectRegistry`) contains: harmless steps (`SafeSelf`), an ON_ENTER
sacrifice of the just-filed source as the very first step (Narwhal
Torpedo), and SELF steps sitting behind an unconditioned target-demanding
step, which always suspends the task before the SELF step is reached
(Unicorn Phoenix, Rainbow Lasso).  The invariant `Inv` carries what the
engine guarantees at each of those shapes: pending frames hold only `None`
placeholders (one per executed step), never an index beyond a suspending
step, and a first-step SELF-sacrifice frame only while its source sits on
its controller's board. -/

/-- The effect sub-actions that never move their (auto-chosen SELF) target
between zones. -/
def SafeSelf : EffActionType → Bool
  | EffActionType.DRAW => true
  | EffActionType.LOOK_AT_HAND => true
  | EffActionType.SELECT => true
  | _ => false

/-- The `needs_target` test of `EffectHandler.process_stack`: the step
demands an externally chosen target. -/
def needsTarget (ad : EffectAction) : Prop :=
  ¬ (ad.target.target_type = TargetType.NONE ∨
     ad.target.target_type = TargetType.SELF ∨
     ad.target.target_type = TargetType.CONTROLLER) ∧
  ad.value ≠ -1

instance needsTarget.dec (ad : EffectAction) : Decidable (needsTarget ad) := by
  unfold needsTarget
  infer_instance

/-- An effect whose very first step sacrifices its own source card
(the Narwhal Torpedo shape). -/
def SelfSacZero (e : Effect) : Prop :=
  ∃ ad ∈ e.actions.take 1,
    ad.action_type = EffActionType.SACRIFICE ∧
    ad.target.target_type = TargetType.SELF

instance SelfSacZero.dec (e : Effect) : Decidable (SelfSacZero e) := by
  unfold SelfSacZero
  infer_instance

/-- Every SELF-targeted step of the effect is harmless (`SafeSelf`), or is
an ON_ENTER sacrifice of the source as the first step, or sits behind an
unconditioned target-demanding step (which suspends the task forever, the
required `CHOOSE_TARGET` being unreachable — see
`C5_legal_actions_code_eval`). -/
def EffSafe (e : Effect) : Prop :=
  ∀ i, i < e.actions.length →
    ((e.actions.get? i).getD dummyEffectAction).target.target_type =
      TargetType.SELF →
    (SafeSelf ((e.actions.get? i).getD dummyEffectAction).action_type = true ∨
     (((e.actions.get? i).getD dummyEffectAction).action_type =
        EffActionType.SACRIFICE ∧
       i = 0 ∧ e.trigger = EffectTrigger.ON_ENTER) ∨
     (∃ j, j < i ∧ needsTarget ((e.actions.get? j).getD dummyEffectAction) ∧
       ((e.actions.get? j).getD dummyEffectAction).condition = none))

instance EffSafe.dec (e : Effect) : Decidable (EffSafe e) := by
  unfold EffSafe
  infer_instance

/-- A registry, read back as the association list it is. -/
def regList (reg : Registry) : List (String × Effect) := reg

/-- A registry all of whose effects are `EffSafe`, and whose Barbed Wire
entries (the only effects the engine attaches as enter/leave listeners)
keep even their first step away from SELF moves. -/
def RegOk (reg : Registry) : Prop :=
  (∀ pr ∈ regList reg, EffSafe pr.2) ∧
  (∀ pr ∈ regList reg, pr.1 = "barbed_wire" →
    ∀ ad ∈ pr.2.actions,
      ad.target.target_type = TargetType.SELF →
        SafeSelf ad.action_type = true)

instance RegOk.dec (reg : Registry) : Decidable (RegOk reg) := by
  unfold RegOk
  infer_instance

/-- A resolution-stack frame the engine itself produces: only `None`
placeholders chosen (a real choice would need `CHOOSE_TARGET`, which
`get_legal_actions` can never offer), exactly one placeholder per executed
step, an in-range controller, a safe effect, and an index that has not
passed any unconditioned target-demanding step (such a step suspends the
task forever). -/
def TaskOk (n : Nat) (t : EffectTask) : Prop :=
  (∀ x ∈ t.targets_chosen, x = none) ∧
  t.targets_chosen.length = t.current_action_idx ∧
  t.controller_idx < n ∧
  EffSafe t.effect ∧
  (∀ j, j < t.current_action_idx →
    ¬ (needsTarget ((t.effect.actions.get? j).getD dummyEffectAction) ∧
       ((t.effect.actions.get? j).getD dummyEffectAction).condition = none))

instance TaskOk.dec (n : Nat) (t : EffectTask) : Decidable (TaskOk n t) := by
  unfold TaskOk
  infer_instance

/-- A frame about to execute a first-step SELF sacrifice. -/
def SSN (t : EffectTask) : Prop :=
  t.current_action_idx = 0 ∧ SelfSacZero t.effect

instance SSN.dec (t : EffectTask) : Decidable (SSN t) := by
  unfold SSN
  infer_instance

/-- A frame about to execute a first-step SELF sacrifice holds its source
on its controller's board (where `remove_from_stable` will find it). -/
def SrcOk (s : GameState) (t : EffectTask) : Prop :=
  SSN t → t.source_card ∈ (s.getP t.controller_idx).get_all_stable_cards

instance SrcOk.dec (s : GameState) (t : EffectTask) : Decidable (SrcOk s t) := by
  unfold SrcOk
  infer_instance

/-- Every pending resolution-stack frame is well formed and locates its
source, and at most one pending frame is a first-step SELF sacrifice (the
engine creates such a frame only for the single card just filed by
`_resolve_card`). -/
def StackOk (s : GameState) : Prop :=
  (∀ t ∈ s.resolution_stack, TaskOk s.players.length t ∧ SrcOk s t) ∧
  s.resolution_stack.countP (fun t => decide (SSN t)) ≤ 1

instance StackOk.dec (s : GameState) : Decidable (StackOk s) := by
  unfold StackOk
  infer_instance

/-- Every player record carries an in-range `player_idx`. -/
def PIdx (s : GameState) : Prop :=
  ∀ p ∈ s.players, p.player_idx < s.players.length

instance PIdx.dec (s : GameState) : Decidable (PIdx s) := by
  unfold PIdx
  infer_instance

/-- The interrupt-chain bookkeeping is coherent: the bottom of `neigh_stack`
(the contested original) is never an instant, a closed chain holds no
`card_being_played`, with an empty `neigh_stack` the contested card is not
an instant, and while a chain is open the resolution stack is empty (a
chain only opens from `_apply_play_card`, whose legality demands an empty
stack, and chain responses never touch the stack). -/
def NeighOk (s : GameState) : Prop :=
  (∀ h ∈ s.neigh_stack.take 1, h.card_type ≠ CardType.INSTANT) ∧
  (s.neigh_chain_active = false → s.card_being_played = none) ∧
  (∀ c ∈ s.card_being_played.toList,
    s.neigh_stack = [] → c.card_type ≠ CardType.INSTANT) ∧
  (s.neigh_chain_active = true → s.resolution_stack = [])

instance NeighOk.dec (s : GameState) : Decidable (NeighOk s) := by
  unfold NeighOk
  infer_instance

/-- A magic-typed card never carries a first-step-SELF-sacrifice effect:
`_resolve_card` triggers a magic card's effect while the card is in no zone
(it reaches the discard pile only afterwards), so a SELF sacrifice there
would duplicate it.  No base-game card has this shape: the only
`SelfSacZero` entry, Narwhal Torpedo, sits on a magical-unicorn card. -/
def CardSafe (reg : Registry) (c : CardInstance) : Prop :=
  c.card_type = CardType.MAGIC →
    ∀ e ∈ (regLookup reg c.effect_id).toList, ¬ SelfSacZero e

instance CardSafe.dec (reg : Registry) (c : CardInstance) :
    Decidable (CardSafe reg c) := by
  unfold CardSafe
  infer_instance

/-- Every tracked card is `CardSafe` (a property of the immutable card data,
so conserved along runs). -/
def CardsOk (reg : Registry) (s : GameState) : Prop :=
  ∀ c ∈ s.allCards, CardSafe reg c

instance CardsOk.dec (reg : Registry) (s : GameState) :
    Decidable (CardsOk reg s) := by
  unfold CardsOk
  infer_instance

/-- The amended zone invariant, with the bookkeeping the engine maintains
alongside it: `allCards` is duplicate-free (each tracked card in exactly one
place, chain slots counted), indices are in range, pending frames are well
formed and locate their sources, the chain slots are coherent, and magic
cards carry no first-step SELF sacrifice. -/
def Inv (reg : Registry) (s : GameState) : Prop :=
  s.allCards.Nodup ∧ PIdx s ∧ StackOk s ∧ NeighOk s ∧ CardsOk reg s ∧
  s.num_players = s.players.length ∧ 0 < s.players.length ∧
  s.current_player_idx < s.players.length

instance Inv.dec (reg : Registry) (s : GameState) : Decidable (Inv reg s) := by
  unfold Inv
  infer_instance

/-- Both states present the same three board lists to every player slot. -/
def boardsEq (s s' : GameState) : Prop :=
  ∀ j : Nat,
    (s'.getP j).stable = (s.getP j).stable ∧
    (s'.getP j).upgrades = (s.getP j).upgrades ∧
    (s'.getP j).downgrades = (s.getP j).downgrades

/-- Reachability through the engine: repeatedly apply a legal action that
succeeds. -/
inductive Reachable (reg : Registry)
    (shuffle : List CardInstance → List CardInstance) (fuel : Nat) :
    GameState → GameState → Prop
  | refl (s : GameState) : Reachable reg shuffle fuel s s
  | step {s₀ s s' : GameState} {a : Action} (hr : Reachable reg shuffle fuel s₀ s)
      (ha : a ∈ legalOrEmpty s)
      (h : applyAction reg shuffle fuel s a = .ok s') :
      Reachable reg shuffle fuel s₀ s'

/-- The state fields the stack-draining machinery never touches. -/
def Frame (s s' : GameState) : Prop :=
  s'.players.length = s.players.length ∧
  s'.num_players = s.num_players ∧
  s'.current_player_idx = s.current_player_idx ∧
  s'.card_being_played = s.card_being_played ∧
  s'.neigh_stack = s.neigh_stack ∧
  s'.neigh_chain_active = s.neigh_chain_active

/-- The tracked cards as a multiset. -/
def GameState.bag (s : GameState) : Multiset CardInstance :=
  (s.allCards : Multiset CardInstance)

theorem frame_rfl (s : GameState) : Frame s s :=
  ⟨rfl, rfl, rfl, rfl, rfl, rfl⟩

theorem frame_trans {s₁ s₂ s₃ : GameState} (h₁ : Frame s₁ s₂) (h₂ : Frame s₂ s₃) :
    Frame s₁ s₃ := by
  obtain ⟨a1, a2, a3, a4, a5, a6⟩ := h₁
  obtain ⟨b1, b2, b3, b4, b5, b6⟩ := h₂
  exact ⟨b1.trans a1, b2.trans a2, b3.trans a3, b4.trans a4, b5.trans a5, b6.trans a6⟩

/-- `bag` in component form. -/
theorem bag_eq (s : GameState) :
    s.bag = (s.players.flatMap PlayerState.allCards : Multiset CardInstance) +
      (s.draw_pile : Multiset CardInstance) +
      (s.discard_pile : Multiset CardInstance) +
      (s.nursery : Multiset CardInstance) +
      (s.card_being_played.toList : Multiset CardInstance) +
      (s.neigh_stack : Multiset CardInstance) := by
  simp [GameState.bag, GameState.allCards]

/-- A member's removal, at the multiset level. -/
theorem coe_erase_cons {α : Type} [DecidableEq α] (l : List α) (a : α)
    (h : a ∈ l) : (l : Multiset α) = {a} + (l.erase a : Multiset α) := by
  have hp := List.perm_cons_erase h
  rw [Multiset.coe_eq_coe.mpr hp, Multiset.singleton_add, Multiset.cons_coe]

/-- Replacing one player, at the multiset level. -/
theorem flatMap_set_bag {α β : Type} (f : α → List β) (d : α) :
    ∀ (l : List α) (i : Nat) (x : α), i < l.length →
    ((l.set i x).flatMap f : Multiset β) + (f (l.getD i d) : Multiset β) =
      (l.flatMap f : Multiset β) + (f x : Multiset β) := by
  intro l
  induction l with
  | nil => intro i x h; simp at h
  | cons p l ih =>
      intro i x h
      cases i with
      | zero =>
          simp only [List.set_cons_zero, List.flatMap_cons, List.getD_cons_zero,
            ← Multiset.coe_add]
          abel
      | succ j =>
          simp only [List.set_cons_succ, List.flatMap_cons, List.getD_cons_succ,
            ← Multiset.coe_add]
          have h' : j < l.length := by simpa using h
          rw [add_assoc, add_assoc, ih j x h']

/-- Cancellation, specialised to card multisets. -/
theorem bag_cancel {a b g : Multiset CardInstance} (h : a + g = b + g) : a = b :=
  add_right_cancel h

/-- A slot read is a member when in range. -/
theorem getP_mem (s : GameState) (i : Nat) (h : i < s.players.length) :
    s.getP i ∈ s.players := by
  unfold GameState.getP
  rw [List.getD_eq_getElem _ _ h]
  exact List.getElem_mem h

/-- `setP` at the bag level: the new bag plus the old slot equals the old bag
plus the new slot. -/
theorem bag_setP (s : GameState) (i : Nat) (p' : PlayerState)
    (h : i < s.players.length) :
    (s.setP i p').bag + ((s.getP i).allCards : Multiset CardInstance) =
      s.bag + (p'.allCards : Multiset CardInstance) := by
  have key := flatMap_set_bag PlayerState.allCards dummyPlayer s.players i p' h
  rw [bag_eq, bag_eq]
  unfold GameState.setP GameState.getP
  dsimp only
  calc (↑((s.players.set i p').flatMap PlayerState.allCards) +
          ↑s.draw_pile + ↑s.discard_pile + ↑s.nursery +
          ↑s.card_being_played.toList + ↑s.neigh_stack : Multiset CardInstance) +
        ↑((s.players.getD i dummyPlayer).allCards)
      = (↑((s.players.set i p').flatMap PlayerState.allCards) +
          ↑((s.players.getD i dummyPlayer).allCards) : Multiset CardInstance) +
        (↑s.draw_pile + ↑s.discard_pile + ↑s.nursery +
          ↑s.card_being_played.toList + ↑s.neigh_stack) := by abel
    _ = (↑(s.players.flatMap PlayerState.allCards) +
          ↑(p'.allCards) : Multiset CardInstance) +
        (↑s.draw_pile + ↑s.discard_pile + ↑s.nursery +
          ↑s.card_being_played.toList + ↑s.neigh_stack) := by rw [key]
    _ = (↑(s.players.flatMap PlayerState.allCards) +
          ↑s.draw_pile + ↑s.discard_pile + ↑s.nursery +
          ↑s.card_being_played.toList + ↑s.neigh_stack : Multiset CardInstance) +
        ↑(p'.allCards) := by abel

/-- Replacing the draw pile, at the bag level. -/
theorem bag_set_draw (s : GameState) (d : List CardInstance) :
    ({ s with draw_pile := d } : GameState).bag + (s.draw_pile : Multiset CardInstance) =
      s.bag + (d : Multiset CardInstance) := by
  rw [bag_eq, bag_eq]; dsimp only; abel

/-- Replacing the discard pile, at the bag level. -/
theorem bag_set_discard (s : GameState) (d : List CardInstance) :
    ({ s with discard_pile := d } : GameState).bag + (s.discard_pile : Multiset CardInstance) =
      s.bag + (d : Multiset CardInstance) := by
  rw [bag_eq, bag_eq]; dsimp only; abel

/-- Replacing the nursery, at the bag level. -/
theorem bag_set_nursery (s : GameState) (d : List CardInstance) :
    ({ s with nursery := d } : GameState).bag + (s.nursery : Multiset CardInstance) =
      s.bag + (d : Multiset CardInstance) := by
  rw [bag_eq, bag_eq]; dsimp only; abel

/-- A player's side of the table after a hand append. -/
theorem pall_hand_append (p : PlayerState) (c : CardInstance) :
    (({ p with hand := p.hand ++ [c] } : PlayerState).allCards : Multiset CardInstance) =
      (p.allCards : Multiset CardInstance) + {c} := by
  simp only [PlayerState.allCards]
  simp only [← Multiset.coe_add, ← Multiset.coe_singleton]
  abel

/-- A player's side of the table after a stable append. -/
theorem pall_stable_append (p : PlayerState) (c : CardInstance) :
    (({ p with stable := p.stable ++ [c] } : PlayerState).allCards : Multiset CardInstance) =
      (p.allCards : Multiset CardInstance) + {c} := by
  simp only [PlayerState.allCards]
  simp only [← Multiset.coe_add, ← Multiset.coe_singleton]
  abel

/-- A player's side of the table after an upgrade append. -/
theorem pall_upgrades_append (p : PlayerState) (c : CardInstance) :
    (({ p with upgrades := p.upgrades ++ [c] } : PlayerState).allCards : Multiset CardInstance) =
      (p.allCards : Multiset CardInstance) + {c} := by
  simp only [PlayerState.allCards]
  simp only [← Multiset.coe_add, ← Multiset.coe_singleton]
  abel

/-- A player's side of the table after a downgrade append. -/
theorem pall_downgrades_append (p : PlayerState) (c : CardInstance) :
    (({ p with downgrades := p.downgrades ++ [c] } : PlayerState).allCards : Multiset CardInstance) =
      (p.allCards : Multiset CardInstance) + {c} := by
  simp only [PlayerState.allCards]
  simp only [← Multiset.coe_add, ← Multiset.coe_singleton]
  abel

/-- A player's side of the table after removing a held card from the hand. -/
theorem pall_hand_erase (p : PlayerState) (c : CardInstance) (h : c ∈ p.hand) :
    (p.allCards : Multiset CardInstance) =
      (({ p with hand := p.hand.erase c } : PlayerState).allCards : Multiset CardInstance)
        + {c} := by
  simp only [PlayerState.allCards]
  simp only [← Multiset.coe_add]
  rw [coe_erase_cons p.hand c h]
  simp only [← Multiset.coe_singleton]
  abel

/-- A player's side of the table after removing a held card from the
stable. -/
theorem pall_stable_erase (p : PlayerState) (c : CardInstance) (h : c ∈ p.stable) :
    (p.allCards : Multiset CardInstance) =
      (({ p with stable := p.stable.erase c } : PlayerState).allCards :
        Multiset CardInstance) + {c} := by
  simp only [PlayerState.allCards]
  simp only [← Multiset.coe_add]
  rw [coe_erase_cons p.stable c h]
  simp only [← Multiset.coe_singleton]
  abel

/-- A player's side of the table after removing a held card from the
upgrades. -/
theorem pall_upgrades_erase (p : PlayerState) (c : CardInstance)
    (h : c ∈ p.upgrades) :
    (p.allCards : Multiset CardInstance) =
      (({ p with upgrades := p.upgrades.erase c } : PlayerState).allCards :
        Multiset CardInstance) + {c} := by
  simp only [PlayerState.allCards]
  simp only [← Multiset.coe_add]
  rw [coe_erase_cons p.upgrades c h]
  simp only [← Multiset.coe_singleton]
  abel

/-- A player's side of the table after removing a held card from the
downgrades. -/
theorem pall_downgrades_erase (p : PlayerState) (c : CardInstance)
    (h : c ∈ p.downgrades) :
    (p.allCards : Multiset CardInstance) =
      (({ p with downgrades := p.downgrades.erase c } : PlayerState).allCards :
        Multiset CardInstance) + {c} := by
  simp only [PlayerState.allCards]
  simp only [← Multiset.coe_add]
  rw [coe_erase_cons p.downgrades c h]
  simp only [← Multiset.coe_singleton]
  abel

/-- Card lists determine a player's side of the table. -/
theorem allCards_congr (p q : PlayerState) (hh : q.hand = p.hand)
    (hs : q.stable = p.stable) (hu : q.upgrades = p.upgrades)
    (hd : q.downgrades = p.downgrades) : q.allCards = p.allCards := by
  simp [PlayerState.allCards, hh, hs, hu, hd]

/-- `PIdx` only depends on the player list. -/
theorem PIdx_congr (s s' : GameState) (h : s'.players = s.players) (hp : PIdx s) :
    PIdx s' := by
  intro p hpmem
  rw [h] at hpmem ⊢
  exact hp p hpmem

/-- `StackOk` only depends on the stack and the player list. -/
theorem StackOk_congr (s s' : GameState)
    (h : s'.resolution_stack = s.resolution_stack)
    (hp : s'.players = s.players) (hst : StackOk s) : StackOk s' := by
  refine ⟨?_, ?_⟩
  · intro t ht
    rw [h] at ht
    obtain ⟨h1, h2⟩ := hst.1 t ht
    refine ⟨by rw [hp]; exact h1, ?_⟩
    intro hssn
    have hmem := h2 hssn
    unfold GameState.getP at hmem ⊢
    rw [hp]
    exact hmem
  · rw [h]
    exact hst.2

/-- A state with an empty resolution stack satisfies `StackOk`. -/
theorem StackOk_nil (s : GameState) (h : s.resolution_stack = []) : StackOk s := by
  refine ⟨?_, ?_⟩
  · intro t ht
    rw [h] at ht
    cases ht
  · rw [h]
    simp

theorem boardsEq_rfl (s : GameState) : boardsEq s s :=
  fun _ => ⟨rfl, rfl, rfl⟩

theorem boardsEq_trans {s s₁ s₂ : GameState} (h₁ : boardsEq s s₁)
    (h₂ : boardsEq s₁ s₂) : boardsEq s s₂ := by
  intro j
  obtain ⟨a1, a2, a3⟩ := h₁ j
  obtain ⟨b1, b2, b3⟩ := h₂ j
  exact ⟨b1.trans a1, b2.trans a2, b3.trans a3⟩

/-- Unchanged player lists leave every board list unchanged. -/
theorem boardsEq_of_players_eq (s s' : GameState) (h : s'.players = s.players) :
    boardsEq s s' := by
  intro j
  unfold GameState.getP
  rw [h]
  exact ⟨rfl, rfl, rfl⟩

/-- Source location only depends on the boards. -/
theorem SrcOk_of_boardsEq (s s₁ : GameState) (t : EffectTask)
    (hb : boardsEq s s₁) (h : SrcOk s t) : SrcOk s₁ t := by
  intro hssn
  have hm := h hssn
  unfold PlayerState.get_all_stable_cards at hm ⊢
  obtain ⟨h1, h2, h3⟩ := hb t.controller_idx
  rw [h1, h2, h3]
  exact hm

/-- Reading another slot after a write. -/
theorem getP_setP_ne (s : GameState) (i j : Nat) (p : PlayerState)
    (hne : j ≠ i) : (s.setP i p).getP j = s.getP j := by
  unfold GameState.getP GameState.setP
  dsimp only
  rw [List.getD_eq_getElem?_getD, List.getD_eq_getElem?_getD,
    List.getElem?_set_ne (fun he => hne he.symm)]

/-- Writing a slot back with the same board lists leaves every board list
unchanged. -/
theorem setP_boards (s : GameState) (i : Nat) (p' : PlayerState)
    (hst : p'.stable = (s.getP i).stable)
    (hup : p'.upgrades = (s.getP i).upgrades)
    (hdn : p'.downgrades = (s.getP i).downgrades) :
    boardsEq s (s.setP i p') := by
  intro j
  by_cases hji : j = i
  · subst hji
    by_cases hj : j < s.players.length
    · rw [getP_setP_self s j p' hj]
      exact ⟨hst, hup, hdn⟩
    · have h1 : (s.setP j p').getP j = dummyPlayer := by
        unfold GameState.getP
        refine List.getD_eq_default _ _ ?_
        rw [setP_players_length]
        exact Nat.le_of_not_lt hj
      have h2 : s.getP j = dummyPlayer := by
        unfold GameState.getP
        exact List.getD_eq_default _ _ (Nat.le_of_not_lt hj)
      rw [h1, h2]
      exact ⟨rfl, rfl, rfl⟩
  · rw [getP_setP_ne s i j p' hji]
    exact ⟨rfl, rfl, rfl⟩

/-- `countP` is blind to reversal. -/
theorem countP_reverse {α : Type} (p : α → Bool) (l : List α) :
    l.reverse.countP p = l.countP p := by
  rw [List.countP_eq_length_filter, List.countP_eq_length_filter,
    List.filter_reverse, List.length_reverse]

/-- Writing back a slot with the held index keeps `PIdx`. -/
theorem PIdx_setP (s : GameState) (i : Nat) (p' : PlayerState) (hpi : PIdx s)
    (hidx : p'.player_idx = (s.getP i).player_idx) (hi : i < s.players.length) :
    PIdx (s.setP i p') := by
  intro p hpmem
  unfold GameState.setP at hpmem
  dsimp only at hpmem
  rw [setP_players_length]
  rcases List.mem_or_eq_of_mem_set hpmem with hmem | heq
  · exact hpi p hmem
  · rw [heq, hidx]
    exact hpi _ (getP_mem s i hi)

/-- `setP` leaves every non-player field alone. -/
@[simp] theorem setP_num_players (s : GameState) (i : Nat) (p : PlayerState) :
    (s.setP i p).num_players = s.num_players := rfl

@[simp] theorem setP_current_player_idx (s : GameState) (i : Nat) (p : PlayerState) :
    (s.setP i p).current_player_idx = s.current_player_idx := rfl

@[simp] theorem setP_card_being_played (s : GameState) (i : Nat) (p : PlayerState) :
    (s.setP i p).card_being_played = s.card_being_played := rfl

@[simp] theorem setP_neigh_stack (s : GameState) (i : Nat) (p : PlayerState) :
    (s.setP i p).neigh_stack = s.neigh_stack := rfl

@[simp] theorem setP_neigh_chain_active (s : GameState) (i : Nat) (p : PlayerState) :
    (s.setP i p).neigh_chain_active = s.neigh_chain_active := rfl

@[simp] theorem setP_resolution_stack (s : GameState) (i : Nat) (p : PlayerState) :
    (s.setP i p).resolution_stack = s.resolution_stack := rfl

@[simp] theorem setP_draw_pile (s : GameState) (i : Nat) (p : PlayerState) :
    (s.setP i p).draw_pile = s.draw_pile := rfl

@[simp] theorem setP_discard_pile (s : GameState) (i : Nat) (p : PlayerState) :
    (s.setP i p).discard_pile = s.discard_pile := rfl

@[simp] theorem setP_nursery (s : GameState) (i : Nat) (p : PlayerState) :
    (s.setP i p).nursery = s.nursery := rfl

/-- The reshuffle step leaves everything except the two piles alone. -/
@[simp] theorem refill_num_players (shuffle : List CardInstance → List CardInstance)
    (s : GameState) : (s.refillIfEmpty shuffle).num_players = s.num_players := by
  unfold GameState.refillIfEmpty
  split <;> [skip; rfl]
  split <;> rfl

@[simp] theorem refill_current_player_idx (shuffle : List CardInstance → List CardInstance)
    (s : GameState) :
    (s.refillIfEmpty shuffle).current_player_idx = s.current_player_idx := by
  unfold GameState.refillIfEmpty
  split <;> [skip; rfl]
  split <;> rfl

@[simp] theorem refill_card_being_played (shuffle : List CardInstance → List CardInstance)
    (s : GameState) :
    (s.refillIfEmpty shuffle).card_being_played = s.card_being_played := by
  unfold GameState.refillIfEmpty
  split <;> [skip; rfl]
  split <;> rfl

@[simp] theorem refill_neigh_stack (shuffle : List CardInstance → List CardInstance)
    (s : GameState) : (s.refillIfEmpty shuffle).neigh_stack = s.neigh_stack := by
  unfold GameState.refillIfEmpty
  split <;> [skip; rfl]
  split <;> rfl

@[simp] theorem refill_neigh_chain_active (shuffle : List CardInstance → List CardInstance)
    (s : GameState) :
    (s.refillIfEmpty shuffle).neigh_chain_active = s.neigh_chain_active := by
  unfold GameState.refillIfEmpty
  split <;> [skip; rfl]
  split <;> rfl

@[simp] theorem refill_resolution_stack (shuffle : List CardInstance → List CardInstance)
    (s : GameState) :
    (s.refillIfEmpty shuffle).resolution_stack = s.resolution_stack := by
  unfold GameState.refillIfEmpty
  split <;> [skip; rfl]
  split <;> rfl

@[simp] theorem refill_nursery (shuffle : List CardInstance → List CardInstance)
    (s : GameState) : (s.refillIfEmpty shuffle).nursery = s.nursery := by
  unfold GameState.refillIfEmpty
  split <;> [skip; rfl]
  split <;> rfl

/-- The reshuffle step conserves the bag. -/
theorem refill_bag (shuffle : List CardInstance → List CardInstance)
    (hsh : ∀ l, (shuffle l).Perm l) (s : GameState) :
    (s.refillIfEmpty shuffle).bag = s.bag := by
  unfold GameState.refillIfEmpty
  split <;> [skip; rfl]
  split <;> [skip; rfl]
  rename_i hdraw _
  rw [List.isEmpty_iff] at hdraw
  simp only [bag_eq]
  rw [hdraw]
  have hco : ((shuffle s.discard_pile : List CardInstance) : Multiset CardInstance) =
      (s.discard_pile : Multiset CardInstance) := Multiset.coe_eq_coe.mpr (hsh _)
  rw [hco]
  simp only [Multiset.coe_nil]
  abel

/-- One draw step only touches the two piles and the drawing hand. -/
theorem drawOne_frame (shuffle : List CardInstance → List CardInstance)
    (s : GameState) (p : Nat) :
    Frame s (GameState.drawOne shuffle s p).1 ∧
      (GameState.drawOne shuffle s p).1.resolution_stack = s.resolution_stack := by
  rcases drawOne_eq_cases shuffle s p with ⟨card, _, hdef⟩ | ⟨_, hdef⟩ <;> rw [hdef]
  · refine ⟨⟨?_, ?_, ?_, ?_, ?_, ?_⟩, ?_⟩ <;>
      simp [GameState.setP, refillIfEmpty_players]
  · refine ⟨⟨?_, ?_, ?_, ?_, ?_, ?_⟩, ?_⟩ <;> simp [refillIfEmpty_players]

/-- One draw step conserves the bag. -/
theorem drawOne_bag (shuffle : List CardInstance → List CardInstance)
    (hsh : ∀ l, (shuffle l).Perm l) (s : GameState) (p : Nat)
    (hp : p < s.players.length) :
    (GameState.drawOne shuffle s p).1.bag = s.bag := by
  have hp₁ : p < (s.refillIfEmpty shuffle).players.length := by
    rw [refillIfEmpty_players]; exact hp
  rcases drawOne_eq_cases shuffle s p with ⟨card, heq, hdef⟩ | ⟨_, hdef⟩ <;> rw [hdef]
  · have hsplit : (s.refillIfEmpty shuffle).draw_pile.dropLast ++ [card] =
        (s.refillIfEmpty shuffle).draw_pile :=
      List.dropLast_append_getLast? card heq
    have h4 : ((s.refillIfEmpty shuffle).draw_pile : Multiset CardInstance) =
        ((s.refillIfEmpty shuffle).draw_pile.dropLast : Multiset CardInstance) + {card} := by
      conv_lhs => rw [← hsplit]
      rw [← Multiset.coe_add, Multiset.coe_singleton]
    have h1 := bag_set_draw
      ((s.refillIfEmpty shuffle).setP p
        { (s.refillIfEmpty shuffle).getP p with
            hand := ((s.refillIfEmpty shuffle).getP p).hand ++ [card] })
      (s.refillIfEmpty shuffle).draw_pile.dropLast
    rw [setP_draw_pile] at h1
    have h2 := bag_setP (s.refillIfEmpty shuffle) p
      { (s.refillIfEmpty shuffle).getP p with
          hand := ((s.refillIfEmpty shuffle).getP p).hand ++ [card] } hp₁
    have h3 := pall_hand_append ((s.refillIfEmpty shuffle).getP p) card
    have hmain :
        ({ (s.refillIfEmpty shuffle).setP p
             { (s.refillIfEmpty shuffle).getP p with
                 hand := ((s.refillIfEmpty shuffle).getP p).hand ++ [card] } with
           draw_pile := (s.refillIfEmpty shuffle).draw_pile.dropLast } : GameState).bag +
          ((((s.refillIfEmpty shuffle).getP p).allCards : Multiset CardInstance) +
            ((s.refillIfEmpty shuffle).draw_pile : Multiset CardInstance)) =
        (s.refillIfEmpty shuffle).bag +
          ((((s.refillIfEmpty shuffle).getP p).allCards : Multiset CardInstance) +
            ((s.refillIfEmpty shuffle).draw_pile : Multiset CardInstance)) := by
      calc _ = ({ (s.refillIfEmpty shuffle).setP p
                   { (s.refillIfEmpty shuffle).getP p with
                       hand := ((s.refillIfEmpty shuffle).getP p).hand ++ [card] } with
                 draw_pile := (s.refillIfEmpty shuffle).draw_pile.dropLast } : GameState).bag +
              ((s.refillIfEmpty shuffle).draw_pile : Multiset CardInstance) +
              (((s.refillIfEmpty shuffle).getP p).allCards : Multiset CardInstance) := by
            abel
        _ = ((s.refillIfEmpty shuffle).setP p
              { (s.refillIfEmpty shuffle).getP p with
                  hand := ((s.refillIfEmpty shuffle).getP p).hand ++ [card] }).bag +
              ((s.refillIfEmpty shuffle).draw_pile.dropLast : Multiset CardInstance) +
              (((s.refillIfEmpty shuffle).getP p).allCards : Multiset CardInstance) := by
            rw [h1]
        _ = ((s.refillIfEmpty shuffle).setP p
              { (s.refillIfEmpty shuffle).getP p with
                  hand := ((s.refillIfEmpty shuffle).getP p).hand ++ [card] }).bag +
              (((s.refillIfEmpty shuffle).getP p).allCards : Multiset CardInstance) +
              ((s.refillIfEmpty shuffle).draw_pile.dropLast : Multiset CardInstance) := by
            abel
        _ = (s.refillIfEmpty shuffle).bag +
              (({ (s.refillIfEmpty shuffle).getP p with
                   hand := ((s.refillIfEmpty shuffle).getP p).hand ++ [card] } :
                 PlayerState).allCards : Multiset CardInstance) +
              ((s.refillIfEmpty shuffle).draw_pile.dropLast : Multiset CardInstance) := by
            rw [h2]
        _ = (s.refillIfEmpty shuffle).bag +
              ((((s.refillIfEmpty shuffle).getP p).allCards : Multiset CardInstance) + {card}) +
              ((s.refillIfEmpty shuffle).draw_pile.dropLast : Multiset CardInstance) := by
            rw [h3]
        _ = (s.refillIfEmpty shuffle).bag +
              ((((s.refillIfEmpty shuffle).getP p).allCards : Multiset CardInstance) +
                (((s.refillIfEmpty shuffle).draw_pile.dropLast : Multiset CardInstance) +
                  {card})) := by
            abel
        _ = _ := by rw [← h4]
    exact (bag_cancel hmain).trans (refill_bag shuffle hsh s)
  · exact refill_bag shuffle hsh s

/-- One draw step keeps `PIdx`. -/
theorem drawOne_pidx (shuffle : List CardInstance → List CardInstance)
    (s : GameState) (p : Nat) (hp : p < s.players.length) (hpi : PIdx s) :
    PIdx (GameState.drawOne shuffle s p).1 := by
  have hpi₁ : PIdx (s.refillIfEmpty shuffle) :=
    PIdx_congr s _ (refillIfEmpty_players shuffle s) hpi
  have hp₁ : p < (s.refillIfEmpty shuffle).players.length := by
    rw [refillIfEmpty_players]; exact hp
  rcases drawOne_eq_cases shuffle s p with ⟨card, _, hdef⟩ | ⟨_, hdef⟩ <;> rw [hdef]
  · refine PIdx_congr _ _ rfl (PIdx_setP _ _ _ hpi₁ rfl hp₁)
  · exact hpi₁

/-- `draw_card` conserves the bag. -/
theorem draw_card_bag (shuffle : List CardInstance → List CardInstance)
    (hsh : ∀ l, (shuffle l).Perm l) (s : GameState) (p : Nat) (count : Nat)
    (hp : p < s.players.length) :
    (GameState.draw_card shuffle s p count).1.bag = s.bag := by
  induction count generalizing s with
  | zero => rfl
  | succ n ih =>
      cases hdo : GameState.drawOne shuffle s p with
      | mk s₁ opt =>
          have hb : s₁.bag = s.bag := by
            have := drawOne_bag shuffle hsh s p hp
            rw [hdo] at this
            exact this
          have hlen : s₁.players.length = s.players.length := by
            have := drawOne_players_length shuffle s p
            rw [hdo] at this
            exact this
          cases opt with
          | some card =>
              simp only [GameState.draw_card, hdo]
              rw [ih s₁ (by rw [hlen]; exact hp), hb]
          | none => simp only [GameState.draw_card, hdo]; exact hb

/-- `draw_card` only touches the two piles and the drawing hand. -/
theorem draw_card_frame (shuffle : List CardInstance → List CardInstance)
    (s : GameState) (p : Nat) (count : Nat) :
    Frame s (GameState.draw_card shuffle s p count).1 ∧
      (GameState.draw_card shuffle s p count).1.resolution_stack =
        s.resolution_stack := by
  induction count generalizing s with
  | zero => exact ⟨frame_rfl s, rfl⟩
  | succ n ih =>
      cases hdo : GameState.drawOne shuffle s p with
      | mk s₁ opt =>
          have hf : Frame s s₁ ∧ s₁.resolution_stack = s.resolution_stack := by
            have := drawOne_frame shuffle s p
            rw [hdo] at this
            exact this
          cases opt with
          | some card =>
              simp only [GameState.draw_card, hdo]
              exact ⟨frame_trans hf.1 (ih s₁).1, (ih s₁).2.trans hf.2⟩
          | none => simp only [GameState.draw_card, hdo]; exact hf

/-- `draw_card` keeps `PIdx`. -/
theorem draw_card_pidx (shuffle : List CardInstance → List CardInstance)
    (s : GameState) (p : Nat) (count : Nat) (hp : p < s.players.length)
    (hpi : PIdx s) : PIdx (GameState.draw_card shuffle s p count).1 := by
  induction count generalizing s with
  | zero => exact hpi
  | succ n ih =>
      cases hdo : GameState.drawOne shuffle s p with
      | mk s₁ opt =>
          have hpi₁ : PIdx s₁ := by
            have := drawOne_pidx shuffle s p hp hpi
            rw [hdo] at this
            exact this
          have hlen : s₁.players.length = s.players.length := by
            have := drawOne_players_length shuffle s p
            rw [hdo] at this
            exact this
          cases opt with
          | some card =>
              simp only [GameState.draw_card, hdo]
              exact ih s₁ (by rw [hlen]; exact hp) hpi₁
          | none => simp only [GameState.draw_card, hdo]; exact hpi₁

/-- `discard_card` of a held card conserves the bag. -/
theorem discard_card_bag (s : GameState) (c : CardInstance) (i : Nat)
    (h : c ∈ (s.getP i).hand) : (s.discard_card c i).bag = s.bag := by
  have hi : i < s.players.length := by
    by_contra hge
    have : s.getP i = dummyPlayer := by
      unfold GameState.getP
      exact List.getD_eq_default _ _ (Nat.le_of_not_lt hge)
    rw [this] at h
    simp [dummyPlayer] at h
  unfold GameState.discard_card
  rw [if_pos h]
  have h1 := bag_set_discard
    (s.setP i { s.getP i with hand := (s.getP i).hand.erase c })
    (s.discard_pile ++ [c])
  rw [setP_discard_pile] at h1
  have h2 := bag_setP s i { s.getP i with hand := (s.getP i).hand.erase c } hi
  have h3 := pall_hand_erase (s.getP i) c h
  have hmain :
      ({ s.setP i { s.getP i with hand := (s.getP i).hand.erase c } with
          discard_pile := s.discard_pile ++ [c] } : GameState).bag +
        ((s.discard_pile : Multiset CardInstance) +
          (((s.getP i).allCards : Multiset CardInstance))) =
      s.bag + ((s.discard_pile : Multiset CardInstance) +
          (((s.getP i).allCards : Multiset CardInstance))) := by
    calc _ = ({ s.setP i { s.getP i with hand := (s.getP i).hand.erase c } with
                discard_pile := s.discard_pile ++ [c] } : GameState).bag +
            (s.discard_pile : Multiset CardInstance) +
            ((s.getP i).allCards : Multiset CardInstance) := by abel
      _ = (s.setP i { s.getP i with hand := (s.getP i).hand.erase c }).bag +
            ((s.discard_pile ++ [c] : List CardInstance) : Multiset CardInstance) +
            ((s.getP i).allCards : Multiset CardInstance) := by rw [h1]
      _ = (s.setP i { s.getP i with hand := (s.getP i).hand.erase c }).bag +
            ((s.getP i).allCards : Multiset CardInstance) +
            ((s.discard_pile ++ [c] : List CardInstance) : Multiset CardInstance) := by
          abel
      _ = s.bag +
            (({ s.getP i with hand := (s.getP i).hand.erase c } :
               PlayerState).allCards : Multiset CardInstance) +
            ((s.discard_pile ++ [c] : List CardInstance) : Multiset CardInstance) := by
          rw [h2]
      _ = s.bag +
            (({ s.getP i with hand := (s.getP i).hand.erase c } :
               PlayerState).allCards : Multiset CardInstance) +
            ((s.discard_pile : Multiset CardInstance) + {c}) := by
          rw [← Multiset.coe_add, Multiset.coe_singleton]
      _ = s.bag + ((s.discard_pile : Multiset CardInstance) +
            ((({ s.getP i with hand := (s.getP i).hand.erase c } :
               PlayerState).allCards : Multiset CardInstance) + {c})) := by abel
      _ = _ := by rw [← h3]
  exact bag_cancel hmain

/-- `discard_card` of a held card only touches that hand and the discard
pile. -/
theorem discard_card_frame (s : GameState) (c : CardInstance) (i : Nat) :
    Frame s (s.discard_card c i) ∧
      (s.discard_card c i).resolution_stack = s.resolution_stack := by
  unfold GameState.discard_card
  split
  · exact ⟨⟨by simp [GameState.setP], rfl, rfl, rfl, rfl, rfl⟩, rfl⟩
  · exact ⟨frame_rfl s, rfl⟩

/-- `discard_card` keeps `PIdx`. -/
theorem discard_card_pidx (s : GameState) (c : CardInstance) (i : Nat)
    (hpi : PIdx s) : PIdx (s.discard_card c i) := by
  unfold GameState.discard_card
  split
  · rename_i h
    have hi : i < s.players.length := by
      by_contra hge
      have hd : s.getP i = dummyPlayer := by
        unfold GameState.getP
        exact List.getD_eq_default _ _ (Nat.le_of_not_lt hge)
      rw [hd] at h
      simp [dummyPlayer] at h
    exact PIdx_congr _ _ rfl (PIdx_setP _ _ _ hpi rfl hi)
  · exact hpi

/-- One draw step leaves every board list unchanged. -/
theorem drawOne_boards (shuffle : List CardInstance → List CardInstance)
    (s : GameState) (p : Nat) : boardsEq s (GameState.drawOne shuffle s p).1 := by
  have hrf : boardsEq s (s.refillIfEmpty shuffle) :=
    boardsEq_of_players_eq _ _ (refillIfEmpty_players shuffle s)
  rcases drawOne_eq_cases shuffle s p with ⟨card, _, hdef⟩ | ⟨_, hdef⟩ <;> rw [hdef]
  · refine boardsEq_trans hrf ?_
    refine boardsEq_trans (setP_boards (s.refillIfEmpty shuffle) p
      { (s.refillIfEmpty shuffle).getP p with
          hand := ((s.refillIfEmpty shuffle).getP p).hand ++ [card] }
      rfl rfl rfl) ?_
    exact boardsEq_of_players_eq _ _ rfl
  · exact hrf

/-- `draw_card` leaves every board list unchanged. -/
theorem draw_card_boards (shuffle : List CardInstance → List CardInstance)
    (s : GameState) (p : Nat) (count : Nat) :
    boardsEq s (GameState.draw_card shuffle s p count).1 := by
  induction count generalizing s with
  | zero => exact boardsEq_rfl s
  | succ n ih =>
      cases hdo : GameState.drawOne shuffle s p with
      | mk s₁ opt =>
          have hb : boardsEq s s₁ := by
            have := drawOne_boards shuffle s p
            rw [hdo] at this
            exact this
          cases opt with
          | some card =>
              simp only [GameState.draw_card, hdo]
              exact boardsEq_trans hb (ih s₁)
          | none => simp only [GameState.draw_card, hdo]; exact hb

/-- `discard_card` leaves every board list unchanged. -/
theorem discard_card_boards (s : GameState) (c : CardInstance) (i : Nat) :
    boardsEq s (s.discard_card c i) := by
  unfold GameState.discard_card
  split
  · refine boardsEq_trans (setP_boards s i
      { s.getP i with hand := (s.getP i).hand.erase c } rfl rfl rfl) ?_
    exact boardsEq_of_players_eq _ _ rfl
  · exact boardsEq_rfl s

/-- Holding a card puts the holder in range (the dummy slot is empty). -/
theorem mem_hand_lt (s : GameState) (i : Nat) (c : CardInstance)
    (h : c ∈ (s.getP i).hand) : i < s.players.length := by
  by_contra hge
  have hd : s.getP i = dummyPlayer := by
    unfold GameState.getP
    exact List.getD_eq_default _ _ (Nat.le_of_not_lt hge)
  rw [hd] at h
  simp [dummyPlayer] at h

/-- Writing a slot back with the same card lists conserves the bag. -/
theorem setP_bag_same (s : GameState) (i : Nat) (p' : PlayerState)
    (hi : i < s.players.length) (hall : p'.allCards = (s.getP i).allCards) :
    (s.setP i p').bag = s.bag := by
  have h2 := bag_setP s i p' hi
  rw [hall] at h2
  exact bag_cancel h2

/-- The whole-hand discard loop of the `DISCARD` effect arm: the hand empties
into the discard pile, conserving the bag and touching nothing else. -/
theorem foldl_discard_preserve (i : Nat) :
    ∀ (l : List CardInstance) (s : GameState), (s.getP i).hand = l → PIdx s →
      (l.foldl (fun st c => st.discard_card c i) s).bag = s.bag ∧
      Frame s (l.foldl (fun st c => st.discard_card c i) s) ∧
      (l.foldl (fun st c => st.discard_card c i) s).resolution_stack =
        s.resolution_stack ∧
      PIdx (l.foldl (fun st c => st.discard_card c i) s) ∧
      boardsEq s (l.foldl (fun st c => st.discard_card c i) s) := by
  intro l
  induction l with
  | nil => intro s _ hpi; exact ⟨rfl, frame_rfl s, rfl, hpi, boardsEq_rfl s⟩
  | cons c l ih =>
      intro s hhand hpi
      simp only [List.foldl_cons]
      have hc : c ∈ (s.getP i).hand := by
        rw [hhand]; exact List.mem_cons_self c l
      have hi : i < s.players.length := mem_hand_lt s i c hc
      have hhand' : ((s.discard_card c i).getP i).hand = l := by
        unfold GameState.discard_card
        rw [if_pos hc]
        have hg : ({ s.setP i { s.getP i with hand := (s.getP i).hand.erase c } with
            discard_pile := s.discard_pile ++ [c] } : GameState).getP i =
            (s.setP i { s.getP i with hand := (s.getP i).hand.erase c }).getP i := rfl
        rw [hg, getP_setP_self _ _ _ hi]
        rw [hhand]
        exact List.erase_cons_head c l
      have hb := discard_card_bag s c i hc
      have hf := discard_card_frame s c i
      have hpi' := discard_card_pidx s c i hpi
      obtain ⟨r1, r2, r3, r4, r5⟩ := ih (s.discard_card c i) hhand' hpi'
      exact ⟨r1.trans hb, frame_trans hf.1 r2, r3.trans hf.2, r4,
        boardsEq_trans (discard_card_boards s c i) r5⟩

/-- `add_to_stable` of a fileable card adds exactly that card to the bag. -/
theorem add_to_stable_bag (s : GameState) (c : CardInstance) (i : Nat)
    (hi : i < s.players.length)
    (ht : c.card_type = CardType.UPGRADE ∨ c.card_type = CardType.DOWNGRADE ∨
      c.is_unicorn = true) :
    (s.add_to_stable c i).bag = s.bag + {c} := by
  unfold GameState.add_to_stable
  split
  · have hmain := bag_setP s i
      { s.getP i with upgrades := (s.getP i).upgrades ++ [c] } hi
    rw [pall_upgrades_append] at hmain
    have hfin : (s.setP i { s.getP i with
          upgrades := (s.getP i).upgrades ++ [c] }).bag +
        ((s.getP i).allCards : Multiset CardInstance) =
        (s.bag + {c}) + ((s.getP i).allCards : Multiset CardInstance) := by
      rw [hmain]; abel
    exact bag_cancel hfin
  · split
    · have hmain := bag_setP s i
        { s.getP i with downgrades := (s.getP i).downgrades ++ [c] } hi
      rw [pall_downgrades_append] at hmain
      have hfin : (s.setP i { s.getP i with
            downgrades := (s.getP i).downgrades ++ [c] }).bag +
          ((s.getP i).allCards : Multiset CardInstance) =
          (s.bag + {c}) + ((s.getP i).allCards : Multiset CardInstance) := by
        rw [hmain]; abel
      exact bag_cancel hfin
    · split
      · have hmain := bag_setP s i
          { s.getP i with stable := (s.getP i).stable ++ [c] } hi
        rw [pall_stable_append] at hmain
        have hfin : (s.setP i { s.getP i with
              stable := (s.getP i).stable ++ [c] }).bag +
            ((s.getP i).allCards : Multiset CardInstance) =
            (s.bag + {c}) + ((s.getP i).allCards : Multiset CardInstance) := by
          rw [hmain]; abel
        exact bag_cancel hfin
      · rcases ht with h | h | h <;> simp_all

/-- `add_to_stable` only touches the receiving board. -/
theorem add_to_stable_frame (s : GameState) (c : CardInstance) (i : Nat) :
    Frame s (s.add_to_stable c i) ∧
      (s.add_to_stable c i).resolution_stack = s.resolution_stack := by
  unfold GameState.add_to_stable
  split
  · exact ⟨⟨by simp [GameState.setP], rfl, rfl, rfl, rfl, rfl⟩, rfl⟩
  · split
    · exact ⟨⟨by simp [GameState.setP], rfl, rfl, rfl, rfl, rfl⟩, rfl⟩
    · split
      · exact ⟨⟨by simp [GameState.setP], rfl, rfl, rfl, rfl, rfl⟩, rfl⟩
      · exact ⟨frame_rfl s, rfl⟩

/-- `add_to_stable` keeps `PIdx`. -/
theorem add_to_stable_pidx (s : GameState) (c : CardInstance) (i : Nat)
    (hi : i < s.players.length) (hpi : PIdx s) : PIdx (s.add_to_stable c i) := by
  unfold GameState.add_to_stable
  split
  · exact PIdx_congr _ _ rfl (PIdx_setP _ _ _ hpi rfl hi)
  · split
    · exact PIdx_congr _ _ rfl (PIdx_setP _ _ _ hpi rfl hi)
    · split
      · exact PIdx_congr _ _ rfl (PIdx_setP _ _ _ hpi rfl hi)
      · exact hpi

/-- Appending to the discard pile, at the bag level. -/
theorem bag_append_discard (X : GameState) (t : List CardInstance) :
    ({ X with discard_pile := X.discard_pile ++ t } : GameState).bag =
      X.bag + (t : Multiset CardInstance) := by
  have h1 := bag_set_discard X (X.discard_pile ++ t)
  have hco : ((X.discard_pile ++ t : List CardInstance) : Multiset CardInstance) =
      (X.discard_pile : Multiset CardInstance) + (t : Multiset CardInstance) := by
    rw [← Multiset.coe_add]
  have hmain : ({ X with discard_pile := X.discard_pile ++ t } : GameState).bag +
      (X.discard_pile : Multiset CardInstance) =
      (X.bag + (t : Multiset CardInstance)) +
        (X.discard_pile : Multiset CardInstance) := by
    rw [h1, hco]
    abel
  exact bag_cancel hmain

/-- Removing a held card from a stable, at the bag level. -/
theorem erase_stable_bag (s : GameState) (i : Nat) (c : CardInstance)
    (hi : i < s.players.length) (h : c ∈ (s.getP i).stable) :
    (s.setP i { s.getP i with stable := (s.getP i).stable.erase c }).bag + {c} =
      s.bag := by
  have h2 := bag_setP s i { s.getP i with stable := (s.getP i).stable.erase c } hi
  have h3 := pall_stable_erase (s.getP i) c h
  have hmain :
      (s.setP i { s.getP i with stable := (s.getP i).stable.erase c }).bag + {c} +
        (({ s.getP i with stable := (s.getP i).stable.erase c } :
          PlayerState).allCards : Multiset CardInstance) =
      s.bag + (({ s.getP i with stable := (s.getP i).stable.erase c } :
          PlayerState).allCards : Multiset CardInstance) := by
    calc _ = (s.setP i { s.getP i with stable := (s.getP i).stable.erase c }).bag +
            ((({ s.getP i with stable := (s.getP i).stable.erase c } :
              PlayerState).allCards : Multiset CardInstance) + {c}) := by abel
      _ = (s.setP i { s.getP i with stable := (s.getP i).stable.erase c }).bag +
            ((s.getP i).allCards : Multiset CardInstance) := by rw [← h3]
      _ = s.bag + (({ s.getP i with stable := (s.getP i).stable.erase c } :
            PlayerState).allCards : Multiset CardInstance) := h2
  exact bag_cancel hmain

/-- Removing a held card from the upgrades, at the bag level. -/
theorem erase_upgrades_bag (s : GameState) (i : Nat) (c : CardInstance)
    (hi : i < s.players.length) (h : c ∈ (s.getP i).upgrades) :
    (s.setP i { s.getP i with upgrades := (s.getP i).upgrades.erase c }).bag + {c} =
      s.bag := by
  have h2 := bag_setP s i { s.getP i with upgrades := (s.getP i).upgrades.erase c } hi
  have h3 := pall_upgrades_erase (s.getP i) c h
  have hmain :
      (s.setP i { s.getP i with upgrades := (s.getP i).upgrades.erase c }).bag + {c} +
        (({ s.getP i with upgrades := (s.getP i).upgrades.erase c } :
          PlayerState).allCards : Multiset CardInstance) =
      s.bag + (({ s.getP i with upgrades := (s.getP i).upgrades.erase c } :
          PlayerState).allCards : Multiset CardInstance) := by
    calc _ = (s.setP i { s.getP i with upgrades := (s.getP i).upgrades.erase c }).bag +
            ((({ s.getP i with upgrades := (s.getP i).upgrades.erase c } :
              PlayerState).allCards : Multiset CardInstance) + {c}) := by abel
      _ = (s.setP i { s.getP i with upgrades := (s.getP i).upgrades.erase c }).bag +
            ((s.getP i).allCards : Multiset CardInstance) := by rw [← h3]
      _ = s.bag + (({ s.getP i with upgrades := (s.getP i).upgrades.erase c } :
            PlayerState).allCards : Multiset CardInstance) := h2
  exact bag_cancel hmain

/-- Removing a held card from the downgrades, at the bag level. -/
theorem erase_downgrades_bag (s : GameState) (i : Nat) (c : CardInstance)
    (hi : i < s.players.length) (h : c ∈ (s.getP i).downgrades) :
    (s.setP i { s.getP i with
      downgrades := (s.getP i).downgrades.erase c }).bag + {c} = s.bag := by
  have h2 := bag_setP s i
    { s.getP i with downgrades := (s.getP i).downgrades.erase c } hi
  have h3 := pall_downgrades_erase (s.getP i) c h
  have hmain :
      (s.setP i { s.getP i with
        downgrades := (s.getP i).downgrades.erase c }).bag + {c} +
        (({ s.getP i with downgrades := (s.getP i).downgrades.erase c } :
          PlayerState).allCards : Multiset CardInstance) =
      s.bag + (({ s.getP i with downgrades := (s.getP i).downgrades.erase c } :
          PlayerState).allCards : Multiset CardInstance) := by
    calc _ = (s.setP i { s.getP i with
              downgrades := (s.getP i).downgrades.erase c }).bag +
            ((({ s.getP i with downgrades := (s.getP i).downgrades.erase c } :
              PlayerState).allCards : Multiset CardInstance) + {c}) := by abel
      _ = (s.setP i { s.getP i with
              downgrades := (s.getP i).downgrades.erase c }).bag +
            ((s.getP i).allCards : Multiset CardInstance) := by rw [← h3]
      _ = s.bag + (({ s.getP i with downgrades := (s.getP i).downgrades.erase c } :
            PlayerState).allCards : Multiset CardInstance) := h2
  exact bag_cancel hmain

/-- The list-removal part of `remove_from_stable` on a card actually on the
board takes exactly that card out of the bag. -/
theorem removeStep_bag_mem (s : GameState) (c : CardInstance) (i : Nat)
    (hi : i < s.players.length)
    (hmem : c ∈ (s.getP i).get_all_stable_cards) :
    (s.removeStep c i).bag + {c} = s.bag := by
  unfold GameState.removeStep
  unfold PlayerState.get_all_stable_cards at hmem
  by_cases h1 : c ∈ (s.getP i).stable
  · rw [if_pos h1]
    exact erase_stable_bag s i c hi h1
  · rw [if_neg h1]
    by_cases h2 : c ∈ (s.getP i).upgrades
    · rw [if_pos h2]
      exact erase_upgrades_bag s i c hi h2
    · rw [if_neg h2]
      by_cases h3 : c ∈ (s.getP i).downgrades
      · rw [if_pos h3]
        exact erase_downgrades_bag s i c hi h3
      · exfalso
        rcases List.mem_append.mp hmem with h4 | h4
        · rcases List.mem_append.mp h4 with h5 | h5
          · exact h1 h5
          · exact h2 h5
        · exact h3 h4

/-- `remove_from_stable` of an on-board card conserves the bag: the board
slot empties into the discard pile. -/
theorem remove_from_stable_bag_mem (s : GameState) (c : CardInstance) (i : Nat)
    (hi : i < s.players.length)
    (hmem : c ∈ (s.getP i).get_all_stable_cards) :
    (s.remove_from_stable c i).bag = s.bag := by
  unfold GameState.remove_from_stable
  have hb := bag_append_discard (s.removeStep c i) [c]
  rw [Multiset.coe_singleton] at hb
  rw [hb]
  exact removeStep_bag_mem s c i hi hmem

/-- The list-removal part of `remove_from_stable` only touches one board. -/
theorem removeStep_frame (s : GameState) (c : CardInstance) (i : Nat) :
    Frame s (s.removeStep c i) ∧
      (s.removeStep c i).resolution_stack = s.resolution_stack := by
  unfold GameState.removeStep
  split
  · exact ⟨⟨by simp [GameState.setP], rfl, rfl, rfl, rfl, rfl⟩, rfl⟩
  · split
    · exact ⟨⟨by simp [GameState.setP], rfl, rfl, rfl, rfl, rfl⟩, rfl⟩
    · split
      · exact ⟨⟨by simp [GameState.setP], rfl, rfl, rfl, rfl, rfl⟩, rfl⟩
      · exact ⟨frame_rfl s, rfl⟩

/-- `remove_from_stable` only touches one board and the discard pile. -/
theorem remove_from_stable_frame (s : GameState) (c : CardInstance) (i : Nat) :
    Frame s (s.remove_from_stable c i) ∧
      (s.remove_from_stable c i).resolution_stack = s.resolution_stack := by
  unfold GameState.remove_from_stable
  obtain ⟨hf, hs⟩ := removeStep_frame s c i
  exact ⟨frame_trans hf ⟨rfl, rfl, rfl, rfl, rfl, rfl⟩, hs⟩

/-- The list-removal part of `remove_from_stable` keeps `PIdx`. -/
theorem removeStep_pidx (s : GameState) (c : CardInstance) (i : Nat)
    (hi : i < s.players.length) (hpi : PIdx s) : PIdx (s.removeStep c i) := by
  unfold GameState.removeStep
  split
  · exact PIdx_congr _ _ rfl (PIdx_setP _ _ _ hpi rfl hi)
  · split
    · exact PIdx_congr _ _ rfl (PIdx_setP _ _ _ hpi rfl hi)
    · split
      · exact PIdx_congr _ _ rfl (PIdx_setP _ _ _ hpi rfl hi)
      · exact hpi

/-- `remove_from_stable` keeps `PIdx`. -/
theorem remove_from_stable_pidx (s : GameState) (c : CardInstance) (i : Nat)
    (hi : i < s.players.length) (hpi : PIdx s) :
    PIdx (s.remove_from_stable c i) := by
  unfold GameState.remove_from_stable
  exact PIdx_congr _ _ rfl (removeStep_pidx s c i hi hpi)

/-- A card just filed by `add_to_stable` sits on the receiving board. -/
theorem add_to_stable_mem (s : GameState) (c : CardInstance) (i : Nat)
    (hi : i < s.players.length)
    (ht : c.card_type = CardType.UPGRADE ∨ c.card_type = CardType.DOWNGRADE ∨
      c.is_unicorn = true) :
    c ∈ ((s.add_to_stable c i).getP i).get_all_stable_cards := by
  unfold GameState.add_to_stable PlayerState.get_all_stable_cards
  split
  · rw [getP_setP_self _ _ _ hi]
    simp
  · split
    · rw [getP_setP_self _ _ _ hi]
      simp
    · split
      · rw [getP_setP_self _ _ _ hi]
        simp
      · rcases ht with h | h | h <;> simp_all

/-- `SelfSacZero` spelt through the indexed first step. -/
theorem SelfSacZero_iff (e : Effect) :
    SelfSacZero e ↔ 0 < e.actions.length ∧
      ((e.actions.get? 0).getD dummyEffectAction).action_type =
        EffActionType.SACRIFICE ∧
      ((e.actions.get? 0).getD dummyEffectAction).target.target_type =
        TargetType.SELF := by
  unfold SelfSacZero
  cases hact : e.actions with
  | nil => simp
  | cons a tl => simp

/-- A safe effect opening on a SELF sacrifice can only be an ON_ENTER
effect (the Narwhal Torpedo shape). -/
theorem EffSafe_ssz_trigger (e : Effect) (he : EffSafe e) (hz : SelfSacZero e) :
    e.trigger = EffectTrigger.ON_ENTER := by
  obtain ⟨hlen, hsac, hself⟩ := (SelfSacZero_iff e).mp hz
  rcases he 0 hlen hself with h1 | ⟨_, _, h3⟩ | ⟨j, hj, _⟩
  · rw [hsac] at h1
    simp [SafeSelf] at h1
  · exact h3
  · omega

/-- A safe effect with any other trigger never opens on a SELF sacrifice. -/
theorem not_SSZ_of_trigger (e : Effect) (he : EffSafe e)
    (ht : e.trigger ≠ EffectTrigger.ON_ENTER) : ¬ SelfSacZero e :=
  fun hz => ht (EffSafe_ssz_trigger e he hz)

/-- A well-formed frame executing a SELF sacrifice is a first-step SELF
sacrifice frame. -/
theorem SSN_of_exec (t : EffectTask) (he : EffSafe t.effect)
    (hIdx : ∀ j, j < t.current_action_idx →
      ¬ (needsTarget ((t.effect.actions.get? j).getD dummyEffectAction) ∧
         ((t.effect.actions.get? j).getD dummyEffectAction).condition = none))
    (hlt : t.current_action_idx < t.effect.actions.length)
    (hsac : ((t.effect.actions.get? t.current_action_idx).getD
        dummyEffectAction).action_type = EffActionType.SACRIFICE)
    (hself : ((t.effect.actions.get? t.current_action_idx).getD
        dummyEffectAction).target.target_type = TargetType.SELF) :
    SSN t := by
  rcases he t.current_action_idx hlt hself with h1 | ⟨_, hzero, _⟩ |
    ⟨j, hj, hnt, hcnone⟩
  · rw [hsac] at h1
    simp [SafeSelf] at h1
  · rw [hzero] at hsac hself hlt
    exact ⟨hzero, (SelfSacZero_iff _).mpr ⟨hlt, hsac, hself⟩⟩
  · exact absurd ⟨hnt, hcnone⟩ (hIdx j hj)

/-- A successful registry lookup comes from an entry of the list. -/
theorem regLookup_mem (reg : Registry) (k : String) (e : Effect)
    (h : regLookup reg (some k) = some e) :
    ∃ pr ∈ regList reg, pr.1 = k ∧ pr.2 = e := by
  unfold regLookup at h
  rcases Option.map_eq_some'.mp h with ⟨pr, hf, hpe⟩
  have hp := List.find?_some hf
  simp only [decide_eq_true_eq] at hp
  exact ⟨pr, List.mem_of_find?_eq_some hf, hp, hpe⟩

/-- A successful registry lookup in a safe registry yields a safe effect. -/
theorem regLookup_safe (reg : Registry) (oid : Option String) (e : Effect)
    (hreg : RegOk reg) (h : regLookup reg oid = some e) : EffSafe e := by
  cases oid with
  | none => unfold regLookup at h; cases h
  | some i =>
      obtain ⟨pr, hmem, _, hpe⟩ := regLookup_mem reg i e h
      rw [← hpe]
      exact hreg.1 pr hmem

/-- The Barbed Wire entry of a safe registry never opens on a SELF
sacrifice. -/
theorem not_SSZ_barbed (reg : Registry) (e : Effect) (hreg : RegOk reg)
    (h : regLookup reg (some "barbed_wire") = some e) : ¬ SelfSacZero e := by
  intro hz
  obtain ⟨ad, hmem, hsac, hself⟩ := hz
  obtain ⟨pr, hpmem, hk, hpe⟩ := regLookup_mem reg _ e h
  have hsafe := hreg.2 pr hpmem hk ad (by rw [hpe]; exact List.mem_of_mem_take hmem)
    (by exact hself)
  rw [hsac] at hsafe
  simp [SafeSelf] at hsafe

/-- The frames `trigger_leave_events` pushes are well formed, locate their
sources, and are never first-step SELF sacrifices (the leaving card's own
effect would need trigger ON_LEAVE, listener effects are Barbed Wire). -/
theorem pushLeaveEvents_ok (reg : Registry) (s : GameState) (card : CardInstance)
    (o : Nat) (hreg : RegOk reg) (ho : o < s.players.length) :
    ∀ u ∈ pushLeaveEvents reg s card o,
      TaskOk s.players.length u ∧ SrcOk s u ∧ ¬ SSN u := by
  intro u hu
  simp only [pushLeaveEvents] at hu
  rcases List.mem_append.mp hu with h1 | h1
  · cases hl : regLookup reg card.effect_id with
    | none => rw [hl] at h1; simp at h1
    | some e =>
        rw [hl] at h1
        dsimp only at h1
        split at h1
        · rename_i htrig
          simp only [List.mem_singleton] at h1
          subst h1
          have hnssz : ¬ SelfSacZero e := by
            refine not_SSZ_of_trigger e (regLookup_safe reg _ e hreg hl) ?_
            rw [htrig]
            intro hcon
            cases hcon
          refine ⟨⟨by intro x hx; simp at hx, rfl, ho,
            regLookup_safe reg _ e hreg hl,
            fun j hj => absurd hj (Nat.not_lt_zero j)⟩, ?_, ?_⟩
          · intro hssn
            exact absurd hssn.2 hnssz
          · intro hssn
            exact hnssz hssn.2
        · simp at h1
  · rcases List.mem_flatMap.mp h1 with ⟨sc, hsc, h2⟩
    split at h2
    · simp at h2
    · cases hl : regLookup reg sc.effect_id with
      | none => rw [hl] at h2; simp at h2
      | some le =>
          rw [hl] at h2
          dsimp only at h2
          split at h2
          · rename_i hguard
            simp only [List.mem_singleton] at h2
            subst h2
            have hle : regLookup reg (some "barbed_wire") = some le := by
              rw [← hguard.1]
              exact hl
            have hnssz := not_SSZ_barbed reg le hreg hle
            refine ⟨⟨by intro x hx; simp at hx, rfl, ho,
              regLookup_safe reg _ le hreg hl,
              fun j hj => absurd hj (Nat.not_lt_zero j)⟩, ?_, ?_⟩
            · intro hssn
              exact absurd hssn.2 hnssz
            · intro hssn
              exact hnssz hssn.2
          · simp at h2

/-- `_update_player_flags` conserves the bag. -/
theorem updatePlayerFlags_bag (s : GameState) (i : Nat)
    (hi : i < s.players.length) : (updatePlayerFlags s i).bag = s.bag := by
  unfold updatePlayerFlags
  dsimp only
  rw [foldUpgrades_spec, foldDowngrades_spec, foldStable_spec]
  exact setP_bag_same s i _ hi rfl

/-- `_update_player_flags` only touches flags. -/
theorem updatePlayerFlags_frame (s : GameState) (i : Nat) :
    Frame s (updatePlayerFlags s i) ∧
      (updatePlayerFlags s i).resolution_stack = s.resolution_stack := by
  unfold updatePlayerFlags
  dsimp only
  exact ⟨⟨by simp [GameState.setP], rfl, rfl, rfl, rfl, rfl⟩, rfl⟩

/-- `_update_player_flags` keeps `PIdx`. -/
theorem updatePlayerFlags_pidx (s : GameState) (i : Nat)
    (hi : i < s.players.length) (hpi : PIdx s) : PIdx (updatePlayerFlags s i) := by
  unfold updatePlayerFlags
  dsimp only
  rw [foldUpgrades_spec, foldDowngrades_spec, foldStable_spec]
  exact PIdx_congr _ _ rfl (PIdx_setP _ _ _ hpi rfl hi)

/-- With a `None` incoming target and a placeholder-only task,
`_execute_action` on a step the invariant admits (harmless SELF steps, a
SELF sacrifice of an on-board source, or any step falling back to a `None`
target) conserves the bag, leaves the stack and chain slots alone, hands the
task back with its bookkeeping fields intact (only the `last_action_was_*`
attributes may change), pushes only well-formed non-`SSN` frames (the leave
events of a SELF sacrifice), and touches a board only in the SELF-sacrifice
case. -/
theorem executeAction_preserve (reg : Registry)
    (shuffle : List CardInstance → List CardInstance) (s : GameState)
    (task : EffectTask) (ad : EffectAction) (s₁ : GameState) (task₁ : EffectTask)
    (pushed : List EffectTask)
    (h : executeAction reg shuffle s task ad none = .ok (s₁, task₁, pushed))
    (hsh : ∀ l, (shuffle l).Perm l)
    (hreg : RegOk reg)
    (hsafe : ad.target.target_type = TargetType.SELF →
      SafeSelf ad.action_type = true ∨ ad.action_type = EffActionType.SACRIFICE)
    (hsrc : ad.target.target_type = TargetType.SELF →
      ad.action_type = EffActionType.SACRIFICE →
      task.source_card ∈ (s.getP task.controller_idx).get_all_stable_cards)
    (hvac : ∀ x ∈ task.targets_chosen, x = none)
    (hctrl : task.controller_idx < s.players.length)
    (hpi : PIdx s) :
    s₁.bag = s.bag ∧ Frame s s₁ ∧ s₁.resolution_stack = s.resolution_stack ∧
      PIdx s₁ ∧ task₁.targets_chosen = task.targets_chosen ∧
      task₁.effect = task.effect ∧ task₁.controller_idx = task.controller_idx ∧
      task₁.current_action_idx = task.current_action_idx ∧
      (∀ u ∈ pushed, TaskOk s.players.length u ∧ SrcOk s₁ u ∧ ¬ SSN u) ∧
      (boardsEq s s₁ ∨
        (ad.action_type = EffActionType.SACRIFICE ∧
          ad.target.target_type = TargetType.SELF)) := by
  unfold executeAction at h
  dsimp only at h
  cases hty : ad.action_type
  case DRAW =>
      rw [hty] at h
      dsimp only at h
      cases h
      exact ⟨draw_card_bag shuffle hsh s task.controller_idx _ hctrl,
        (draw_card_frame shuffle s task.controller_idx _).1,
        (draw_card_frame shuffle s task.controller_idx _).2,
        draw_card_pidx shuffle s task.controller_idx _ hctrl hpi,
        rfl, rfl, rfl, rfl, by intro u hu; simp at hu,
        Or.inl (draw_card_boards shuffle s task.controller_idx _)⟩
  case DISCARD =>
      have hns : ad.target.target_type ≠ TargetType.SELF := by
        intro hs
        rcases hsafe hs with hx | hx
        · rw [hty] at hx
          simp [SafeSelf] at hx
        · rw [hty] at hx
          simp at hx
      rw [hty, if_neg hns] at h
      dsimp only at h
      split at h
      · cases h
        obtain ⟨r1, r2, r3, r4, r5⟩ := foldl_discard_preserve task.controller_idx
          ((s.getP task.controller_idx).hand) s rfl hpi
        exact ⟨r1, r2, r3, r4, rfl, rfl, rfl, rfl, by intro u hu; simp at hu,
          Or.inl r5⟩
      · cases h
        exact ⟨rfl, frame_rfl s, rfl, hpi, rfl, rfl, rfl, rfl,
          by intro u hu; simp at hu, Or.inl (boardsEq_rfl s)⟩
  case DESTROY =>
      have hns : ad.target.target_type ≠ TargetType.SELF := by
        intro hs
        rcases hsafe hs with hx | hx
        · rw [hty] at hx
          simp [SafeSelf] at hx
        · rw [hty] at hx
          simp at hx
      rw [hty, if_neg hns] at h
      dsimp only at h
      cases h
      exact ⟨rfl, frame_rfl s, rfl, hpi, rfl, rfl, rfl, rfl,
        by intro u hu; simp at hu, Or.inl (boardsEq_rfl s)⟩
  case SACRIFICE =>
      rw [hty] at h
      by_cases hself : ad.target.target_type = TargetType.SELF
      · rw [if_pos hself] at h
        dsimp only at h
        cases h
        have hmem : task.source_card ∈
            (s.getP task.controller_idx).get_all_stable_cards := hsrc hself hty
        obtain ⟨hf, hrs⟩ :=
          remove_from_stable_frame s task.source_card task.controller_idx
        refine ⟨remove_from_stable_bag_mem s _ _ hctrl hmem, hf, hrs,
          remove_from_stable_pidx s _ _ hctrl hpi, rfl, rfl, rfl, rfl, ?_,
          Or.inr ⟨rfl, hself⟩⟩
        intro u hu
        have ho : task.controller_idx <
            (s.remove_from_stable task.source_card
              task.controller_idx).players.length := by
          rw [hf.1]
          exact hctrl
        obtain ⟨h1, h2, h3⟩ := pushLeaveEvents_ok reg _ task.source_card
          task.controller_idx hreg ho u hu
        exact ⟨hf.1 ▸ h1, h2, h3⟩
      · rw [if_neg hself] at h
        dsimp only at h
        cases h
        exact ⟨rfl, frame_rfl s, rfl, hpi, rfl, rfl, rfl, rfl,
          by intro u hu; simp at hu, Or.inl (boardsEq_rfl s)⟩
  case STEAL =>
      have hns : ad.target.target_type ≠ TargetType.SELF := by
        intro hs
        rcases hsafe hs with hx | hx
        · rw [hty] at hx
          simp [SafeSelf] at hx
        · rw [hty] at hx
          simp at hx
      rw [hty, if_neg hns] at h
      dsimp only at h
      cases h
      exact ⟨rfl, frame_rfl s, rfl, hpi, rfl, rfl, rfl, rfl,
        by intro u hu; simp at hu, Or.inl (boardsEq_rfl s)⟩
  case RETURN_TO_HAND =>
      have hns : ad.target.target_type ≠ TargetType.SELF := by
        intro hs
        rcases hsafe hs with hx | hx
        · rw [hty] at hx
          simp [SafeSelf] at hx
        · rw [hty] at hx
          simp at hx
      rw [hty, if_neg hns] at h
      dsimp only at h
      cases h
      exact ⟨rfl, frame_rfl s, rfl, hpi, rfl, rfl, rfl, rfl,
        by intro u hu; simp at hu, Or.inl (boardsEq_rfl s)⟩
  case BRING_TO_STABLE =>
      have hns : ad.target.target_type ≠ TargetType.SELF := by
        intro hs
        rcases hsafe hs with hx | hx
        · rw [hty] at hx
          simp [SafeSelf] at hx
        · rw [hty] at hx
          simp at hx
      rw [hty, if_neg hns] at h
      dsimp only at h
      cases h
      exact ⟨rfl, frame_rfl s, rfl, hpi, rfl, rfl, rfl, rfl,
        by intro u hu; simp at hu, Or.inl (boardsEq_rfl s)⟩
  case SEARCH_DECK =>
      have hns : ad.target.target_type ≠ TargetType.SELF := by
        intro hs
        rcases hsafe hs with hx | hx
        · rw [hty] at hx
          simp [SafeSelf] at hx
        · rw [hty] at hx
          simp at hx
      rw [hty, if_neg hns] at h
      dsimp only at h
      cases h
      exact ⟨rfl, frame_rfl s, rfl, hpi, rfl, rfl, rfl, rfl,
        by intro u hu; simp at hu, Or.inl (boardsEq_rfl s)⟩
  case SWAP =>
      rw [hty] at h
      dsimp only at h
      have hnone : ∀ k, (task.targets_chosen.get? k).getD none = none := by
        intro k
        cases hk : task.targets_chosen.get? k with
        | none => rfl
        | some x =>
            have hx := hvac x (List.get?_mem hk)
            simp [hx]
      split at h
      · simp only [hnone] at h
        cases h
        exact ⟨rfl, frame_rfl s, rfl, hpi, rfl, rfl, rfl, rfl,
          by intro u hu; simp at hu, Or.inl (boardsEq_rfl s)⟩
      · cases h
        exact ⟨rfl, frame_rfl s, rfl, hpi, rfl, rfl, rfl, rfl,
          by intro u hu; simp at hu, Or.inl (boardsEq_rfl s)⟩
  case LOOK_AT_HAND =>
      rw [hty] at h
      dsimp only at h
      cases h
      exact ⟨rfl, frame_rfl s, rfl, hpi, rfl, rfl, rfl, rfl,
        by intro u hu; simp at hu, Or.inl (boardsEq_rfl s)⟩
  case PULL_FROM_HAND =>
      have hns : ad.target.target_type ≠ TargetType.SELF := by
        intro hs
        rcases hsafe hs with hx | hx
        · rw [hty] at hx
          simp [SafeSelf] at hx
        · rw [hty] at hx
          simp at hx
      rw [hty, if_neg hns] at h
      dsimp only at h
      cases h
      exact ⟨rfl, frame_rfl s, rfl, hpi, rfl, rfl, rfl, rfl,
        by intro u hu; simp at hu, Or.inl (boardsEq_rfl s)⟩
  case SHUFFLE_INTO_DECK =>
      have hns : ad.target.target_type ≠ TargetType.SELF := by
        intro hs
        rcases hsafe hs with hx | hx
        · rw [hty] at hx
          simp [SafeSelf] at hx
        · rw [hty] at hx
          simp at hx
      rw [hty, if_neg hns] at h
      dsimp only at h
      cases h
      exact ⟨rfl, frame_rfl s, rfl, hpi, rfl, rfl, rfl, rfl,
        by intro u hu; simp at hu, Or.inl (boardsEq_rfl s)⟩
  case SKIP_TURN =>
      rw [hty] at h
      dsimp only at h
      cases h
      exact ⟨rfl, frame_rfl s, rfl, hpi, rfl, rfl, rfl, rfl,
        by intro u hu; simp at hu, Or.inl (boardsEq_rfl s)⟩
  case EXTRA_ACTION =>
      rw [hty] at h
      dsimp only at h
      cases h
      exact ⟨rfl, frame_rfl s, rfl, hpi, rfl, rfl, rfl, rfl,
        by intro u hu; simp at hu, Or.inl (boardsEq_rfl s)⟩
  case PROTECT =>
      rw [hty] at h
      dsimp only at h
      cases h
      exact ⟨rfl, frame_rfl s, rfl, hpi, rfl, rfl, rfl, rfl,
        by intro u hu; simp at hu, Or.inl (boardsEq_rfl s)⟩
  case NEGATE =>
      rw [hty] at h
      dsimp only at h
      cases h
      exact ⟨rfl, frame_rfl s, rfl, hpi, rfl, rfl, rfl, rfl,
        by intro u hu; simp at hu, Or.inl (boardsEq_rfl s)⟩
  case SELECT =>
      rw [hty] at h
      dsimp only at h
      cases h
      exact ⟨rfl, frame_rfl s, rfl, hpi, rfl, rfl, rfl, rfl,
        by intro u hu; simp at hu, Or.inl (boardsEq_rfl s)⟩
  case ADD_TO_HAND =>
      have hns : ad.target.target_type ≠ TargetType.SELF := by
        intro hs
        rcases hsafe hs with hx | hx
        · rw [hty] at hx
          simp [SafeSelf] at hx
        · rw [hty] at hx
          simp at hx
      rw [hty, if_neg hns] at h
      dsimp only at h
      cases h
      exact ⟨rfl, frame_rfl s, rfl, hpi, rfl, rfl, rfl, rfl,
        by intro u hu; simp at hu, Or.inl (boardsEq_rfl s)⟩

/-- Prepending an element the predicate rejects leaves `countP` alone. -/
theorem countP_cons_neg {α : Type} (p : α → Bool) (a : α) (l : List α)
    (h : ¬ p a = true) : (a :: l).countP p = l.countP p := by
  rw [List.countP_cons, if_neg h, Nat.add_zero]

/-- A bounded list followed by rejected elements stays bounded. -/
theorem countP_append_le_one {α : Type} (p : α → Bool) (A B : List α)
    (hA : A.countP p ≤ 1) (hB : ∀ u ∈ B, ¬ p u = true) :
    (A ++ B).countP p ≤ 1 := by
  rw [List.countP_append, List.countP_eq_zero.mpr hB, Nat.add_zero]
  exact hA

/-- Rejected elements followed by a bounded list stay bounded. -/
theorem countP_prepend_safe {α : Type} (p : α → Bool) (A B : List α)
    (hA : ∀ u ∈ A, ¬ p u = true) (hB : B.countP p ≤ 1) :
    (A ++ B).countP p ≤ 1 := by
  rw [List.countP_append, List.countP_eq_zero.mpr hA]
  simpa using hB

/-- Draining the resolution stack conserves the bag, never touches the chain
slots, and leaves only well-formed frames behind. -/
theorem processStack_preserve (reg : Registry)
    (shuffle : List CardInstance → List CardInstance)
    (hsh : ∀ l, (shuffle l).Perm l) :
    ∀ (fuel : Nat) (s s' : GameState),
      processStack reg shuffle fuel s = .ok s' →
      RegOk reg → PIdx s → StackOk s →
      s'.bag = s.bag ∧ Frame s s' ∧ PIdx s' ∧ StackOk s' := by
  intro fuel
  induction fuel with
  | zero =>
      intro s s' h _ hpi hst
      unfold processStack at h
      split at h
      · cases h
        exact ⟨rfl, frame_rfl s, hpi, hst⟩
      · cases h
  | succ n ih =>
      intro s s' h hreg hpi hst
      simp only [processStack] at h
      split at h
      · cases h
        exact ⟨rfl, frame_rfl s, hpi, hst⟩
      · rename_i task rest hstack
        obtain ⟨⟨hv, hlen, hcl, he, hIdx⟩, hsrcT⟩ :=
          hst.1 task (by rw [hstack]; exact List.mem_cons_self _ _)
        have hrest : ∀ u ∈ rest, TaskOk s.players.length u ∧ SrcOk s u :=
          fun u hu => hst.1 u (by rw [hstack]; exact List.mem_cons_of_mem _ hu)
        have hcnt : (task :: rest).countP (fun t => decide (SSN t)) ≤ 1 := by
          have hx := hst.2
          rw [hstack] at hx
          exact hx
        have hcrest : rest.countP (fun t => decide (SSN t)) ≤ 1 := by
          rw [List.countP_cons] at hcnt
          omega
        split at h
        · -- whole-effect condition fails at step zero: pop
          obtain ⟨b, f, pi2, st2⟩ := ih _ _ h hreg (PIdx_congr s _ rfl hpi)
            ⟨fun u hu => hrest u hu, hcrest⟩
          exact ⟨b, frame_trans ⟨rfl, rfl, rfl, rfl, rfl, rfl⟩ f, pi2, st2⟩
        · split at h
          · -- all steps done: pop
            obtain ⟨b, f, pi2, st2⟩ := ih _ _ h hreg (PIdx_congr s _ rfl hpi)
              ⟨fun u hu => hrest u hu, hcrest⟩
            exact ⟨b, frame_trans ⟨rfl, rfl, rfl, rfl, rfl, rfl⟩ f, pi2, st2⟩
          · rename_i hidx
            have hlt : task.current_action_idx < task.effect.actions.length :=
              Nat.lt_of_not_le hidx
            split at h
            · -- step condition fails: skip with a None placeholder
              rename_i hskip
              rw [if_pos (Nat.le_of_eq hlen)] at h
              have hcondne : ((task.effect.actions.get?
                  task.current_action_idx).getD
                  dummyEffectAction).condition ≠ none := by
                intro hnone
                rw [hnone] at hskip
                simp [condFails] at hskip
              have htOk : TaskOk s.players.length
                  { task with
                      targets_chosen := task.targets_chosen ++ [none],
                      current_action_idx := task.current_action_idx + 1 } := by
                refine ⟨?_, ?_, hcl, he, ?_⟩
                · intro x hx
                  rcases List.mem_append.mp hx with h1 | h1
                  · exact hv x h1
                  · simpa using h1
                · simp [hlen]
                · intro j hj
                  rcases Nat.lt_succ_iff_lt_or_eq.mp hj with h1 | h1
                  · exact hIdx j h1
                  · subst h1
                    intro hcon
                    exact hcondne hcon.2
              have hnssn : ¬ SSN
                  { task with
                      targets_chosen := task.targets_chosen ++ [none],
                      current_action_idx := task.current_action_idx + 1 } :=
                fun hssn => Nat.succ_ne_zero _ hssn.1
              obtain ⟨b, f, pi2, st2⟩ := ih _ _ h hreg (PIdx_congr s _ rfl hpi)
                ⟨by
                    intro u hu
                    rcases List.mem_cons.mp hu with rfl | hm
                    · exact ⟨htOk, fun hssn => absurd hssn hnssn⟩
                    · exact hrest u hm,
                  by
                    rw [countP_cons_neg _ _ _
                      (by simp only [decide_eq_true_eq]; exact hnssn)]
                    exact hcrest⟩
              exact ⟨b, frame_trans ⟨rfl, rfl, rfl, rfl, rfl, rfl⟩ f, pi2, st2⟩
            · split at h
              · -- no recorded target for this step
                split at h
                · -- a fresh target is needed: suspend
                  cases h
                  exact ⟨rfl, frame_rfl s, hpi, hst⟩
                · -- auto-resolve with target None
                  rename_i hnt
                  rw [bind_ok_iff] at h
                  obtain ⟨⟨s₁, task₁, pushed⟩, hexec, hrec⟩ := h
                  have hsafeAd : ((task.effect.actions.get?
                      task.current_action_idx).getD
                      dummyEffectAction).target.target_type = TargetType.SELF →
                      SafeSelf ((task.effect.actions.get?
                        task.current_action_idx).getD
                        dummyEffectAction).action_type = true ∨
                      ((task.effect.actions.get? task.current_action_idx).getD
                        dummyEffectAction).action_type =
                        EffActionType.SACRIFICE := by
                    intro hself
                    rcases he _ hlt hself with h1 | ⟨h1, _, _⟩ |
                      ⟨j, hj, hnt2, hc2⟩
                    · exact Or.inl h1
                    · exact Or.inr h1
                    · exact absurd ⟨hnt2, hc2⟩ (hIdx j hj)
                  have hsrcAd : ((task.effect.actions.get?
                      task.current_action_idx).getD
                      dummyEffectAction).target.target_type = TargetType.SELF →
                      ((task.effect.actions.get? task.current_action_idx).getD
                        dummyEffectAction).action_type =
                        EffActionType.SACRIFICE →
                      task.source_card ∈
                        (s.getP task.controller_idx).get_all_stable_cards := by
                    intro hself hsac
                    exact hsrcT (SSN_of_exec task he hIdx hlt hsac hself)
                  obtain ⟨b1, f1, rs1, pi1, htc, heff, hcid, hidx1, hpushOk,
                    hboards⟩ :=
                    executeAction_preserve reg shuffle s task _ s₁ task₁ pushed
                      hexec hsh hreg hsafeAd hsrcAd hv hcl hpi
                  have hrestOk : ∀ u ∈ rest,
                      TaskOk s₁.players.length u ∧ SrcOk s₁ u := by
                    intro u hu
                    obtain ⟨hu1, hu2⟩ := hrest u hu
                    refine ⟨by rw [f1.1]; exact hu1, ?_⟩
                    rcases hboards with hb | ⟨hsac, hself⟩
                    · exact SrcOk_of_boardsEq s s₁ u hb hu2
                    · have hssnT : SSN task :=
                        SSN_of_exec task he hIdx hlt hsac hself
                      have h0 : rest.countP (fun t => decide (SSN t)) = 0 := by
                        rw [List.countP_cons] at hcnt
                        have hdt : decide (SSN task) = true := by
                          simp only [decide_eq_true_eq]
                          exact hssnT
                        simp only [hdt, if_true] at hcnt
                        omega
                      intro hssnu
                      have := List.countP_eq_zero.mp h0 u hu
                      simp only [decide_eq_true_eq] at this
                      exact absurd hssnu this
                  have htask₂ : TaskOk s₁.players.length
                      { task₁ with
                          targets_chosen := task₁.targets_chosen ++ [none],
                          current_action_idx := task₁.current_action_idx + 1 } := by
                    refine ⟨?_, ?_, ?_, ?_, ?_⟩
                    · intro x hx
                      rcases List.mem_append.mp hx with h1 | h1
                      · rw [htc] at h1
                        exact hv x h1
                      · simpa using h1
                    · dsimp only
                      simp only [List.length_append, List.length_singleton]
                      rw [htc, hidx1, hlen]
                    · rw [hcid, f1.1]
                      exact hcl
                    · rw [heff]
                      exact he
                    · intro j hj
                      rw [heff]
                      rw [hidx1] at hj
                      rcases Nat.lt_succ_iff_lt_or_eq.mp hj with h1 | h1
                      · exact hIdx j h1
                      · subst h1
                        intro hcon
                        refine hnt ?_
                        have hx := hcon.1
                        unfold needsTarget at hx
                        exact hx
                  have hssn₂ : ¬ SSN
                      { task₁ with
                          targets_chosen := task₁.targets_chosen ++ [none],
                          current_action_idx := task₁.current_action_idx + 1 } :=
                    fun hssn => Nat.succ_ne_zero _ hssn.1
                  have hstX : StackOk { s₁ with resolution_stack :=
                      pushed.reverse ++
                        { task₁ with
                            targets_chosen := task₁.targets_chosen ++ [none],
                            current_action_idx :=
                              task₁.current_action_idx + 1 } :: rest } := by
                    refine ⟨?_, ?_⟩
                    · intro u hu
                      rcases List.mem_append.mp hu with h1 | h1
                      · obtain ⟨p1, p2, _⟩ := hpushOk u (List.mem_reverse.mp h1)
                        exact ⟨by rw [f1.1]; exact p1, p2⟩
                      · rcases List.mem_cons.mp h1 with rfl | hm
                        · exact ⟨htask₂, fun hssn => absurd hssn hssn₂⟩
                        · exact hrestOk u hm
                    · refine countP_prepend_safe _ _ _ ?_ ?_
                      · intro u hu
                        simp only [decide_eq_true_eq]
                        exact (hpushOk u (List.mem_reverse.mp hu)).2.2
                      · rw [countP_cons_neg _ _ _
                          (by simp only [decide_eq_true_eq]; exact hssn₂)]
                        exact hcrest
                  obtain ⟨b2, f2, pi2, st2⟩ := ih _ _ hrec hreg
                    (PIdx_congr s₁ _ rfl pi1) hstX
                  exact ⟨b2.trans b1,
                    frame_trans f1 (frame_trans ⟨rfl, rfl, rfl, rfl, rfl, rfl⟩ f2),
                    pi2, st2⟩
              · -- a recorded target would mean more placeholders than steps
                rename_i hgt
                exact absurd (Nat.le_of_eq hlen) hgt

/-- The frames `trigger_enter_events` pushes for a just-filed card are well
formed and locate their sources, and at most one of them (the card's own
ON_ENTER task) can be a first-step SELF sacrifice. -/
theorem pushEnterEvents_ok (reg : Registry) (s : GameState) (card : CardInstance)
    (cidx : Nat) (hreg : RegOk reg) (hcidx : cidx < s.players.length)
    (hpi : PIdx s) (hcm : card ∈ (s.getP cidx).get_all_stable_cards) :
    (∀ t ∈ pushEnterEvents reg s card cidx,
      TaskOk s.players.length t ∧ SrcOk s t) ∧
    (pushEnterEvents reg s card cidx).countP (fun t => decide (SSN t)) ≤ 1 := by
  constructor
  · intro t ht
    simp only [pushEnterEvents] at ht
    rcases List.mem_append.mp ht with h1 | h1
    · cases hl : regLookup reg card.effect_id with
      | none => rw [hl] at h1; simp at h1
      | some e =>
          rw [hl] at h1
          dsimp only at h1
          split at h1
          · simp only [List.mem_singleton] at h1
            subst h1
            exact ⟨⟨by intro x hx; simp at hx, rfl, hcidx,
              regLookup_safe reg _ e hreg hl,
              fun j hj => absurd hj (Nat.not_lt_zero j)⟩, fun _ => hcm⟩
          · simp at h1
    · rcases List.mem_flatMap.mp h1 with ⟨player, hp, h2⟩
      rcases List.mem_flatMap.mp h2 with ⟨sc, hsc, h3⟩
      cases hl : regLookup reg sc.effect_id with
      | none => rw [hl] at h3; simp at h3
      | some le =>
          rw [hl] at h3
          dsimp only at h3
          split at h3
          · rename_i hguard
            simp only [List.mem_singleton] at h3
            subst h3
            have hle : regLookup reg (some "barbed_wire") = some le := by
              rw [← hguard.2.2.1]
              exact hl
            refine ⟨⟨by intro x hx; simp at hx, rfl, hpi player hp,
              regLookup_safe reg _ le hreg hl,
              fun j hj => absurd hj (Nat.not_lt_zero j)⟩, ?_⟩
            intro hssn
            exact absurd hssn.2 (not_SSZ_barbed reg le hreg hle)
          · simp at h3
  · simp only [pushEnterEvents]
    refine countP_append_le_one _ _ _ ?_ ?_
    · cases hl : regLookup reg card.effect_id with
      | none => simp
      | some e =>
          dsimp only
          split
          · exact Nat.le_trans (List.countP_le_length _) (by simp)
          · simp
    · intro u hu
      simp only [decide_eq_true_eq]
      rcases List.mem_flatMap.mp hu with ⟨player, hp, h2⟩
      rcases List.mem_flatMap.mp h2 with ⟨sc, hsc, h3⟩
      cases hl : regLookup reg sc.effect_id with
      | none => rw [hl] at h3; simp at h3
      | some le =>
          rw [hl] at h3
          dsimp only at h3
          split at h3
          · rename_i hguard
            simp only [List.mem_singleton] at h3
            subst h3
            intro hssn
            have hle : regLookup reg (some "barbed_wire") = some le := by
              rw [← hguard.2.2.1]
              exact hl
            exact not_SSZ_barbed reg le hreg hle hssn.2
          · simp at h3

/-- `_trigger_effect` of a card whose effect is never a first-step SELF
sacrifice, from an empty resolution stack, conserves the bag and the frame
fields. -/
theorem triggerEffect_preserve (reg : Registry)
    (shuffle : List CardInstance → List CardInstance) (fuel : Nat) (s : GameState)
    (card : CardInstance) (cidx : Nat) (s' : GameState)
    (h : triggerEffect reg shuffle fuel s card cidx = .ok s')
    (hreg : RegOk reg) (hsh : ∀ l, (shuffle l).Perm l)
    (hpi : PIdx s) (hstack0 : s.resolution_stack = [])
    (hcidx : cidx < s.players.length)
    (hnz : ∀ e ∈ (regLookup reg card.effect_id).toList, ¬ SelfSacZero e) :
    s'.bag = s.bag ∧ Frame s s' ∧ PIdx s' ∧ StackOk s' := by
  unfold triggerEffect at h
  cases hl : regLookup reg card.effect_id with
  | none =>
      rw [hl] at h
      cases h
      exact ⟨rfl, frame_rfl s, hpi, StackOk_nil s hstack0⟩
  | some e =>
      rw [hl] at h
      have hnssz : ¬ SelfSacZero e := hnz e (by rw [hl]; simp)
      have hstOk : StackOk { s with resolution_stack :=
          { effect := e, controller_idx := cidx, source_card := card } ::
            s.resolution_stack } := by
        refine ⟨?_, ?_⟩
        · intro t ht
          rcases List.mem_cons.mp ht with rfl | hm
          · refine ⟨⟨by intro x hx; simp at hx, rfl, hcidx,
              regLookup_safe reg _ e hreg hl,
              fun j hj => absurd hj (Nat.not_lt_zero j)⟩, ?_⟩
            intro hssn
            exact absurd hssn.2 hnssz
          · rw [hstack0] at hm
            cases hm
        · show ({ effect := e, controller_idx := cidx, source_card := card } ::
            s.resolution_stack).countP (fun t => decide (SSN t)) ≤ 1
          rw [hstack0]
          exact Nat.le_trans (List.countP_le_length _) (by simp)
      obtain ⟨b, f, pi2, st2⟩ := processStack_preserve reg shuffle hsh fuel _ _ h
        hreg (PIdx_congr s _ rfl hpi) hstOk
      exact ⟨b, frame_trans ⟨rfl, rfl, rfl, rfl, rfl, rfl⟩ f, pi2, st2⟩

/-- `_trigger_enter_events` for a just-filed card, from an empty resolution
stack, conserves the bag and the frame fields. -/
theorem triggerEnterEventsA_preserve (reg : Registry)
    (shuffle : List CardInstance → List CardInstance) (fuel : Nat) (s : GameState)
    (card : CardInstance) (cidx : Nat) (s' : GameState)
    (h : triggerEnterEventsA reg shuffle fuel s card cidx = .ok s')
    (hreg : RegOk reg) (hsh : ∀ l, (shuffle l).Perm l)
    (hpi : PIdx s) (hstack0 : s.resolution_stack = [])
    (hcidx : cidx < s.players.length)
    (hcm : card ∈ (s.getP cidx).get_all_stable_cards) :
    s'.bag = s.bag ∧ Frame s s' ∧ PIdx s' ∧ StackOk s' := by
  unfold triggerEnterEventsA at h
  obtain ⟨hmem, hcount⟩ := pushEnterEvents_ok reg s card cidx hreg hcidx hpi hcm
  have hstOk : StackOk { s with resolution_stack :=
      (pushEnterEvents reg s card cidx).reverse ++ s.resolution_stack } := by
    refine ⟨?_, ?_⟩
    · intro t ht
      rcases List.mem_append.mp ht with h1 | h1
      · exact hmem t (List.mem_reverse.mp h1)
      · rw [hstack0] at h1
        cases h1
    · show ((pushEnterEvents reg s card cidx).reverse ++
        s.resolution_stack).countP (fun t => decide (SSN t)) ≤ 1
      rw [hstack0, List.append_nil, countP_reverse]
      exact hcount
  obtain ⟨b, f, pi2, st2⟩ := processStack_preserve reg shuffle hsh fuel _ _ h
    hreg (PIdx_congr s _ rfl hpi) hstOk
  exact ⟨b, frame_trans ⟨rfl, rfl, rfl, rfl, rfl, rfl⟩ f, pi2, st2⟩

/-- `_resolve_card` on a non-instant `CardSafe` card, from an empty
resolution stack, files exactly that card into a zone and otherwise
conserves the bag and the frame fields. -/
theorem resolveCard_preserve (reg : Registry)
    (shuffle : List CardInstance → List CardInstance) (fuel : Nat) (s : GameState)
    (c : CardInstance) (i : Nat) (s' : GameState)
    (h : resolveCard reg shuffle fuel s c i = .ok s')
    (hreg : RegOk reg) (hsh : ∀ l, (shuffle l).Perm l)
    (hpi : PIdx s) (hstack0 : s.resolution_stack = [])
    (hcs : CardSafe reg c) (hi : i < s.players.length)
    (hni : c.card_type ≠ CardType.INSTANT) :
    s'.bag = s.bag + {c} ∧ Frame s s' ∧ PIdx s' ∧ StackOk s' := by
  unfold resolveCard at h
  split at h
  · -- magic card: trigger its effect, then discard it
    rename_i hmagic
    rw [bind_ok_iff] at h
    obtain ⟨s₁, h1, h2⟩ := h
    cases h2
    obtain ⟨b, f, pi1, st1⟩ := triggerEffect_preserve reg shuffle fuel s c
      i s₁ h1 hreg hsh hpi hstack0 hi (hcs hmagic)
    have hgrow := bag_set_discard s₁ (s₁.discard_pile ++ [c])
    have hco : ((s₁.discard_pile ++ [c] : List CardInstance) : Multiset CardInstance) =
        (s₁.discard_pile : Multiset CardInstance) + {c} := by
      rw [← Multiset.coe_add, Multiset.coe_singleton]
    have hmain : ({ s₁ with discard_pile := s₁.discard_pile ++ [c] } :
        GameState).bag + (s₁.discard_pile : Multiset CardInstance) =
        (s₁.bag + {c}) + (s₁.discard_pile : Multiset CardInstance) := by
      rw [hgrow, hco]
      abel
    refine ⟨(bag_cancel hmain).trans (by rw [b]), ?_, ?_, ?_⟩
    · exact frame_trans f ⟨rfl, rfl, rfl, rfl, rfl, rfl⟩
    · exact PIdx_congr s₁ _ rfl pi1
    · exact StackOk_congr s₁ _ rfl rfl st1
  · split at h
    · -- upgrade: file it and recompute the flags
      rename_i hup
      cases h
      have hi₂ : i < (s.add_to_stable c i).players.length := by
        rw [add_to_stable_players_length]
        exact hi
      refine ⟨?_, ?_, ?_, ?_⟩
      · rw [updatePlayerFlags_bag _ _ hi₂,
          add_to_stable_bag s c i hi (Or.inl hup)]
      · exact frame_trans (add_to_stable_frame s c i).1
          (updatePlayerFlags_frame _ i).1
      · exact updatePlayerFlags_pidx _ i hi₂ (add_to_stable_pidx s c i hi hpi)
      · refine StackOk_nil _ ?_
        rw [(updatePlayerFlags_frame _ i).2, (add_to_stable_frame s c i).2]
        exact hstack0
    · split at h
      · -- downgrade: the source raises NameError
        cases h
      · split at h
        · -- unicorn: file it and run the enter events
          rename_i hu
          have hi₂ : i < (s.add_to_stable c i).players.length := by
            rw [add_to_stable_players_length]
            exact hi
          have hstk₂ : (s.add_to_stable c i).resolution_stack = [] := by
            rw [(add_to_stable_frame s c i).2]
            exact hstack0
          obtain ⟨b, f, pi1, st1⟩ := triggerEnterEventsA_preserve reg shuffle fuel
            (s.add_to_stable c i) c i s' h hreg hsh
            (add_to_stable_pidx s c i hi hpi) hstk₂ hi₂
            (add_to_stable_mem s c i hi (Or.inr (Or.inr hu)))
          refine ⟨?_, frame_trans (add_to_stable_frame s c i).1 f, pi1, st1⟩
          rw [b, add_to_stable_bag s c i hi (Or.inr (Or.inr hu))]
        · -- no arm matched: the card can only be an instant
          rename_i h1 h2 h3 h4
          exfalso
          cases hct : c.card_type <;>
            simp_all [CardInstance.is_unicorn, Card.is_unicorn, CardInstance.card_type]

/-- `_process_beginning_of_turn` conserves the bag and the frame fields. -/
theorem processBeginningOfTurn_preserve (reg : Registry)
    (shuffle : List CardInstance → List CardInstance) (fuel : Nat) (s : GameState)
    (s' : GameState)
    (h : processBeginningOfTurn reg shuffle fuel s = .ok s')
    (hreg : RegOk reg) (hsh : ∀ l, (shuffle l).Perm l)
    (hpi : PIdx s) (hst : StackOk s)
    (hcur : s.current_player_idx < s.players.length) :
    s'.bag = s.bag ∧ Frame s s' ∧ PIdx s' ∧ StackOk s' := by
  simp only [processBeginningOfTurn] at h
  split at h
  · cases h
    exact ⟨rfl, ⟨rfl, rfl, rfl, rfl, rfl, rfl⟩, PIdx_congr s _ rfl hpi,
      StackOk_congr s _ rfl rfl hst⟩
  · rw [bind_ok_iff] at h
    obtain ⟨s₁, h1, h2⟩ := h
    cases h2
    have hstOk : StackOk { s with resolution_stack :=
        (s.current_player.get_all_stable_cards.flatMap fun c =>
          match regLookup reg c.effect_id with
          | some e =>
              if e.trigger = EffectTrigger.BEGINNING_OF_TURN then
                [{ effect := e, controller_idx := s.current_player_idx,
                   source_card := c }]
              else []
          | none => []).reverse ++ s.resolution_stack } := by
      refine ⟨?_, ?_⟩
      · intro t ht
        rcases List.mem_append.mp ht with h3 | h3
        · rcases List.mem_flatMap.mp (List.mem_reverse.mp h3) with ⟨sc, hsc, h4⟩
          cases hl : regLookup reg sc.effect_id with
          | none => rw [hl] at h4; simp at h4
          | some e =>
              rw [hl] at h4
              dsimp only at h4
              split at h4
              · rename_i htrig
                simp only [List.mem_singleton] at h4
                subst h4
                refine ⟨⟨by intro x hx; simp at hx, rfl, hcur,
                  regLookup_safe reg _ e hreg hl,
                  fun j hj => absurd hj (Nat.not_lt_zero j)⟩, ?_⟩
                intro hssn
                refine absurd hssn.2 (not_SSZ_of_trigger e
                  (regLookup_safe reg _ e hreg hl) ?_)
                rw [htrig]
                intro hcon
                cases hcon
              · simp at h4
        · exact hst.1 t h3
      · refine countP_prepend_safe _ _ _ ?_ hst.2
        intro u hu
        simp only [decide_eq_true_eq]
        rcases List.mem_flatMap.mp (List.mem_reverse.mp hu) with ⟨sc, hsc, h4⟩
        cases hl : regLookup reg sc.effect_id with
        | none => rw [hl] at h4; simp at h4
        | some e =>
            rw [hl] at h4
            dsimp only at h4
            split at h4
            · rename_i htrig
              simp only [List.mem_singleton] at h4
              subst h4
              intro hssn
              refine absurd hssn.2 (not_SSZ_of_trigger e
                (regLookup_safe reg _ e hreg hl) ?_)
              rw [htrig]
              intro hcon
              cases hcon
            · simp at h4
    obtain ⟨b, f, pi1, st1⟩ := processStack_preserve reg shuffle hsh fuel _ _ h1
      hreg (PIdx_congr s _ rfl hpi) hstOk
    exact ⟨b, frame_trans (frame_trans ⟨rfl, rfl, rfl, rfl, rfl, rfl⟩ f)
        ⟨rfl, rfl, rfl, rfl, rfl, rfl⟩,
      PIdx_congr s₁ _ rfl pi1, StackOk_congr s₁ _ rfl rfl st1⟩

/-- `_process_end_of_turn` conserves the bag, hands the turn to an in-range
player and leaves the chain slots alone. -/
theorem processEndOfTurn_preserve (reg : Registry)
    (shuffle : List CardInstance → List CardInstance) (fuel : Nat) (s : GameState)
    (s' : GameState)
    (h : processEndOfTurn reg shuffle fuel s = .ok s')
    (hreg : RegOk reg) (hsh : ∀ l, (shuffle l).Perm l)
    (hpi : PIdx s) (hst : StackOk s)
    (hcur : s.current_player_idx < s.players.length)
    (hnum : s.num_players = s.players.length) :
    s'.bag = s.bag ∧ s'.players.length = s.players.length ∧
      s'.num_players = s.num_players ∧
      s'.card_being_played = s.card_being_played ∧
      s'.neigh_stack = s.neigh_stack ∧
      s'.neigh_chain_active = s.neigh_chain_active ∧
      s'.current_player_idx < s'.players.length ∧ PIdx s' ∧ StackOk s' := by
  simp only [processEndOfTurn] at h
  have hstOk : StackOk { s with resolution_stack :=
      (s.current_player.get_all_stable_cards.flatMap fun c =>
        match regLookup reg c.effect_id with
        | some e =>
            if e.trigger = EffectTrigger.END_OF_TURN then
              [{ effect := e, controller_idx := s.current_player_idx,
                 source_card := c }]
            else []
        | none => []).reverse ++ s.resolution_stack } := by
    refine ⟨?_, ?_⟩
    · intro t ht
      rcases List.mem_append.mp ht with h3 | h3
      · rcases List.mem_flatMap.mp (List.mem_reverse.mp h3) with ⟨sc, hsc, h4⟩
        cases hl : regLookup reg sc.effect_id with
        | none => rw [hl] at h4; simp at h4
        | some e =>
            rw [hl] at h4
            dsimp only at h4
            split at h4
            · rename_i htrig
              simp only [List.mem_singleton] at h4
              subst h4
              refine ⟨⟨by intro x hx; simp at hx, rfl, hcur,
                regLookup_safe reg _ e hreg hl,
                fun j hj => absurd hj (Nat.not_lt_zero j)⟩, ?_⟩
              intro hssn
              refine absurd hssn.2 (not_SSZ_of_trigger e
                (regLookup_safe reg _ e hreg hl) ?_)
              rw [htrig]
              intro hcon
              cases hcon
            · simp at h4
      · exact hst.1 t h3
    · refine countP_prepend_safe _ _ _ ?_ hst.2
      intro u hu
      simp only [decide_eq_true_eq]
      rcases List.mem_flatMap.mp (List.mem_reverse.mp hu) with ⟨sc, hsc, h4⟩
      cases hl : regLookup reg sc.effect_id with
      | none => rw [hl] at h4; simp at h4
      | some e =>
          rw [hl] at h4
          dsimp only at h4
          split at h4
          · rename_i htrig
            simp only [List.mem_singleton] at h4
            subst h4
            intro hssn
            refine absurd hssn.2 (not_SSZ_of_trigger e
              (regLookup_safe reg _ e hreg hl) ?_)
            rw [htrig]
            intro hcon
            cases hcon
          · simp at h4
  -- the intermediate state after the (possible) drain
  have hmid : ∀ s₂ : GameState,
      (s₂.bag = s.bag ∧ Frame s s₂ ∧ PIdx s₂ ∧ StackOk s₂) →
      (if s₂.resolution_stack.isEmpty then
          processBeginningOfTurn reg shuffle fuel
            { s₂ with
                current_player_idx := s₂.get_next_player_idx,
                turn_number := s₂.turn_number + 1,
                phase := GamePhase.BEGINNING, actions_remaining := 1 }
        else .ok s₂) = .ok s' →
      s'.bag = s.bag ∧ s'.players.length = s.players.length ∧
        s'.num_players = s.num_players ∧
        s'.card_being_played = s.card_being_played ∧
        s'.neigh_stack = s.neigh_stack ∧
        s'.neigh_chain_active = s.neigh_chain_active ∧
        s'.current_player_idx < s'.players.length ∧ PIdx s' ∧ StackOk s' := by
    rintro s₂ ⟨b2, f2, pi2, st2⟩ hif
    split at hif
    · have hnext : s₂.get_next_player_idx < s₂.players.length := by
        unfold GameState.get_next_player_idx
        have hlen : s₂.num_players = s₂.players.length := by
          rw [f2.2.1, f2.1, hnum]
        rw [hlen]
        have hpos : 0 < s₂.players.length := by
          rw [f2.1]
          exact Nat.lt_of_le_of_lt (Nat.zero_le _) hcur
        exact Nat.mod_lt _ hpos
      obtain ⟨b3, f3, pi3, st3⟩ := processBeginningOfTurn_preserve reg shuffle fuel
        _ s' hif hreg hsh (PIdx_congr s₂ _ rfl pi2)
        (StackOk_congr s₂ _ rfl rfl st2) hnext
      refine ⟨b3.trans b2, ?_, ?_, ?_, ?_, ?_, ?_, pi3, st3⟩
      · rw [f3.1]; exact f2.1
      · rw [f3.2.1]; exact f2.2.1
      · rw [f3.2.2.2.1]; exact f2.2.2.2.1
      · rw [f3.2.2.2.2.1]; exact f2.2.2.2.2.1
      · rw [f3.2.2.2.2.2]; exact f2.2.2.2.2.2
      · rw [f3.2.2.1, f3.1]
        exact hnext
    · cases hif
      exact ⟨b2, f2.1, f2.2.1, f2.2.2.2.1, f2.2.2.2.2.1, f2.2.2.2.2.2,
        by rw [f2.2.2.1, f2.1]; exact hcur, pi2, st2⟩
  split at h
  · -- nothing was pushed and the stack was already empty
    rw [bind_ok_iff] at h
    obtain ⟨s₂, hpure, hif⟩ := h
    cases hpure
    refine hmid _ ?_ hif
    exact ⟨rfl, ⟨rfl, rfl, rfl, rfl, rfl, rfl⟩, PIdx_congr s _ rfl hpi, hstOk⟩
  · -- drain the pushed triggers
    rw [bind_ok_iff] at h
    obtain ⟨s₂, hdrain, hif⟩ := h
    obtain ⟨b, f, pi1, st1⟩ := processStack_preserve reg shuffle hsh fuel _ _
      hdrain hreg (PIdx_congr s _ rfl hpi) hstOk
    refine hmid _ ?_ hif
    exact ⟨b, frame_trans ⟨rfl, rfl, rfl, rfl, rfl, rfl⟩ f, pi1, st1⟩

/-- The chain bookkeeping only depends on its three fields, plus the
open-chain-empty-stack clause supplied directly. -/
theorem NeighOk_congr (s s' : GameState)
    (hcbp : s'.card_being_played = s.card_being_played)
    (hns : s'.neigh_stack = s.neigh_stack)
    (hch : s'.neigh_chain_active = s.neigh_chain_active)
    (hstk : s'.neigh_chain_active = true → s'.resolution_stack = [])
    (h : NeighOk s) : NeighOk s' := by
  obtain ⟨h1, h2, h3, _⟩ := h
  refine ⟨?_, ?_, ?_, hstk⟩
  · intro x hx
    rw [hns] at hx
    exact h1 x hx
  · intro hf
    rw [hch] at hf
    rw [hcbp]
    exact h2 hf
  · intro c hc hns'
    rw [hcbp] at hc
    rw [hns] at hns'
    exact h3 c hc hns'

/-- Removing a held card from a hand, at the bag level. -/
theorem erase_hand_bag (s : GameState) (i : Nat) (c : CardInstance)
    (h : c ∈ (s.getP i).hand) :
    (s.setP i { s.getP i with hand := (s.getP i).hand.erase c }).bag + {c} =
      s.bag := by
  have h2 := bag_setP s i { s.getP i with hand := (s.getP i).hand.erase c }
    (mem_hand_lt s i c h)
  have h3 := pall_hand_erase (s.getP i) c h
  have hmain :
      (s.setP i { s.getP i with hand := (s.getP i).hand.erase c }).bag + {c} +
        (({ s.getP i with hand := (s.getP i).hand.erase c } :
          PlayerState).allCards : Multiset CardInstance) =
      s.bag + (({ s.getP i with hand := (s.getP i).hand.erase c } :
          PlayerState).allCards : Multiset CardInstance) := by
    calc _ = (s.setP i { s.getP i with hand := (s.getP i).hand.erase c }).bag +
            ((({ s.getP i with hand := (s.getP i).hand.erase c } :
              PlayerState).allCards : Multiset CardInstance) + {c}) := by abel
      _ = (s.setP i { s.getP i with hand := (s.getP i).hand.erase c }).bag +
            ((s.getP i).allCards : Multiset CardInstance) := by rw [← h3]
      _ = s.bag + (({ s.getP i with hand := (s.getP i).hand.erase c } :
            PlayerState).allCards : Multiset CardInstance) := h2
  exact bag_cancel hmain

/-- Settling a chain (both slots emptied), at the bag level. -/
theorem bag_settle (X : GameState) (ch : Bool) (pp : List Nat) (ar : Int) :
    ({ X with
        neigh_stack := [], card_being_played := none, neigh_chain_active := ch,
        players_passed_on_neigh := pp, actions_remaining := ar } :
      GameState).bag +
      (X.neigh_stack : Multiset CardInstance) +
      (X.card_being_played.toList : Multiset CardInstance) = X.bag := by
  rw [bag_eq, bag_eq]
  simp only [Option.toList_none, Multiset.coe_nil]
  abel

/-- Emptying only the contested-card slot, at the bag level. -/
theorem bag_clear_cbp (X : GameState) (ch : Bool) (pp : List Nat) (ar : Int) :
    ({ X with
        card_being_played := none, neigh_chain_active := ch,
        players_passed_on_neigh := pp, actions_remaining := ar } :
      GameState).bag +
      (X.card_being_played.toList : Multiset CardInstance) = X.bag := by
  rw [bag_eq, bag_eq]
  simp only [Option.toList_none, Multiset.coe_nil]
  abel

/-- The Super Neigh close-out (discard grows, contested slot empties), at the
bag level. -/
theorem bag_super (X : GameState) (d : List CardInstance) (ch : Bool)
    (pp : List Nat) :
    ({ X with
        discard_pile := d, card_being_played := none, neigh_chain_active := ch,
        players_passed_on_neigh := pp } : GameState).bag +
      (X.discard_pile : Multiset CardInstance) +
      (X.card_being_played.toList : Multiset CardInstance) =
      X.bag + (d : Multiset CardInstance) := by
  rw [bag_eq, bag_eq]
  simp only [Option.toList_none, Multiset.coe_nil]
  abel

/-- An ordinary Neigh (contested slot swapped, `neigh_stack` grows), at the
bag level. -/
theorem bag_ord_neigh (X : GameState) (v : Option CardInstance) (pp : List Nat)
    (n : List CardInstance) :
    ({ X with
        card_being_played := v, players_passed_on_neigh := pp,
        neigh_stack := n } : GameState).bag +
      (X.card_being_played.toList : Multiset CardInstance) +
      (X.neigh_stack : Multiset CardInstance) =
      X.bag + (v.toList : Multiset CardInstance) + (n : Multiset CardInstance) := by
  rw [bag_eq, bag_eq]
  abel

/-- Opening a chain (contested slot filled), at the bag level. -/
theorem bag_open_chain (X : GameState) (v : Option CardInstance) (ch : Bool)
    (pp : List Nat) :
    ({ X with
        card_being_played := v, neigh_chain_active := ch,
        players_passed_on_neigh := pp } : GameState).bag +
      (X.card_being_played.toList : Multiset CardInstance) =
      X.bag + (v.toList : Multiset CardInstance) := by
  rw [bag_eq, bag_eq]
  abel

/-- `discardOpt` adds exactly the optional card to the bag. -/
theorem discardOpt_bag (X : GameState) (c? : Option CardInstance) :
    (discardOpt X c?).bag = X.bag + (c?.toList : Multiset CardInstance) := by
  cases c? with
  | none => simp [discardOpt]
  | some c =>
      have h1 := bag_set_discard X (X.discard_pile ++ [c])
      have hco : ((X.discard_pile ++ [c] : List CardInstance) :
          Multiset CardInstance) = (X.discard_pile : Multiset CardInstance) + {c} := by
        rw [← Multiset.coe_add, Multiset.coe_singleton]
      have hmain : (discardOpt X (some c)).bag +
          (X.discard_pile : Multiset CardInstance) =
          (X.bag + ((some c : Option CardInstance).toList : Multiset CardInstance)) +
            (X.discard_pile : Multiset CardInstance) := by
        show ({ X with discard_pile := X.discard_pile ++ [c] } : GameState).bag +
          (X.discard_pile : Multiset CardInstance) = _
        rw [h1, hco]
        simp only [Option.toList_some]
        rw [Multiset.coe_singleton]
        abel
      exact bag_cancel hmain

/-- `discardOpt` only touches the discard pile. -/
@[simp] theorem discardOpt_players (X : GameState) (c? : Option CardInstance) :
    (discardOpt X c?).players = X.players := by
  cases c? <;> rfl

@[simp] theorem discardOpt_resolution_stack (X : GameState)
    (c? : Option CardInstance) :
    (discardOpt X c?).resolution_stack = X.resolution_stack := by
  cases c? <;> rfl

@[simp] theorem discardOpt_num_players (X : GameState) (c? : Option CardInstance) :
    (discardOpt X c?).num_players = X.num_players := by
  cases c? <;> rfl

@[simp] theorem discardOpt_current_player_idx (X : GameState)
    (c? : Option CardInstance) :
    (discardOpt X c?).current_player_idx = X.current_player_idx := by
  cases c? <;> rfl

/-- `winUpdate` only touches the winner and the phase. -/
theorem winUpdate_fields (s : GameState) :
    (winUpdate s).players = s.players ∧ (winUpdate s).bag = s.bag ∧
      (winUpdate s).resolution_stack = s.resolution_stack ∧
      (winUpdate s).card_being_played = s.card_being_played ∧
      (winUpdate s).neigh_stack = s.neigh_stack ∧
      (winUpdate s).neigh_chain_active = s.neigh_chain_active ∧
      (winUpdate s).num_players = s.num_players ∧
      (winUpdate s).current_player_idx = s.current_player_idx := by
  unfold winUpdate
  cases s.check_win_condition <;>
    exact ⟨rfl, rfl, rfl, rfl, rfl, rfl, rfl, rfl⟩

/-- A playable card is never an instant. -/
theorem canPlayCard_not_instant (s : GameState) (i : Nat) (c : CardInstance)
    (h : canPlayCard s i c = true) : c.card_type ≠ CardType.INSTANT := by
  intro hc
  simp [canPlayCard, hc] at h

/-- What the chain regime can offer: a pass, or an instant from the
responder's hand. -/
theorem neigh_actions_inv (s : GameState) (a : Action)
    (ha : a ∈ getNeighActions s) :
    a.action_type = ActionType.PASS_NEIGH ∨
      (a.action_type = ActionType.NEIGH ∧ ∃ c, a.card = some c ∧
        c ∈ (s.getP a.player_idx).hand ∧ c.card_type = CardType.INSTANT) := by
  simp only [getNeighActions] at ha
  split at ha
  · rename_i r hr
    rcases List.mem_cons.mp ha with rfl | hmem
    · exact Or.inl rfl
    · rcases List.mem_map.mp hmem with ⟨c, hcf, rfl⟩
      obtain ⟨hch, hct⟩ := List.mem_filter.mp hcf
      refine Or.inr ⟨rfl, c, rfl, hch, ?_⟩
      exact of_decide_eq_true hct
  · simp at ha

/-- Inversion of `get_legal_actions`: everything it can return. -/
theorem legal_inv (s : GameState) (l : List Action) (a : Action)
    (h : getLegalActions s = .ok l) (ha : a ∈ l) :
    (s.neigh_chain_active = true ∧ a ∈ getNeighActions s) ∨
    (s.neigh_chain_active = false ∧ s.resolution_stack = [] ∧
      ((a.action_type = ActionType.DRAW_CARD ∧
          a.player_idx = s.current_player_idx) ∨
       (a.action_type = ActionType.END_ACTION_PHASE ∧
          a.player_idx = s.current_player_idx) ∨
       (a.action_type = ActionType.PLAY_CARD ∧
          a.player_idx = s.current_player_idx ∧
          ∃ c, a.card = some c ∧ c ∈ s.current_player.hand ∧
            c.card_type ≠ CardType.INSTANT) ∨
       (a.action_type = ActionType.DISCARD ∧
          a.player_idx = s.current_player_idx ∧
          s.phase = GamePhase.DISCARD_TO_LIMIT ∧
          ∃ c, a.target_card = some c ∧ c ∈ s.current_player.hand))) := by
  simp only [getLegalActions] at h
  split at h
  · cases h
    exact Or.inl ⟨by assumption, ha⟩
  · rename_i hchain
    split at h
    · cases h
    · rename_i hstack
      have hchain' : s.neigh_chain_active = false := by
        revert hchain
        cases s.neigh_chain_active <;> simp
      have hstack' : s.resolution_stack = [] := by
        rw [Decidable.not_not] at hstack
        exact List.isEmpty_iff.mp (by simpa using hstack)
      refine Or.inr ⟨hchain', hstack', ?_⟩
      split at h
      · -- DRAW phase
        split at h
        · cases h
          simp only [List.mem_singleton] at ha
          subst ha
          exact Or.inl ⟨rfl, rfl⟩
        · cases h
          simp only [List.mem_singleton] at ha
          subst ha
          exact Or.inr (Or.inl ⟨rfl, rfl⟩)
      · -- ACTION phase
        cases h
        rcases List.mem_cons.mp ha with rfl | hmem
        · exact Or.inr (Or.inl ⟨rfl, rfl⟩)
        · split at hmem
          · rcases List.mem_flatMap.mp hmem with ⟨card, hcard, hmemf⟩
            split at hmemf
            · rename_i hdg
              rcases List.mem_map.mp hmemf with ⟨tp, htp, rfl⟩
              refine Or.inr (Or.inr (Or.inl ⟨rfl, rfl, card, rfl, hcard, ?_⟩))
              rw [hdg]
              intro hcon
              cases hcon
            · split at hmemf
              · simp only [List.mem_singleton] at hmemf
                subst hmemf
                refine Or.inr (Or.inr (Or.inl ⟨rfl, rfl, card, rfl, hcard, ?_⟩))
                rename_i hcp
                exact canPlayCard_not_instant s s.current_player_idx card hcp
              · simp at hmemf
          · simp at hmem
      · -- DISCARD_TO_LIMIT phase
        rename_i hphase
        split at h
        · cases h
          rcases List.mem_map.mp ha with ⟨c, hc, rfl⟩
          exact Or.inr (Or.inr (Or.inr ⟨rfl, rfl, hphase, c, rfl, hc⟩))
        · cases h
          simp at ha
      · -- all other phases offer nothing
        cases h
        simp at ha

/-- The invariant payload carried through one dispatched action. -/
def CoreOut (s s₁ : GameState) : Prop :=
  s₁.bag = s.bag ∧ PIdx s₁ ∧ StackOk s₁ ∧ NeighOk s₁ ∧
    s₁.players.length = s.players.length ∧ s₁.num_players = s.num_players ∧
    s₁.current_player_idx < s₁.players.length

/-- A closed-chain state with no contested card satisfies the chain
bookkeeping. -/
theorem NeighOk_closed (s' : GameState) (hcbp : s'.card_being_played = none)
    (h1 : ∀ h ∈ s'.neigh_stack.take 1, h.card_type ≠ CardType.INSTANT)
    (hch : s'.neigh_chain_active = false) :
    NeighOk s' := by
  refine ⟨h1, fun _ => hcbp, ?_, ?_⟩
  · intro c hc
    rw [hcbp] at hc
    simp at hc
  · intro hcon
    rw [hch] at hcon
    cases hcon

/-- A held card is tracked. -/
theorem hand_sub_allCards (s : GameState) (i : Nat) (c : CardInstance)
    (h : c ∈ (s.getP i).hand) : c ∈ s.allCards := by
  unfold GameState.allCards
  have hi : i < s.players.length := mem_hand_lt s i c h
  refine List.mem_append.mpr (Or.inl ?_)
  refine List.mem_append.mpr (Or.inl ?_)
  refine List.mem_append.mpr (Or.inl ?_)
  refine List.mem_append.mpr (Or.inl ?_)
  refine List.mem_append.mpr (Or.inl ?_)
  refine List.mem_flatMap.mpr ⟨s.getP i, getP_mem s i hi, ?_⟩
  unfold PlayerState.allCards
  refine List.mem_append.mpr (Or.inl ?_)
  refine List.mem_append.mpr (Or.inl ?_)
  exact List.mem_append.mpr (Or.inl h)

/-- A card on the interrupt chain is tracked. -/
theorem neigh_stack_sub_allCards (s : GameState) (c : CardInstance)
    (h : c ∈ s.neigh_stack) : c ∈ s.allCards := by
  unfold GameState.allCards
  exact List.mem_append.mpr (Or.inr h)

/-- The contested card is tracked. -/
theorem cbp_sub_allCards (s : GameState) (c : CardInstance)
    (h : s.card_being_played = some c) : c ∈ s.allCards := by
  unfold GameState.allCards
  refine List.mem_append.mpr (Or.inl ?_)
  refine List.mem_append.mpr (Or.inr ?_)
  rw [h]
  simp

/-- `CardsOk` is a property of the card pool, so it rides along the bag. -/
theorem CardsOk_of_bag (reg : Registry) (s s' : GameState)
    (hb : s'.bag = s.bag) (h : CardsOk reg s) : CardsOk reg s' := by
  intro c hc
  exact h c ((Multiset.coe_eq_coe.mp hb).mem_iff.mp hc)

/-- The remaining `discardOpt` field projections. -/
@[simp] theorem discardOpt_neigh_stack (X : GameState) (c? : Option CardInstance) :
    (discardOpt X c?).neigh_stack = X.neigh_stack := by
  cases c? <;> rfl

@[simp] theorem discardOpt_card_being_played (X : GameState)
    (c? : Option CardInstance) :
    (discardOpt X c?).card_being_played = X.card_being_played := by
  cases c? <;> rfl

@[simp] theorem discardOpt_neigh_chain_active (X : GameState)
    (c? : Option CardInstance) :
    (discardOpt X c?).neigh_chain_active = X.neigh_chain_active := by
  cases c? <;> rfl

/-- `recordPass` field projections. -/
@[simp] theorem recordPass_players (s : GameState) (i : Nat) :
    (recordPass s i).players = s.players := rfl

@[simp] theorem recordPass_card_being_played (s : GameState) (i : Nat) :
    (recordPass s i).card_being_played = s.card_being_played := rfl

@[simp] theorem recordPass_neigh_stack (s : GameState) (i : Nat) :
    (recordPass s i).neigh_stack = s.neigh_stack := rfl

@[simp] theorem recordPass_resolution_stack (s : GameState) (i : Nat) :
    (recordPass s i).resolution_stack = s.resolution_stack := rfl

@[simp] theorem recordPass_num_players (s : GameState) (i : Nat) :
    (recordPass s i).num_players = s.num_players := rfl

@[simp] theorem recordPass_current_player_idx (s : GameState) (i : Nat) :
    (recordPass s i).current_player_idx = s.current_player_idx := rfl

theorem recordPass_bag (s : GameState) (i : Nat) :
    (recordPass s i).bag = s.bag := rfl

/-- `_apply_pass_neigh` preserves the invariant payload. -/
theorem applyPassNeigh_preserve (reg : Registry)
    (shuffle : List CardInstance → List CardInstance) (fuel : Nat)
    (s : GameState) (a : Action) (s₁ : GameState)
    (hcore : applyPassNeigh reg shuffle fuel s a = .ok s₁)
    (hreg : RegOk reg) (hsh : ∀ l, (shuffle l).Perm l)
    (hpi : PIdx s) (hne : NeighOk s)
    (hch : s.neigh_chain_active = true) (hcards : CardsOk reg s)
    (hcur : s.current_player_idx < s.players.length) :
    CoreOut s s₁ := by
  have hstk0 : s.resolution_stack = [] := hne.2.2.2 hch
  have hst : StackOk s := StackOk_nil s hstk0
  simp only [applyPassNeigh] at hcore
  split at hcore
  · split at hcore
    · -- the chain settles: neigh_stack = hcd :: t
      rename_i hcd t heq
      have hseq : s.neigh_stack = hcd :: t := heq
      have hsettle : ∀ s₂ : GameState,
          s₂.bag = s.bag + {hcd} →
          Frame (recordPass s a.player_idx) s₂ → PIdx s₂ → StackOk s₂ →
          CoreOut s
            { (discardOpt { s₂ with discard_pile := s₂.discard_pile ++ t }
                (recordPass s a.player_idx).card_being_played) with
              neigh_stack := [], card_being_played := none,
              neigh_chain_active := false, players_passed_on_neigh := [],
              actions_remaining :=
                (discardOpt { s₂ with discard_pile := s₂.discard_pile ++ t }
                  (recordPass s a.player_idx).card_being_played).actions_remaining
                  - 1 } := by
        intro s₂ hb2 hf2 hpi2 hst2
        have hZns : (discardOpt { s₂ with discard_pile := s₂.discard_pile ++ t }
            (recordPass s a.player_idx).card_being_played).neigh_stack =
            hcd :: t := by
          rw [discardOpt_neigh_stack]
          show s₂.neigh_stack = hcd :: t
          rw [hf2.2.2.2.2.1]
          exact heq
        have hZcbp : (discardOpt { s₂ with discard_pile := s₂.discard_pile ++ t }
            (recordPass s a.player_idx).card_being_played).card_being_played =
            s.card_being_played := by
          rw [discardOpt_card_being_played]
          show s₂.card_being_played = s.card_being_played
          rw [hf2.2.2.2.1]
          rfl
        refine ⟨?_, ?_, ?_, ?_, ?_, ?_, ?_⟩
        · -- the bag is conserved
          have hsettle0 := bag_settle
            (discardOpt { s₂ with discard_pile := s₂.discard_pile ++ t }
              (recordPass s a.player_idx).card_being_played) false []
            ((discardOpt { s₂ with discard_pile := s₂.discard_pile ++ t }
              (recordPass s a.player_idx).card_being_played).actions_remaining - 1)
          have hbZ : (discardOpt { s₂ with discard_pile := s₂.discard_pile ++ t }
              (recordPass s a.player_idx).card_being_played).bag =
              s₂.bag + (t : Multiset CardInstance) +
                (s.card_being_played.toList : Multiset CardInstance) := by
            rw [discardOpt_bag, bag_append_discard]
            rfl
          rw [hZns, hZcbp, hbZ, hb2] at hsettle0
          have hcoe : ((hcd :: t : List CardInstance) : Multiset CardInstance) =
              {hcd} + (t : Multiset CardInstance) := by
            rw [← Multiset.cons_coe, ← Multiset.singleton_add]
          rw [hcoe] at hsettle0
          have hmain : ({ (discardOpt
                { s₂ with discard_pile := s₂.discard_pile ++ t }
                (recordPass s a.player_idx).card_being_played) with
              neigh_stack := [], card_being_played := none,
              neigh_chain_active := false, players_passed_on_neigh := [],
              actions_remaining :=
                (discardOpt { s₂ with discard_pile := s₂.discard_pile ++ t }
                  (recordPass s a.player_idx).card_being_played).actions_remaining
                  - 1 } : GameState).bag +
              (({hcd} : Multiset CardInstance) + (t : Multiset CardInstance) +
                (s.card_being_played.toList : Multiset CardInstance)) =
              s.bag +
              (({hcd} : Multiset CardInstance) + (t : Multiset CardInstance) +
                (s.card_being_played.toList : Multiset CardInstance)) := by
            calc _ = ({ (discardOpt
                  { s₂ with discard_pile := s₂.discard_pile ++ t }
                  (recordPass s a.player_idx).card_being_played) with
                neigh_stack := [], card_being_played := none,
                neigh_chain_active := false, players_passed_on_neigh := [],
                actions_remaining :=
                  (discardOpt { s₂ with discard_pile := s₂.discard_pile ++ t }
                    (recordPass s a.player_idx).card_being_played).actions_remaining
                    - 1 } : GameState).bag +
                (({hcd} : Multiset CardInstance) + (t : Multiset CardInstance)) +
                (s.card_being_played.toList : Multiset CardInstance) := by abel
              _ = s.bag + {hcd} + (t : Multiset CardInstance) +
                  (s.card_being_played.toList : Multiset CardInstance) := hsettle0
              _ = _ := by abel
          exact bag_cancel hmain
        · exact PIdx_congr s₂ _ (by simp) hpi2
        · exact StackOk_congr s₂ _ (by simp) (by simp) hst2
        · refine NeighOk_closed _ rfl ?_ rfl
          intro x hx
          simp at hx
        · show _ = s.players.length
          simp only [discardOpt_players]
          show s₂.players.length = s.players.length
          rw [hf2.1]
          rfl
        · show _ = s.num_players
          simp only [discardOpt_num_players]
          show s₂.num_players = s.num_players
          rw [hf2.2.1]
          rfl
        · simp only [discardOpt_current_player_idx, discardOpt_players]
          show s₂.current_player_idx < s₂.players.length
          rw [hf2.2.2.1, hf2.1]
          exact hcur
      split at hcore
      · -- even parity: the original resolves
        rw [bind_ok_iff] at hcore
        obtain ⟨s₂, hres, hfin⟩ := hcore
        cases hfin
        have hni : hcd.card_type ≠ CardType.INSTANT := by
          refine hne.1 hcd ?_
          rw [hseq]
          simp
        have hmemns : hcd ∈ s.neigh_stack := by
          rw [hseq]
          exact List.mem_cons_self _ _
        obtain ⟨rb, rf, rpi, rst⟩ := resolveCard_preserve reg shuffle fuel
          (recordPass s a.player_idx) hcd
          (recordPass s a.player_idx).current_player_idx s₂ hres hreg hsh
          (PIdx_congr s _ rfl hpi)
          (by rw [recordPass_resolution_stack]; exact hstk0)
          (hcards hcd (neigh_stack_sub_allCards s hcd hmemns)) hcur hni
        exact hsettle s₂ rb rf rpi rst
      · -- odd parity: the original is discarded unresolved
        rw [bind_ok_iff] at hcore
        obtain ⟨s₂, hok, hfin⟩ := hcore
        cases hok
        cases hfin
        refine hsettle _ ?_ ⟨rfl, rfl, rfl, rfl, rfl, rfl⟩
          (PIdx_congr s _ rfl hpi) (StackOk_congr s _ rfl rfl hst)
        have hb := bag_append_discard (recordPass s a.player_idx) [hcd]
        rw [Multiset.coe_singleton] at hb
        exact hb
    · -- the chain settles with an empty neigh_stack
      rename_i heq
      have hclose : ∀ s₂ : GameState,
          s₂.bag = s.bag +
            ((recordPass s a.player_idx).card_being_played.toList :
              Multiset CardInstance) →
          Frame (recordPass s a.player_idx) s₂ → PIdx s₂ → StackOk s₂ →
          CoreOut s { s₂ with
            card_being_played := none, neigh_chain_active := false,
            players_passed_on_neigh := [],
            actions_remaining := s₂.actions_remaining - 1 } := by
        intro s₂ hb2 hf2 hpi2 hst2
        refine ⟨?_, ?_, ?_, ?_, ?_, ?_, ?_⟩
        · have hclear := bag_clear_cbp s₂ false [] (s₂.actions_remaining - 1)
          have hcbp2 : s₂.card_being_played =
              (recordPass s a.player_idx).card_being_played := hf2.2.2.2.1
          rw [hcbp2, hb2] at hclear
          have hmain : ({ s₂ with
              card_being_played := none, neigh_chain_active := false,
              players_passed_on_neigh := [],
              actions_remaining := s₂.actions_remaining - 1 } : GameState).bag +
              ((recordPass s a.player_idx).card_being_played.toList :
                Multiset CardInstance) =
              s.bag +
              ((recordPass s a.player_idx).card_being_played.toList :
                Multiset CardInstance) := hclear
          exact bag_cancel hmain
        · exact PIdx_congr s₂ _ rfl hpi2
        · exact StackOk_congr s₂ _ rfl rfl hst2
        · refine NeighOk_closed _ rfl ?_ rfl
          intro x hx
          have hns2 : ({ s₂ with
              card_being_played := none, neigh_chain_active := false,
              players_passed_on_neigh := [],
              actions_remaining := s₂.actions_remaining - 1 } :
            GameState).neigh_stack = [] := by
            show s₂.neigh_stack = []
            rw [hf2.2.2.2.2.1]
            exact heq
          rw [hns2] at hx
          simp at hx
        · show s₂.players.length = s.players.length
          rw [hf2.1]
          rfl
        · show s₂.num_players = s.num_players
          rw [hf2.2.1]
          rfl
        · show s₂.current_player_idx < s₂.players.length
          rw [hf2.2.2.1, hf2.1]
          exact hcur
      split at hcore
      · -- a contested card is waiting
        split at hcore
        · -- non-instant: it resolves
          rename_i c heq2 hni
          rw [bind_ok_iff] at hcore
          obtain ⟨s₂, hres, hfin⟩ := hcore
          cases hfin
          have hcbp' : s.card_being_played = some c := heq2
          obtain ⟨rb, rf, rpi, rst⟩ := resolveCard_preserve reg shuffle fuel
            (recordPass s a.player_idx) c
            (recordPass s a.player_idx).current_player_idx s₂ hres hreg hsh
            (PIdx_congr s _ rfl hpi)
            (by rw [recordPass_resolution_stack]; exact hstk0)
            (hcards c (cbp_sub_allCards s c hcbp')) hcur hni
          refine hclose s₂ ?_ rf rpi rst
          rw [heq2]
          simp only [Option.toList_some, Multiset.coe_singleton]
          exact rb
        · -- an instant in the contested slot contradicts the bookkeeping
          rename_i c heq2 hni
          exfalso
          have hcs : s.card_being_played = some c := heq2
          have hns : s.neigh_stack = [] := heq
          have := hne.2.2.1 c (by rw [hcs]; simp) hns
          exact this (Decidable.not_not.mp hni)
      · -- nothing contested: just consume the action
        rename_i heq2
        rw [bind_ok_iff] at hcore
        obtain ⟨s₂, hok, hfin⟩ := hcore
        cases hok
        cases hfin
        refine hclose _ ?_ ⟨rfl, rfl, rfl, rfl, rfl, rfl⟩
          (PIdx_congr s _ rfl hpi) (StackOk_congr s _ rfl rfl hst)
        rw [heq2]
        simp [recordPass_bag]
  · -- not everyone has passed yet: only the pass is recorded
    cases hcore
    exact ⟨rfl, PIdx_congr s _ rfl hpi, StackOk_congr s _ rfl rfl hst,
      NeighOk_congr s _ rfl rfl rfl (fun hcc => hne.2.2.2 hcc) hne, rfl, rfl,
      hcur⟩

/-- `_apply_neigh` preserves the invariant payload. -/
theorem applyNeigh_preserve (s : GameState) (a : Action) (s₁ : GameState)
    (c : CardInstance)
    (hcore : applyNeigh s a = .ok s₁)
    (hcard : a.card = some c) (hmemh : c ∈ (s.getP a.player_idx).hand)
    (hchain : s.neigh_chain_active = true)
    (hpi : PIdx s) (hne : NeighOk s)
    (hcur : s.current_player_idx < s.players.length) :
    CoreOut s s₁ := by
  have hstk0 : s.resolution_stack = [] := hne.2.2.2 hchain
  simp only [applyNeigh] at hcore
  rw [hcard] at hcore
  dsimp only at hcore
  rw [if_pos hmemh] at hcore
  have hiE : a.player_idx < s.players.length := mem_hand_lt s _ c hmemh
  set E := s.setP a.player_idx
    { s.getP a.player_idx with hand := (s.getP a.player_idx).hand.erase c }
    with hEdef
  have hstkE : E.resolution_stack = [] := by
    rw [hEdef, setP_resolution_stack]
    exact hstk0
  have hpiE : PIdx E := PIdx_setP s _ _ hpi rfl hiE
  have hstE : StackOk E := StackOk_nil E hstkE
  have hEbag : E.bag + {c} = s.bag := erase_hand_bag s _ c hmemh
  have hElen : E.players.length = s.players.length := setP_players_length _ _ _
  have hEns : E.neigh_stack = s.neigh_stack := by
    rw [hEdef]
    exact setP_neigh_stack _ _ _
  split at hcore
  · -- Super Neigh closes the chain at once
    split at hcore
    · -- a contested card goes to the discard pile with it
      rename_i orig heq2
      cases hcore
      have hcbp : s.card_being_played = some orig := heq2
      set M := ({ E with discard_pile := E.discard_pile ++ [orig] } : GameState)
        with hMdef
      have hMbag : M.bag = E.bag + {orig} := by
        have hb := bag_append_discard E [orig]
        rw [Multiset.coe_singleton] at hb
        exact hb
      have hsup0 := bag_super M (M.discard_pile ++ [c]) false []
      have hMcbp : M.card_being_played = some orig := heq2
      rw [hMcbp] at hsup0
      simp only [Option.toList_some, Multiset.coe_singleton] at hsup0
      rw [hMbag] at hsup0
      have hsplit2 : ((M.discard_pile ++ [c] : List CardInstance) :
          Multiset CardInstance) =
          (M.discard_pile : Multiset CardInstance) + {c} := by
        rw [← Multiset.coe_add, Multiset.coe_singleton]
      rw [hsplit2] at hsup0
      refine ⟨?_, ?_, ?_, ?_, ?_, ?_, ?_⟩
      · have hmain : ({ M with
            discard_pile := M.discard_pile ++ [c],
            card_being_played := none, neigh_chain_active := false,
            players_passed_on_neigh := [] } : GameState).bag +
            ((M.discard_pile : Multiset CardInstance) + {orig}) =
            s.bag + ((M.discard_pile : Multiset CardInstance) + {orig}) := by
          calc _ = ({ M with
                discard_pile := M.discard_pile ++ [c],
                card_being_played := none, neigh_chain_active := false,
                players_passed_on_neigh := [] } : GameState).bag +
                (M.discard_pile : Multiset CardInstance) + {orig} := by abel
            _ = E.bag + {orig} +
                ((M.discard_pile : Multiset CardInstance) + {c}) := hsup0
            _ = (E.bag + {c}) +
                ((M.discard_pile : Multiset CardInstance) + {orig}) := by abel
            _ = _ := by rw [hEbag]
        exact bag_cancel hmain
      · exact PIdx_congr E _ rfl hpiE
      · exact StackOk_congr E _ rfl rfl hstE
      · refine NeighOk_closed _ rfl ?_ rfl
        show ∀ h ∈ s.neigh_stack.take 1, h.card_type ≠ CardType.INSTANT
        exact hne.1
      · exact hElen
      · rfl
      · show s.current_player_idx < E.players.length
        exact Nat.lt_of_lt_of_eq hcur hElen.symm
    · -- no contested card: only the Super Neigh is discarded
      rename_i heq2
      cases hcore
      have hcbp : s.card_being_played = none := heq2
      have hsup0 := bag_super E (E.discard_pile ++ [c]) false []
      have hEcbp : E.card_being_played = none := heq2
      rw [hEcbp] at hsup0
      simp only [Option.toList_none, Multiset.coe_nil, add_zero] at hsup0
      have hsplit2 : ((E.discard_pile ++ [c] : List CardInstance) :
          Multiset CardInstance) =
          (E.discard_pile : Multiset CardInstance) + {c} := by
        rw [← Multiset.coe_add, Multiset.coe_singleton]
      rw [hsplit2] at hsup0
      refine ⟨?_, ?_, ?_, ?_, ?_, ?_, ?_⟩
      · have hmain : ({ E with
            discard_pile := E.discard_pile ++ [c],
            card_being_played := none, neigh_chain_active := false,
            players_passed_on_neigh := [] } : GameState).bag +
            (E.discard_pile : Multiset CardInstance) =
            s.bag + (E.discard_pile : Multiset CardInstance) := by
          calc _ = E.bag + ((E.discard_pile : Multiset CardInstance) + {c}) :=
              hsup0
            _ = (E.bag + {c}) + (E.discard_pile : Multiset CardInstance) := by
              abel
            _ = _ := by rw [hEbag]
        exact bag_cancel hmain
      · exact PIdx_congr E _ rfl hpiE
      · exact StackOk_congr E _ rfl rfl hstE
      · refine NeighOk_closed _ rfl ?_ rfl
        show ∀ h ∈ s.neigh_stack.take 1, h.card_type ≠ CardType.INSTANT
        exact hne.1
      · exact hElen
      · rfl
      · show s.current_player_idx < E.players.length
        exact Nat.lt_of_lt_of_eq hcur hElen.symm
  · -- an ordinary Neigh becomes the new contested card
    split at hcore
    · rename_i orig heq2
      cases hcore
      have hcbp : s.card_being_played = some orig := heq2
      have hord0 := bag_ord_neigh E (some c) [] (E.neigh_stack ++ [orig])
      have hEcbp : E.card_being_played = some orig := heq2
      rw [hEcbp] at hord0
      simp only [Option.toList_some, Multiset.coe_singleton] at hord0
      have hsplit2 : ((E.neigh_stack ++ [orig] : List CardInstance) :
          Multiset CardInstance) =
          (E.neigh_stack : Multiset CardInstance) + {orig} := by
        rw [← Multiset.coe_add, Multiset.coe_singleton]
      rw [hsplit2] at hord0
      refine ⟨?_, ?_, ?_, ?_, ?_, ?_, ?_⟩
      · have hmain : ({ E with
            card_being_played := some c,
            players_passed_on_neigh := [],
            neigh_stack := E.neigh_stack ++ [orig] } : GameState).bag +
            ({orig} + (E.neigh_stack : Multiset CardInstance)) =
            s.bag + ({orig} + (E.neigh_stack : Multiset CardInstance)) := by
          calc _ = ({ E with
                card_being_played := some c,
                players_passed_on_neigh := [],
                neigh_stack := E.neigh_stack ++ [orig] } : GameState).bag +
                {orig} + (E.neigh_stack : Multiset CardInstance) := by abel
            _ = E.bag + {c} +
                ((E.neigh_stack : Multiset CardInstance) + {orig}) := hord0
            _ = (E.bag + {c}) +
                ({orig} + (E.neigh_stack : Multiset CardInstance)) := by abel
            _ = _ := by rw [hEbag]
        exact bag_cancel hmain
      · exact PIdx_congr E _ rfl hpiE
      · exact StackOk_congr E _ rfl rfl hstE
      · refine ⟨?_, ?_, ?_, ?_⟩
        · intro x hx
          rw [hEns] at hx
          cases hns0 : s.neigh_stack with
          | nil =>
              rw [hns0] at hx
              simp at hx
              subst hx
              exact hne.2.2.1 x (by rw [hcbp]; simp) hns0
          | cons hd tl =>
              rw [hns0] at hx
              simp at hx
              subst hx
              exact hne.1 x (by rw [hns0]; simp)
        · intro hf
          have hf' : s.neigh_chain_active = false := hf
          rw [hchain] at hf'
          cases hf'
        · intro c' hc' habs
          rw [hEns] at habs
          simp at habs
        · intro _
          exact hstkE
      · exact hElen
      · rfl
      · show s.current_player_idx < E.players.length
        exact Nat.lt_of_lt_of_eq hcur hElen.symm
    · cases hcore

/-- `_apply_play_card` preserves the invariant payload. -/
theorem applyPlayCard_preserve (reg : Registry)
    (shuffle : List CardInstance → List CardInstance) (fuel : Nat)
    (s : GameState) (a : Action) (s₁ : GameState) (c : CardInstance)
    (hcore : applyPlayCard reg shuffle fuel s a = .ok s₁)
    (hcard : a.card = some c) (hmemh : c ∈ (s.getP a.player_idx).hand)
    (hni : c.card_type ≠ CardType.INSTANT)
    (hchain : s.neigh_chain_active = false)
    (hstk0 : s.resolution_stack = [])
    (hcs : CardSafe reg c)
    (hreg : RegOk reg) (hsh : ∀ l, (shuffle l).Perm l)
    (hpi : PIdx s) (hne : NeighOk s)
    (hcur : s.current_player_idx < s.players.length) :
    CoreOut s s₁ := by
  simp only [applyPlayCard] at hcore
  rw [hcard] at hcore
  dsimp only at hcore
  rw [if_pos hmemh] at hcore
  have hiE : a.player_idx < s.players.length := mem_hand_lt s _ c hmemh
  set E := s.setP a.player_idx
    { s.getP a.player_idx with hand := (s.getP a.player_idx).hand.erase c }
    with hEdef
  have hstkE : E.resolution_stack = [] := by
    rw [hEdef, setP_resolution_stack]
    exact hstk0
  have hpiE : PIdx E := PIdx_setP s _ _ hpi rfl hiE
  have hstE : StackOk E := StackOk_nil E hstkE
  have hEbag : E.bag + {c} = s.bag := erase_hand_bag s _ c hmemh
  have hElen : E.players.length = s.players.length := setP_players_length _ _ _
  have hEns : E.neigh_stack = s.neigh_stack := by
    rw [hEdef]
    exact setP_neigh_stack _ _ _
  have hEcbp : E.card_being_played = s.card_being_played := by
    rw [hEdef]
    exact setP_card_being_played _ _ _
  have hEch : E.neigh_chain_active = s.neigh_chain_active := by
    rw [hEdef]
    exact setP_neigh_chain_active _ _ _
  have hEnum : E.num_players = s.num_players := by
    rw [hEdef]
    exact setP_num_players _ _ _
  have hcbp0 : s.card_being_played = none := hne.2.1 hchain
  split at hcore
  · -- an opponent can respond: the chain opens
    cases hcore
    refine ⟨?_, ?_, ?_, ?_, ?_, ?_, ?_⟩
    · have hopen := bag_open_chain E (some c) true []
      rw [hEcbp, hcbp0] at hopen
      simp only [Option.toList_none, Multiset.coe_nil, add_zero,
        Option.toList_some, Multiset.coe_singleton] at hopen
      rw [hopen]
      exact hEbag
    · exact PIdx_congr E _ rfl hpiE
    · exact StackOk_congr E _ rfl rfl hstE
    · refine ⟨?_, ?_, ?_, ?_⟩
      · intro x hx
        rw [hEns] at hx
        exact hne.1 x hx
      · intro hf
        cases hf
      · intro c' hc' hns0
        simp at hc'
        subst hc'
        exact hni
      · intro _
        exact hstkE
    · exact hElen
    · exact hEnum
    · show s.current_player_idx < E.players.length
      exact Nat.lt_of_lt_of_eq hcur hElen.symm
  · -- no response possible: the card resolves at once
    rw [bind_ok_iff] at hcore
    obtain ⟨s₂, hres, hfin⟩ := hcore
    cases hfin
    obtain ⟨rb, rf, rpi, rst⟩ := resolveCard_preserve reg shuffle fuel E c
      a.player_idx s₂ hres hreg hsh hpiE hstkE hcs
      (Nat.lt_of_lt_of_eq hiE hElen.symm) hni
    refine ⟨?_, ?_, ?_, ?_, ?_, ?_, ?_⟩
    · have hacts : ({ s₂ with
          actions_remaining := s₂.actions_remaining - 1 } : GameState).bag =
          s₂.bag := rfl
      rw [hacts, rb]
      exact hEbag
    · exact PIdx_congr s₂ _ rfl rpi
    · exact StackOk_congr s₂ _ rfl rfl rst
    · refine NeighOk_congr s _ ?_ ?_ ?_ ?_ hne
      · show s₂.card_being_played = s.card_being_played
        rw [rf.2.2.2.1]
        exact hEcbp
      · show s₂.neigh_stack = s.neigh_stack
        rw [rf.2.2.2.2.1]
        exact hEns
      · show s₂.neigh_chain_active = s.neigh_chain_active
        rw [rf.2.2.2.2.2]
        exact hEch
      · intro hcc
        exfalso
        have h1 : s₂.neigh_chain_active = true := hcc
        rw [rf.2.2.2.2.2, hEch, hchain] at h1
        cases h1
    · show s₂.players.length = s.players.length
      rw [rf.1]
      exact hElen
    · show s₂.num_players = s.num_players
      rw [rf.2.1]
      exact hEnum
    · show s₂.current_player_idx < s₂.players.length
      rw [rf.2.2.1, rf.1]
      have h1 : E.current_player_idx = s.current_player_idx := by
        rw [hEdef]
        exact setP_current_player_idx _ _ _
      rw [h1, hElen]
      exact hcur

/-- One successful legal action through `apply_action` preserves the amended
zone invariant and conserves the bag. -/
theorem applyAction_preserve (reg : Registry)
    (shuffle : List CardInstance → List CardInstance) (fuel : Nat)
    (s : GameState) (a : Action) (l : List Action) (s' : GameState)
    (hreg : RegOk reg) (hsh : ∀ l, (shuffle l).Perm l)
    (hl : getLegalActions s = .ok l) (ha : a ∈ l)
    (h : applyAction reg shuffle fuel s a = .ok s')
    (hinv : Inv reg s) : Inv reg s' ∧ s'.bag = s.bag := by
  obtain ⟨hnd, hpi, hst, hne, hcards, hnum, hpos, hcur⟩ := hinv
  obtain ⟨s₁, hcore, rfl⟩ := applyAction_ok_winUpdate reg shuffle fuel s a s' h
  suffices hC : CoreOut s s₁ by
    obtain ⟨hbag, pi1, st1, ne1, hlen, hnp, hcur1⟩ := hC
    obtain ⟨w1, w2, w3, w4, w5, w6, w7, w8⟩ := winUpdate_fields s₁
    have hbag' : (winUpdate s₁).bag = s.bag := by rw [w2, hbag]
    have hperm : (winUpdate s₁).allCards.Perm s.allCards :=
      Multiset.coe_eq_coe.mp hbag'
    refine ⟨⟨?_, ?_, ?_, ?_, ?_, ?_, ?_, ?_⟩, hbag'⟩
    · exact hperm.nodup_iff.mpr hnd
    · exact PIdx_congr s₁ _ w1 pi1
    · exact StackOk_congr s₁ _ w3 w1 st1
    · refine NeighOk_congr s₁ _ w4 w5 w6 ?_ ne1
      intro hcc
      rw [w3]
      refine ne1.2.2.2 ?_
      rw [w6] at hcc
      exact hcc
    · exact CardsOk_of_bag reg s _ hbag' hcards
    · rw [w7, w1, hnp, hlen]
      exact hnum
    · rw [w1, hlen]
      exact hpos
    · rw [w8, w1]
      exact hcur1
  rcases legal_inv s l a hl ha with ⟨hchain, hna⟩ | ⟨hchain, hstack, hcases⟩
  · -- chain regime: pass or Neigh
    rcases neigh_actions_inv s a hna with hpass |
      ⟨hneigh, c, hcard, hmemh, hinst⟩
    · unfold applyActionCore at hcore
      rw [hpass] at hcore
      dsimp only at hcore
      exact applyPassNeigh_preserve reg shuffle fuel s a s₁ hcore hreg hsh
        hpi hne hchain hcards hcur
    · unfold applyActionCore at hcore
      rw [hneigh] at hcore
      dsimp only at hcore
      exact applyNeigh_preserve s a s₁ c hcore hcard hmemh hchain hpi hne
        hcur
  · rcases hcases with ⟨hty, hpidx⟩ | ⟨hty, hpidx⟩ |
      ⟨hty, hpidx, c, hcard, hmemh, hni⟩ | ⟨hty, hpidx, hphase, c, htc, hmemh⟩
    · -- DRAW_CARD
      unfold applyActionCore at hcore
      rw [hty] at hcore
      dsimp only at hcore
      cases hcore
      have hplt : a.player_idx < s.players.length := by
        rw [hpidx]
        exact hcur
      have hf := (draw_card_frame shuffle s a.player_idx
        (if s.current_player.upgrades.any
            (fun c => c.effect_id = some "double_dutch") then 2 else 1)).1
      have hfs := (draw_card_frame shuffle s a.player_idx
        (if s.current_player.upgrades.any
            (fun c => c.effect_id = some "double_dutch") then 2 else 1)).2
      refine ⟨?_, ?_, ?_, ?_, ?_, ?_, ?_⟩
      · exact draw_card_bag shuffle hsh s a.player_idx _ hplt
      · exact PIdx_congr _ _ rfl
          (draw_card_pidx shuffle s a.player_idx _ hplt hpi)
      · refine StackOk_nil _ ?_
        show (GameState.draw_card shuffle s a.player_idx
            (if s.current_player.upgrades.any
              (fun c => c.effect_id = some "double_dutch") then 2 else
              1)).1.resolution_stack = []
        rw [hfs]
        exact hstack
      · refine NeighOk_congr s _ ?_ ?_ ?_ ?_ hne
        · exact hf.2.2.2.1
        · exact hf.2.2.2.2.1
        · exact hf.2.2.2.2.2
        · intro _
          show (GameState.draw_card shuffle s a.player_idx
              (if s.current_player.upgrades.any
                (fun c => c.effect_id = some "double_dutch") then 2 else
                1)).1.resolution_stack = []
          rw [hfs]
          exact hstack
      · exact hf.1
      · exact hf.2.1
      · show (GameState.draw_card shuffle s a.player_idx
            (if s.current_player.upgrades.any
              (fun c => c.effect_id = some "double_dutch") then 2 else
              1)).1.current_player_idx <
          (GameState.draw_card shuffle s a.player_idx
            (if s.current_player.upgrades.any
              (fun c => c.effect_id = some "double_dutch") then 2 else
              1)).1.players.length
        rw [hf.2.2.1, hf.1]
        exact hcur
    · -- END_ACTION_PHASE
      unfold applyActionCore at hcore
      rw [hty] at hcore
      dsimp only at hcore
      obtain ⟨b, hlen2, hnum2, hcbp2, hns2, hch2, hcur2, pi2, st2⟩ :=
        processEndOfTurn_preserve reg shuffle fuel _ s₁ hcore hreg hsh
          (PIdx_congr s _ rfl hpi) (StackOk_congr s _ rfl rfl hst) hcur hnum
      refine ⟨b, pi2, st2, NeighOk_congr s _ hcbp2 hns2 hch2 ?_ hne, hlen2,
        hnum2, hcur2⟩
      intro hcc
      exfalso
      rw [hch2, hchain] at hcc
      cases hcc
    · -- PLAY_CARD
      unfold applyActionCore at hcore
      rw [hty] at hcore
      dsimp only at hcore
      have hmem' : c ∈ (s.getP a.player_idx).hand := by
        rw [hpidx]
        exact hmemh
      exact applyPlayCard_preserve reg shuffle fuel s a s₁ c hcore hcard hmem'
        hni hchain hstack (hcards c (hand_sub_allCards s a.player_idx c hmem'))
        hreg hsh hpi hne hcur
    · -- DISCARD (hand-limit phase)
      unfold applyActionCore at hcore
      rw [hty] at hcore
      dsimp only at hcore
      rw [htc] at hcore
      dsimp only at hcore
      have hmem' : c ∈ (s.getP a.player_idx).hand := by
        rw [hpidx]
        exact hmemh
      have hdb := discard_card_bag s c a.player_idx hmem'
      have hdf := discard_card_frame s c a.player_idx
      have hdp := discard_card_pidx s c a.player_idx hpi
      have hdst : StackOk (s.discard_card c a.player_idx) :=
        StackOk_nil _ (by rw [hdf.2]; exact hstack)
      have hdcur : (s.discard_card c a.player_idx).current_player_idx <
          (s.discard_card c a.player_idx).players.length := by
        rw [hdf.1.2.2.1, hdf.1.1]
        exact hcur
      have hbase : CoreOut s (s.discard_card c a.player_idx) :=
        ⟨hdb, hdp, hdst,
          NeighOk_congr s _ hdf.1.2.2.2.1 hdf.1.2.2.2.2.1 hdf.1.2.2.2.2.2
            (by
              intro hcc
              exfalso
              rw [hdf.1.2.2.2.2.2, hchain] at hcc
              cases hcc) hne,
          hdf.1.1, hdf.1.2.1, hdcur⟩
      split at hcore
      · split at hcore
        · -- the hand shrank to the limit: end of turn processing runs
          have hdnum : (s.discard_card c a.player_idx).num_players =
              (s.discard_card c a.player_idx).players.length := by
            rw [hdf.1.2.1, hdf.1.1]
            exact hnum
          obtain ⟨b, hlen2, hnum2, hcbp2, hns2, hch2, hcur2, pi2, st2⟩ :=
            processEndOfTurn_preserve reg shuffle fuel _ s₁ hcore hreg hsh
              (PIdx_congr _ _ rfl hdp) (StackOk_congr _ _ rfl rfl hdst)
              hdcur hdnum
          have hb : s₁.bag = (s.discard_card c a.player_idx).bag := b
          have hc1 : s₁.card_being_played = s.card_being_played := by
            have x : s₁.card_being_played =
                (s.discard_card c a.player_idx).card_being_played := hcbp2
            rw [x, hdf.1.2.2.2.1]
          have hn1 : s₁.neigh_stack = s.neigh_stack := by
            have x : s₁.neigh_stack =
                (s.discard_card c a.player_idx).neigh_stack := hns2
            rw [x, hdf.1.2.2.2.2.1]
          have hh1 : s₁.neigh_chain_active = s.neigh_chain_active := by
            have x : s₁.neigh_chain_active =
                (s.discard_card c a.player_idx).neigh_chain_active := hch2
            rw [x, hdf.1.2.2.2.2.2]
          have hl1 : s₁.players.length = s.players.length := by
            have x : s₁.players.length =
                (s.discard_card c a.player_idx).players.length := hlen2
            rw [x, hdf.1.1]
          have hm1 : s₁.num_players = s.num_players := by
            have x : s₁.num_players =
                (s.discard_card c a.player_idx).num_players := hnum2
            rw [x, hdf.1.2.1]
          refine ⟨hb.trans hdb, pi2, st2,
            NeighOk_congr s _ hc1 hn1 hh1 ?_ hne, hl1, hm1, hcur2⟩
          intro hcc
          exfalso
          rw [hh1, hchain] at hcc
          cases hcc
        · cases hcore
          exact hbase
      · cases hcore
        exact hbase

/-- Membership in `legalOrEmpty` comes from a successful
`get_legal_actions`. -/
theorem legalOrEmpty_mem (s : GameState) (a : Action)
    (ha : a ∈ legalOrEmpty s) :
    ∃ l, getLegalActions s = .ok l ∧ a ∈ l := by
  unfold legalOrEmpty at ha
  cases hgl : getLegalActions s with
  | ok l =>
      rw [hgl] at ha
      exact ⟨l, rfl, by simpa [Except.toOption] using ha⟩
  | error e =>
      rw [hgl] at ha
      simp [Except.toOption] at ha

/-- Along every legal run, the invariant holds and the bag is conserved. -/
theorem reachable_preserve (reg : Registry)
    (shuffle : List CardInstance → List CardInstance) (fuel : Nat)
    (s₀ s : GameState) (hreg : RegOk reg) (hsh : ∀ l, (shuffle l).Perm l)
    (hr : Reachable reg shuffle fuel s₀ s) (h0 : Inv reg s₀) :
    Inv reg s ∧ s.bag = s₀.bag := by
  induction hr with
  | refl => exact ⟨h0, rfl⟩
  | step hr ha h ih =>
      obtain ⟨hi, hb⟩ := ih
      obtain ⟨l, hgl, hal⟩ := legalOrEmpty_mem _ _ ha
      obtain ⟨hi', hb'⟩ := applyAction_preserve reg shuffle fuel _ _ l _
        hreg hsh hgl hal h hi
      exact ⟨hi', hb'.trans hb⟩

/-- `EFFECT_REGISTRY` from `src/cards/effects.py`, in registration order
(the `description` strings, which the engine never reads, are left at their
default). -/
def effectRegistry : Registry := [
  ("neigh",
    { effect_id := "neigh",
      name := "Neigh",
      trigger := EffectTrigger.INSTANT,
      actions := [
        { action_type := EffActionType.NEGATE,
          target := { target_type := TargetType.NONE } }] }),
  ("super_neigh",
    { effect_id := "super_neigh",
      name := "Super Neigh",
      trigger := EffectTrigger.INSTANT,
      actions := [
        { action_type := EffActionType.NEGATE,
          target := { target_type := TargetType.NONE } }] }),
  ("rhinocorn",
    { effect_id := "rhinocorn",
      name := "Rhinocorn",
      trigger := EffectTrigger.BEGINNING_OF_TURN,
      actions := [
        { action_type := EffActionType.DESTROY,
          target := { target_type := TargetType.ANY_UNICORN, optional := true } },
        { action_type := EffActionType.SKIP_TURN,
          target := { target_type := TargetType.CONTROLLER },
          condition := some "if_destroyed" }] }),
  ("chainsaw_unicorn",
    { effect_id := "chainsaw_unicorn",
      name := "Chainsaw Unicorn",
      trigger := EffectTrigger.ON_ENTER,
      actions := [
        { action_type := EffActionType.DESTROY,
          target := { target_type := TargetType.ANY_UPGRADE, optional := true } }] }),
  ("stabby_the_unicorn",
    { effect_id := "stabby_the_unicorn",
      name := "Stabby the Unicorn",
      trigger := EffectTrigger.ON_ENTER,
      actions := [
        { action_type := EffActionType.SACRIFICE,
          target := { target_type := TargetType.OWN_CARD_IN_STABLE } },
        { action_type := EffActionType.DESTROY,
          target := { target_type := TargetType.ANY_UNICORN } }] }),
  ("unicorn_phoenix",
    { effect_id := "unicorn_phoenix",
      name := "Unicorn Phoenix",
      trigger := EffectTrigger.ON_LEAVE,
      actions := [
        { action_type := EffActionType.DISCARD,
          target := { target_type := TargetType.OWN_HAND } },
        { action_type := EffActionType.BRING_TO_STABLE,
          target := { target_type := TargetType.SELF },
          condition := some "if_discarded" }] }),
  ("rainbow_unicorn",
    { effect_id := "rainbow_unicorn",
      name := "Rainbow Unicorn",
      trigger := EffectTrigger.ON_ENTER,
      actions := [
        { action_type := EffActionType.BRING_TO_STABLE,
          target := { target_type := TargetType.BABY_UNICORN } }] }),
  ("queen_bee_unicorn",
    { effect_id := "queen_bee_unicorn",
      name := "Queen Bee Unicorn",
      trigger := EffectTrigger.CONTINUOUS,
      modifies_rules := true,
      rule_modifier := some "basic_unicorns_cannot_enter_other_stables" }),
  ("seductive_unicorn",
    { effect_id := "seductive_unicorn",
      name := "Seductive Unicorn",
      trigger := EffectTrigger.ON_ENTER,
      actions := [
        { action_type := EffActionType.SACRIFICE,
          target := { target_type := TargetType.OWN_UNICORN } },
        { action_type := EffActionType.STEAL,
          target := { target_type := TargetType.OTHER_UNICORN },
          condition := some "if_sacrificed" }] }),
  ("greedy_flying_unicorn",
    { effect_id := "greedy_flying_unicorn",
      name := "Greedy Flying Unicorn",
      trigger := EffectTrigger.ON_ENTER,
      actions := [
        { action_type := EffActionType.DRAW,
          target := { target_type := TargetType.CONTROLLER },
          value := 1 }] }),
  ("magical_flying_unicorn",
    { effect_id := "magical_flying_unicorn",
      name := "Magical Flying Unicorn",
      trigger := EffectTrigger.ON_ENTER,
      actions := [
        { action_type := EffActionType.SEARCH_DECK,
          target := { target_type := TargetType.CARD_IN_DECK },
          condition := some "magic_card" }] }),
  ("swift_flying_unicorn",
    { effect_id := "swift_flying_unicorn",
      name := "Swift Flying Unicorn",
      trigger := EffectTrigger.ON_ENTER,
      actions := [
        { action_type := EffActionType.RETURN_TO_HAND,
          target := { target_type := TargetType.ANY_CARD_IN_STABLE } }] }),
  ("annoying_flying_unicorn",
    { effect_id := "annoying_flying_unicorn",
      name := "Annoying Flying Unicorn",
      trigger := EffectTrigger.ON_ENTER,
      actions := [
        { action_type := EffActionType.DISCARD,
          target := { target_type := TargetType.ANY_PLAYER },
          value := 1 }] }),
  ("majestic_flying_unicorn",
    { effect_id := "majestic_flying_unicorn",
      name := "Majestic Flying Unicorn",
      trigger := EffectTrigger.ON_ENTER,
      actions := [
        { action_type := EffActionType.SEARCH_DECK,
          target := { target_type := TargetType.CARD_IN_DECK },
          condition := some "unicorn_card" }] }),
  ("extremely_destructive_unicorn",
    { effect_id := "extremely_destructive_unicorn",
      name := "Extremely Destructive Unicorn",
      trigger := EffectTrigger.ON_ENTER,
      actions := [
        { action_type := EffActionType.DESTROY,
          target := { target_type := TargetType.ANY_UPGRADE_OR_DOWNGRADE },
          value := (-1 : Int) }] }),
  ("alluring_narwhal",
    { effect_id := "alluring_narwhal",
      name := "Alluring Narwhal",
      trigger := EffectTrigger.ON_ENTER,
      actions := [
        { action_type := EffActionType.STEAL,
          target := { target_type := TargetType.OTHER_UPGRADE, optional := true } }] }),
  ("shark_with_a_horn",
    { effect_id := "shark_with_a_horn",
      name := "Shark With a Horn",
      trigger := EffectTrigger.ON_ENTER,
      actions := [
        { action_type := EffActionType.DESTROY,
          target := { target_type := TargetType.OTHER_UNICORN } }],
      condition := some "if_downgrade_in_stable" }),
  ("narwhal_torpedo",
    { effect_id := "narwhal_torpedo",
      name := "Narwhal Torpedo",
      trigger := EffectTrigger.ON_ENTER,
      actions := [
        { action_type := EffActionType.SACRIFICE,
          target := { target_type := TargetType.SELF } },
        { action_type := EffActionType.DESTROY,
          target := { target_type := TargetType.OTHER_UNICORN } }] }),
  ("the_great_narwhal",
    { effect_id := "the_great_narwhal",
      name := "The Great Narwhal",
      trigger := EffectTrigger.ON_ENTER,
      actions := [
        { action_type := EffActionType.SEARCH_DECK,
          target := { target_type := TargetType.CARD_IN_DECK },
          condition := some "narwhal_card" }] }),
  ("unicorn_on_the_cob",
    { effect_id := "unicorn_on_the_cob",
      name := "Unicorn on the Cob",
      trigger := EffectTrigger.ON_ENTER,
      actions := [
        { action_type := EffActionType.DRAW,
          target := { target_type := TargetType.CONTROLLER },
          value := 2 },
        { action_type := EffActionType.DISCARD,
          target := { target_type := TargetType.OWN_HAND },
          value := 1 }] }),
  ("ginormous_unicorn",
    { effect_id := "ginormous_unicorn",
      name := "Ginormous Unicorn",
      trigger := EffectTrigger.CONTINUOUS,
      modifies_rules := true,
      rule_modifier := some "counts_as_two_unicorns" }),
  ("llamacorn",
    { effect_id := "llamacorn",
      name := "Llamacorn",
      trigger := EffectTrigger.BEGINNING_OF_TURN,
      actions := [
        { action_type := EffActionType.DISCARD,
          target := { target_type := TargetType.CONTROLLER },
          value := 1 },
        { action_type := EffActionType.DESTROY,
          target := { target_type := TargetType.OTHER_CARD_IN_STABLE },
          condition := some "if_discarded" }] }),
  ("americorn",
    { effect_id := "americorn",
      name := "Americorn",
      trigger := EffectTrigger.BEGINNING_OF_TURN,
      actions := [
        { action_type := EffActionType.PULL_FROM_HAND,
          target := { target_type := TargetType.OTHER_PLAYER } }] }),
  ("black_knight_unicorn",
    { effect_id := "black_knight_unicorn",
      name := "Black Knight Unicorn",
      trigger := EffectTrigger.CONTINUOUS,
      modifies_rules := true,
      rule_modifier := some "sacrifice_instead_of_other_unicorn" }),
  ("dark_angel_unicorn",
    { effect_id := "dark_angel_unicorn",
      name := "Dark Angel Unicorn",
      trigger := EffectTrigger.ON_ENTER,
      actions := [
        { action_type := EffActionType.BRING_TO_STABLE,
          target := { target_type := TargetType.CARD_IN_DISCARD },
          condition := some "unicorn_card" }] }),
  ("mermaid_unicorn",
    { effect_id := "mermaid_unicorn",
      name := "Mermaid Unicorn",
      trigger := EffectTrigger.ON_ENTER,
      actions := [
        { action_type := EffActionType.RETURN_TO_HAND,
          target := { target_type := TargetType.OWN_CARD_IN_STABLE } }] }),
  ("mother_goose_unicorn",
    { effect_id := "mother_goose_unicorn",
      name := "Mother Goose Unicorn",
      trigger := EffectTrigger.BEGINNING_OF_TURN,
      actions := [
        { action_type := EffActionType.BRING_TO_STABLE,
          target := { target_type := TargetType.BABY_UNICORN } }],
      condition := some "if_no_baby_unicorns" }),
  ("unicorn_oracle",
    { effect_id := "unicorn_oracle",
      name := "Unicorn Oracle",
      trigger := EffectTrigger.BEGINNING_OF_TURN,
      actions := [
        { action_type := EffActionType.LOOK_AT_HAND,
          target := { target_type := TargetType.ANY_PLAYER } }] }),
  ("necromancer_unicorn",
    { effect_id := "necromancer_unicorn",
      name := "Necromancer Unicorn",
      trigger := EffectTrigger.ON_ENTER,
      actions := [
        { action_type := EffActionType.SACRIFICE,
          target := { target_type := TargetType.OWN_UNICORN },
          value := 2 },
        { action_type := EffActionType.BRING_TO_STABLE,
          target := { target_type := TargetType.CARD_IN_DISCARD },
          condition := some "unicorn_card" }] }),
  ("magical_kittencorn",
    { effect_id := "magical_kittencorn",
      name := "Magical Kittencorn",
      trigger := EffectTrigger.CONTINUOUS,
      modifies_rules := true,
      rule_modifier := some "cannot_be_destroyed" }),
  ("classy_narwhal",
    { effect_id := "classy_narwhal",
      name := "Classy Narwhal",
      trigger := EffectTrigger.CONTINUOUS,
      modifies_rules := true,
      rule_modifier := some "hand_visible" }),
  ("shabby_the_narwhal",
    { effect_id := "shabby_the_narwhal",
      name := "Shabby the Narwhal",
      trigger := EffectTrigger.CONTINUOUS,
      modifies_rules := true,
      rule_modifier := some "downgrades_immune" }),
  ("rainbow_aura",
    { effect_id := "rainbow_aura",
      name := "Rainbow Aura",
      trigger := EffectTrigger.CONTINUOUS,
      modifies_rules := true,
      rule_modifier := some "unicorns_cannot_be_destroyed" }),
  ("yay",
    { effect_id := "yay",
      name := "Yay",
      trigger := EffectTrigger.CONTINUOUS,
      modifies_rules := true,
      rule_modifier := some "cards_cannot_be_neighd" }),
  ("double_dutch",
    { effect_id := "double_dutch",
      name := "Double Dutch",
      trigger := EffectTrigger.CONTINUOUS,
      modifies_rules := true,
      rule_modifier := some "draw_extra_card" }),
  ("glitter_bomb",
    { effect_id := "glitter_bomb",
      name := "Glitter Bomb",
      trigger := EffectTrigger.END_OF_TURN,
      actions := [
        { action_type := EffActionType.SACRIFICE,
          target := { target_type := TargetType.OWN_CARD_IN_STABLE } },
        { action_type := EffActionType.DESTROY,
          target := { target_type := TargetType.OTHER_CARD_IN_STABLE },
          condition := some "if_sacrificed" }] }),
  ("rainbow_lasso",
    { effect_id := "rainbow_lasso",
      name := "Rainbow Lasso",
      trigger := EffectTrigger.BEGINNING_OF_TURN,
      actions := [
        { action_type := EffActionType.STEAL,
          target := { target_type := TargetType.OTHER_UNICORN } },
        { action_type := EffActionType.SACRIFICE,
          target := { target_type := TargetType.SELF } }] }),
  ("claw_machine",
    { effect_id := "claw_machine",
      name := "Claw Machine",
      trigger := EffectTrigger.BEGINNING_OF_TURN,
      actions := [
        { action_type := EffActionType.ADD_TO_HAND,
          target := { target_type := TargetType.CARD_IN_DISCARD, optional := true } }] }),
  ("stable_artillery",
    { effect_id := "stable_artillery",
      name := "Stable Artillery",
      trigger := EffectTrigger.ON_PLAY,
      actions := [
        { action_type := EffActionType.SACRIFICE,
          target := { target_type := TargetType.OWN_UNICORN } },
        { action_type := EffActionType.DESTROY,
          target := { target_type := TargetType.OTHER_UNICORN },
          condition := some "if_sacrificed" }] }),
  ("caffeine_overload",
    { effect_id := "caffeine_overload",
      name := "Caffeine Overload",
      trigger := EffectTrigger.CONTINUOUS,
      modifies_rules := true,
      rule_modifier := some "extra_action" }),
  ("blinding_light",
    { effect_id := "blinding_light",
      name := "Blinding Light",
      trigger := EffectTrigger.CONTINUOUS,
      modifies_rules := true,
      rule_modifier := some "unicorns_considered_basic" }),
  ("barbed_wire",
    { effect_id := "barbed_wire",
      name := "Barbed Wire",
      trigger := EffectTrigger.ON_ENTER,
      actions := [
        { action_type := EffActionType.DESTROY,
          target := { target_type := TargetType.OWN_UNICORN } }] }),
  ("broken_stable",
    { effect_id := "broken_stable",
      name := "Broken Stable",
      trigger := EffectTrigger.CONTINUOUS,
      modifies_rules := true,
      rule_modifier := some "cannot_play_upgrades" }),
  ("pandamonium",
    { effect_id := "pandamonium",
      name := "Pandamonium",
      trigger := EffectTrigger.CONTINUOUS,
      modifies_rules := true,
      rule_modifier := some "unicorns_are_pandas" }),
  ("sadistic_ritual",
    { effect_id := "sadistic_ritual",
      name := "Sadistic Ritual",
      trigger := EffectTrigger.BEGINNING_OF_TURN,
      actions := [
        { action_type := EffActionType.SACRIFICE,
          target := { target_type := TargetType.OWN_UNICORN } },
        { action_type := EffActionType.DRAW,
          target := { target_type := TargetType.CONTROLLER },
          value := 1,
          condition := some "if_sacrificed" }] }),
  ("slowdown",
    { effect_id := "slowdown",
      name := "Slowdown",
      trigger := EffectTrigger.CONTINUOUS,
      modifies_rules := true,
      rule_modifier := some "cannot_play_instant" }),
  ("nanny_cam",
    { effect_id := "nanny_cam",
      name := "Nanny Cam",
      trigger := EffectTrigger.CONTINUOUS,
      modifies_rules := true,
      rule_modifier := some "hand_visible" }),
  ("tiny_stable",
    { effect_id := "tiny_stable",
      name := "Tiny Stable",
      trigger := EffectTrigger.CONTINUOUS,
      modifies_rules := true,
      rule_modifier := some "max_five_unicorns" }),
  ("back_kick",
    { effect_id := "back_kick",
      name := "Back Kick",
      trigger := EffectTrigger.ON_PLAY,
      actions := [
        { action_type := EffActionType.RETURN_TO_HAND,
          target := { target_type := TargetType.ANY_CARD_IN_STABLE } }] }),
  ("blatant_thievery",
    { effect_id := "blatant_thievery",
      name := "Blatant Thievery",
      trigger := EffectTrigger.ON_PLAY,
      actions := [
        { action_type := EffActionType.LOOK_AT_HAND,
          target := { target_type := TargetType.OTHER_PLAYER } },
        { action_type := EffActionType.STEAL,
          target := { target_type := TargetType.OTHER_HAND } }] }),
  ("change_of_luck",
    { effect_id := "change_of_luck",
      name := "Change of Luck",
      trigger := EffectTrigger.ON_PLAY,
      actions := [
        { action_type := EffActionType.DISCARD,
          target := { target_type := TargetType.OWN_HAND },
          value := (-1 : Int) },
        { action_type := EffActionType.DRAW,
          target := { target_type := TargetType.CONTROLLER },
          value := 5 },
        { action_type := EffActionType.DISCARD,
          target := { target_type := TargetType.OWN_HAND },
          value := 1,
          condition := some "per_card_discarded" }] }),
  ("glitter_tornado",
    { effect_id := "glitter_tornado",
      name := "Glitter Tornado",
      trigger := EffectTrigger.ON_PLAY,
      actions := [
        { action_type := EffActionType.SHUFFLE_INTO_DECK,
          target := { target_type := TargetType.OWN_CARD_IN_STABLE } },
        { action_type := EffActionType.SHUFFLE_INTO_DECK,
          target := { target_type := TargetType.OTHER_CARD_IN_STABLE },
          condition := some "for_each_player" }] }),
  ("good_deal",
    { effect_id := "good_deal",
      name := "Good Deal",
      trigger := EffectTrigger.ON_PLAY,
      actions := [
        { action_type := EffActionType.DRAW,
          target := { target_type := TargetType.CONTROLLER },
          value := 3 },
        { action_type := EffActionType.DISCARD,
          target := { target_type := TargetType.OWN_HAND },
          value := 1 }] }),
  ("kiss_of_life",
    { effect_id := "kiss_of_life",
      name := "Kiss of Life",
      trigger := EffectTrigger.ON_PLAY,
      actions := [
        { action_type := EffActionType.BRING_TO_STABLE,
          target := { target_type := TargetType.CARD_IN_DISCARD },
          condition := some "unicorn_card" },
        { action_type := EffActionType.SACRIFICE,
          target := { target_type := TargetType.OWN_UNICORN } }] }),
  ("mystical_vortex",
    { effect_id := "mystical_vortex",
      name := "Mystical Vortex",
      trigger := EffectTrigger.ON_PLAY,
      actions := [
        { action_type := EffActionType.DISCARD,
          target := { target_type := TargetType.OWN_HAND },
          value := 1 },
        { action_type := EffActionType.SACRIFICE,
          target := { target_type := TargetType.ANY_CARD_IN_STABLE } }] }),
  ("re_target",
    { effect_id := "re_target",
      name := "Re-Target",
      trigger := EffectTrigger.ON_PLAY,
      actions := [
        { action_type := EffActionType.SWAP,
          target := { target_type := TargetType.ANY_UPGRADE_OR_DOWNGRADE } }] }),
  ("reset_button",
    { effect_id := "reset_button",
      name := "Reset Button",
      trigger := EffectTrigger.ON_PLAY,
      actions := [
        { action_type := EffActionType.SACRIFICE,
          target := { target_type := TargetType.ANY_CARD_IN_STABLE },
          value := (-1 : Int) }] }),
  ("shake_up",
    { effect_id := "shake_up",
      name := "Shake Up",
      trigger := EffectTrigger.ON_PLAY,
      actions := [
        { action_type := EffActionType.SHUFFLE_INTO_DECK,
          target := { target_type := TargetType.CARD_IN_HAND },
          value := (-1 : Int) },
        { action_type := EffActionType.DRAW,
          target := { target_type := TargetType.ANY_PLAYER },
          value := 5 }] }),
  ("targeted_destruction",
    { effect_id := "targeted_destruction",
      name := "Targeted Destruction",
      trigger := EffectTrigger.ON_PLAY,
      actions := [
        { action_type := EffActionType.DESTROY,
          target := { target_type := TargetType.ANY_UPGRADE_OR_DOWNGRADE } }] }),
  ("two_for_one",
    { effect_id := "two_for_one",
      name := "Two-For-One",
      trigger := EffectTrigger.ON_PLAY,
      actions := [
        { action_type := EffActionType.SACRIFICE,
          target := { target_type := TargetType.OWN_CARD_IN_STABLE } },
        { action_type := EffActionType.DESTROY,
          target := { target_type := TargetType.OTHER_CARD_IN_STABLE },
          value := 2 }] }),
  ("unfair_bargain",
    { effect_id := "unfair_bargain",
      name := "Unfair Bargain",
      trigger := EffectTrigger.ON_PLAY,
      actions := [
        { action_type := EffActionType.SWAP,
          target := { target_type := TargetType.CARD_IN_HAND } }] }),
  ("unicorn_poison",
    { effect_id := "unicorn_poison",
      name := "Unicorn Poison",
      trigger := EffectTrigger.ON_PLAY,
      actions := [
        { action_type := EffActionType.DESTROY,
          target := { target_type := TargetType.ANY_UNICORN } }] }),
  ("unicorn_swap",
    { effect_id := "unicorn_swap",
      name := "Unicorn Swap",
      trigger := EffectTrigger.ON_PLAY,
      actions := [
        { action_type := EffActionType.SWAP,
          target := { target_type := TargetType.ANY_UNICORN } }] })]

/-- The Narwhal Torpedo card (from `src/cards/card_database.py`). -/
def torpedoCard : Card :=
  { id := "narwhal_torpedo", name := "Narwhal Torpedo",
    card_type := CardType.MAGICAL_UNICORN,
    effect_id := some "narwhal_torpedo" }

/-- Its tracked instance. -/
def torpedoCi : CardInstance := ci torpedoCard 41

/-- C1 witness scenario: player 0 holds Narwhal Torpedo; player 1 keeps a
basic unicorn on the board and no instants in hand, so the play resolves at
once. -/
def t0State : GameState :=
  { players := [{ player_idx := 0, name := "P1", hand := [torpedoCi] },
                { player_idx := 1, name := "P2", stable := [ci basicRed 21] }],
    num_players := 2, current_player_idx := 0,
    draw_pile := [ci basicRed 31],
    phase := GamePhase.ACTION, actions_remaining := 1 }

/-- The legal play of the torpedo. -/
def tAct : Action :=
  { action_type := ActionType.PLAY_CARD, player_idx := 0,
    card := some torpedoCi }

/-- The state after the play: the torpedo has sacrificed itself into the
discard pile and its DESTROY step suspends awaiting a target. -/
def t1State : GameState :=
  ((applyAction effectRegistry (fun l => l) 8 t0State tAct).toOption).getD {}

/-- C1 (amended): with the interrupt-chain holding slots
(`card_being_played` and `neigh_stack`) counted among the zones, every state
reachable from an invariant-satisfying start through legal actions — over a
registry whose SELF-targeted effect steps fit the shapes of the real
`EFFECT_REGISTRY` (`RegOk`, proved of the full embedded registry in the
witness) — keeps every tracked card in exactly one place: `allCards` is
duplicate-free, every tracked card occurs exactly once, and the whole card
pool is conserved as a multiset.  (The unamended claim, that the proper
zones alone cover every card at all times, is refuted by
`C1_zone_counterexample`: a card awaiting counter-responses sits in
`card_being_played` and in no zone.) -/
theorem C1_zone_invariant_amended (reg : Registry)
    (shuffle : List CardInstance → List CardInstance) (fuel : Nat)
    (s₀ s : GameState) (hreg : RegOk reg) (hsh : ∀ l, (shuffle l).Perm l)
    (h0 : Inv reg s₀) (hr : Reachable reg shuffle fuel s₀ s) :
    s.allCards.Nodup ∧ (∀ c ∈ s.allCards, s.allCards.count c = 1) ∧
      s.bag = s₀.bag := by
  obtain ⟨⟨hnd, _⟩, hb⟩ := reachable_preserve reg shuffle fuel s₀ s hreg hsh
    hr h0
  exact ⟨hnd, fun c hc => List.count_eq_one_of_mem hnd hc, hb⟩

/-- Witness for the amended C1 statement: over the full embedded
`EFFECT_REGISTRY`, a legal play of Narwhal Torpedo — whose ON_ENTER effect
auto-executes a SELF sacrifice and then suspends awaiting a DESTROY
target — keeps every card in exactly one place and conserves the pool. -/
theorem C1_zone_invariant_amended_witness :
    RegOk effectRegistry ∧ Inv effectRegistry t0State ∧
      t1State.discard_pile = [torpedoCi] ∧
      (t1State.allCards.Nodup ∧
        (∀ c ∈ t1State.allCards, t1State.allCards.count c = 1) ∧
        t1State.bag = t0State.bag) :=
  have hstep : applyAction effectRegistry (fun l => l) 8 t0State tAct =
      Except.ok t1State :=
    Except_toOption_ok _ _ (by decide)
  ⟨by decide, by decide, by decide,
    C1_zone_invariant_amended effectRegistry (fun l => l) 8 t0State t1State
      (by decide) (fun l => List.Perm.refl l) (by decide)
      (Reachable.step (Reachable.refl t0State) (by decide) hstep)⟩

end UU
